import Mathlib

/-
Verification of the ACH hierarchical-file <-> flat-table conversion core
(package `ach`, file `convert.go` of nao1215/fileparser).

The Go code is shallowly embedded: Go structs become Lean structures, Go
`int` becomes `Int` (64-bit overflow never matters for the quantities in
scope), nil pointers become `Option`, Go slices become `List`, and the
fallible reconstruction pipeline returns `Except`.  A Go runtime panic
(out-of-bounds slice access) is modelled by a dedicated error value
`RtErr.runtimeFault`, kept distinct from errors the Go functions return.
-/

namespace AchConv

/-- Whitespace predicate used by `strings.TrimSpace`.  We cover the ASCII
whitespace characters; the claims never involve non-ASCII whitespace. -/
def goIsSpace (c : Char) : Bool :=
  c = ' ' || c = '\t' || c = '\n' || c = '\r' || c = '\x0b' || c = '\x0c'

/-- `strings.TrimSpace`: drop leading and trailing whitespace. -/
def trimSpace (s : String) : String :=
  ⟨((s.data.dropWhile goIsSpace).reverse.dropWhile goIsSpace).reverse⟩

/-- Decimal digit character for d < 10 (helper for `strconv.Itoa`). -/
def digitChar : Nat → Char
  | 0 => '0' | 1 => '1' | 2 => '2' | 3 => '3' | 4 => '4'
  | 5 => '5' | 6 => '6' | 7 => '7' | 8 => '8' | _ => '9'

/-- Little-endian decimal digits, fuel-based so that the kernel can
evaluate it (`fuel ≥ n` suffices). -/
def natDigitsRevF : Nat → Nat → List Char
  | 0, _ => []
  | fuel + 1, n =>
    if n = 0 then [] else digitChar (n % 10) :: natDigitsRevF fuel (n / 10)

/-- Little-endian decimal digits of a natural number (empty for 0). -/
def natDigitsRev (n : Nat) : List Char := natDigitsRevF n n

theorem natDigitsRevF_zero (fuel : Nat) : natDigitsRevF fuel 0 = [] := by
  cases fuel <;> simp [natDigitsRevF]

theorem natDigitsRevF_eq_of_le :
    ∀ {f₁ f₂ n : Nat}, n ≤ f₁ → n ≤ f₂ → natDigitsRevF f₁ n = natDigitsRevF f₂ n := by
  intro f₁
  induction f₁ with
  | zero =>
    intro f₂ n h1 _
    have : n = 0 := Nat.le_zero.mp h1
    subst this
    rw [natDigitsRevF_zero, natDigitsRevF_zero]
  | succ k ih =>
    intro f₂ n h1 h2
    by_cases hn : n = 0
    · subst hn; rw [natDigitsRevF_zero, natDigitsRevF_zero]
    · cases f₂ with
      | zero => omega
      | succ m =>
        simp only [natDigitsRevF, hn, if_false]
        have hd : n / 10 < n := Nat.div_lt_self (Nat.pos_of_ne_zero hn) (by decide)
        congr 1
        exact ih (by omega) (by omega)

/-- The recursion equation of `natDigitsRev`. -/
theorem natDigitsRev_eq (n : Nat) :
    natDigitsRev n = if n = 0 then [] else digitChar (n % 10) :: natDigitsRev (n / 10) := by
  by_cases hn : n = 0
  · subst hn; simp [natDigitsRev, natDigitsRevF_zero]
  · rw [natDigitsRev]
    cases n with
    | zero => exact absurd rfl hn
    | succ k =>
      simp only [natDigitsRevF, hn, if_false]
      have hd : (k + 1) / 10 < k + 1 := Nat.div_lt_self (Nat.succ_pos k) (by decide)
      congr 1
      exact natDigitsRevF_eq_of_le (by omega) (le_refl _)

/-- Big-endian decimal digits of a natural number ("0" for 0). -/
def natDigits (n : Nat) : List Char :=
  if n = 0 then ['0'] else (natDigitsRev n).reverse

/-- `strconv.Itoa`: decimal representation of a (64-bit) integer. -/
def goItoa (i : Int) : String :=
  if i < 0 then ⟨'-' :: natDigits i.natAbs⟩ else ⟨natDigits i.toNat⟩

/-- Is `c` an ASCII decimal digit? -/
def isDigitChar (c : Char) : Bool := '0' ≤ c && c ≤ '9'

/-- Parse a run of decimal digits left to right onto an accumulator;
`none` if any character is not a digit. -/
def parseDigitsAcc : List Char → Nat → Option Nat
  | [], acc => some acc
  | c :: cs, acc =>
    if isDigitChar c then parseDigitsAcc cs (acc * 10 + (c.toNat - 48)) else none

/-- Character-list form of `strconv.Atoi`: optional sign followed by at
least one decimal digit. -/
def goAtoiList : List Char → Option Int
  | [] => none
  | c :: cs =>
    if c = '+' then
      if cs = [] then none else (parseDigitsAcc cs 0).map (fun n => (n : Int))
    else if c = '-' then
      if cs = [] then none else (parseDigitsAcc cs 0).map (fun n => -(n : Int))
    else (parseDigitsAcc (c :: cs) 0).map (fun n => (n : Int))

/-- `strconv.Atoi`.  Overflow is not modelled (Go `int` is 64-bit; all
quantities in this package are far smaller). -/
def goAtoi (s : String) : Option Int := goAtoiList s.data

theorem digitChar_isDigit {d : Nat} (hd : d < 10) : isDigitChar (digitChar d) = true := by
  interval_cases d <;> decide

theorem digitChar_toNat {d : Nat} (hd : d < 10) : (digitChar d).toNat - 48 = d := by
  interval_cases d <;> decide

theorem digitChar_ne_plus {d : Nat} (hd : d < 10) : digitChar d ≠ '+' := by
  interval_cases d <;> decide

theorem digitChar_ne_minus {d : Nat} (hd : d < 10) : digitChar d ≠ '-' := by
  interval_cases d <;> decide

theorem parseDigitsAcc_append (l₁ l₂ : List Char) (acc : Nat) :
    parseDigitsAcc (l₁ ++ l₂) acc =
      (parseDigitsAcc l₁ acc).bind (fun a => parseDigitsAcc l₂ a) := by
  induction l₁ generalizing acc with
  | nil => simp [parseDigitsAcc]
  | cons c cs ih =>
    simp only [List.cons_append, parseDigitsAcc]
    by_cases h : isDigitChar c
    · simp [h, ih]
    · simp [h]

theorem natDigitsRev_mem_digit {n : Nat} {c : Char} (h : c ∈ natDigitsRev n) :
    isDigitChar c = true ∧ c ≠ '+' ∧ c ≠ '-' := by
  induction n using Nat.strong_induction_on with
  | _ n ih =>
    rw [natDigitsRev_eq] at h
    by_cases hn : n = 0
    · simp [hn] at h
    · simp only [hn, dite_false] at h
      rcases List.mem_cons.mp h with hc | hc
      · subst hc
        have h10 : n % 10 < 10 := Nat.mod_lt _ (by decide)
        exact ⟨digitChar_isDigit h10, digitChar_ne_plus h10, digitChar_ne_minus h10⟩
      · exact ih (n / 10) (Nat.div_lt_self (Nat.pos_of_ne_zero hn) (by decide)) hc

theorem parseDigitsAcc_natDigitsRev (n : Nat) (hn : n ≠ 0) (acc : Nat) :
    parseDigitsAcc (natDigitsRev n).reverse acc =
      some (acc * 10 ^ (natDigitsRev n).length + n) := by
  induction n using Nat.strong_induction_on generalizing acc with
  | _ n ih =>
    rw [natDigitsRev_eq]
    simp only [hn, if_false, List.reverse_cons, List.length_cons]
    rw [parseDigitsAcc_append]
    have h10 : n % 10 < 10 := Nat.mod_lt _ (by decide)
    have hrev0 : natDigitsRev 0 = [] := by rw [natDigitsRev_eq]; simp
    by_cases hq : n / 10 = 0
    · have hlt : n < 10 := by omega
      have hmod : n % 10 = n := Nat.mod_eq_of_lt hlt
      rw [hq, hrev0]
      simp only [List.reverse_nil, List.length_nil, parseDigitsAcc, Option.some_bind, hmod]
      simp only [parseDigitsAcc, digitChar_isDigit hlt, if_true, digitChar_toNat hlt]
      norm_num
    · have hrec := ih (n / 10) (Nat.div_lt_self (Nat.pos_of_ne_zero hn) (by decide)) hq acc
      rw [hrec]
      simp only [Option.some_bind, parseDigitsAcc, digitChar_isDigit h10, if_true,
        digitChar_toNat h10]
      congr 1
      have hpow : 10 ^ ((natDigitsRev (n / 10)).length + 1) =
          10 ^ (natDigitsRev (n / 10)).length * 10 := by ring
      set L := (natDigitsRev (n / 10)).length with hL
      rw [hpow, ← mul_assoc]
      set A := acc * 10 ^ L with hA
      omega

theorem natDigits_ne_nil (n : Nat) : natDigits n ≠ [] := by
  rw [natDigits]
  by_cases hn : n = 0
  · simp [hn]
  · simp only [hn, if_false]
    intro hcontra
    have : natDigitsRev n = [] := by
      cases hrev : natDigitsRev n with
      | nil => rfl
      | cons c cs => rw [hrev] at hcontra; simp at hcontra
    rw [natDigitsRev_eq] at this
    simp [hn] at this

theorem natDigits_head_digit {n : Nat} {c : Char} {cs : List Char}
    (h : natDigits n = c :: cs) : c ≠ '+' ∧ c ≠ '-' := by
  rw [natDigits] at h
  by_cases hn : n = 0
  · simp [hn] at h
    rw [← h.1]; exact ⟨by decide, by decide⟩
  · simp only [hn, if_false] at h
    have hc : c ∈ (natDigitsRev n).reverse := by rw [h]; exact List.mem_cons_self _ _
    have := natDigitsRev_mem_digit (List.mem_reverse.mp hc)
    exact ⟨this.2.1, this.2.2⟩

theorem parseDigitsAcc_natDigits (n : Nat) :
    parseDigitsAcc (natDigits n) 0 = some n := by
  rw [natDigits]
  by_cases hn : n = 0
  · simp [hn, parseDigitsAcc, isDigitChar]
  · simp only [hn, if_false]
    rw [parseDigitsAcc_natDigitsRev n hn 0]
    simp

/-- `strconv.Atoi` inverts `strconv.Itoa`. -/
theorem goAtoi_goItoa (i : Int) : goAtoi (goItoa i) = some i := by
  rw [goItoa]
  by_cases hneg : i < 0
  · simp only [hneg, if_true, goAtoi, goAtoiList]
    have hnil := natDigits_ne_nil i.natAbs
    rw [if_neg hnil, parseDigitsAcc_natDigits]
    have habs : -(i.natAbs : Int) = i := by omega
    simp [habs]
    exact ⟨hnil, by rw [abs_of_neg hneg]; ring⟩
  · simp only [hneg, if_false, goAtoi]
    cases hds : natDigits i.toNat with
    | nil => exact absurd hds (natDigits_ne_nil _)
    | cons c cs =>
      have hcd := natDigits_head_digit hds
      simp only [goAtoiList]
      rw [if_neg hcd.1, if_neg hcd.2, ← hds, parseDigitsAcc_natDigits]
      have htn : ((i.toNat : Nat) : Int) = i := by omega
      simp [htn]

/-- `natDigits` never produces a negative value on reparse; a convenience
form of the round trip for natural numbers. -/
theorem goAtoi_goItoa_nat (n : Nat) : goAtoi (goItoa (n : Int)) = some (n : Int) :=
  goAtoi_goItoa _

/-! ## The tabular value consumed/produced by the core (`fileparser` package) -/

/-- `fileparser.ColumnType`. -/
inductive ColumnType where
  | text | integer | real | datetime
deriving DecidableEq

/-- `fileparser.TableData`: ordered column names, ordered rows of string
cells, one coarse type per column. -/
structure TableData where
  headers : List String
  records : List (List String)
  columnTypes : List ColumnType
deriving DecidableEq

/-! ## The hierarchical ACH file (external moov-io/ach types, the fields
`convert.go` reads and writes) -/

structure FileHeader where
  immediateDestination : String
  immediateOrigin : String
  fileCreationDate : String
  fileCreationTime : String
  fileIDModifier : String
  immediateDestinationName : String
  immediateOriginName : String
  referenceCode : String
deriving DecidableEq

structure BatchHeader where
  serviceClassCode : Int
  companyName : String
  companyDiscretionaryData : String
  companyIdentification : String
  standardEntryClassCode : String
  companyEntryDescription : String
  companyDescriptiveDate : String
  effectiveEntryDate : String
  originatorStatusCode : Int
  odfiIdentification : String
  batchNumber : Int
deriving DecidableEq

/-- Batch control totals: derived fields, recomputed by `File.Create`. -/
structure BatchControl where
  entryAddendaCount : Int
  entryHash : Int
  totalDebitEntryDollarAmount : Int
  totalCreditEntryDollarAmount : Int
deriving DecidableEq

structure Addenda02 where
  typeCode : String
  referenceInformationOne : String
  referenceInformationTwo : String
  terminalIdentificationCode : String
  transactionSerialNumber : String
  transactionDate : String
  authorizationCodeOrExpireDate : String
  terminalLocation : String
  terminalCity : String
  terminalState : String
  traceNumber : String
deriving DecidableEq

structure Addenda05 where
  typeCode : String
  paymentRelatedInformation : String
  sequenceNumber : Int
  entryDetailSequenceNumber : Int
deriving DecidableEq

structure Addenda98 where
  typeCode : String
  changeCode : String
  originalTrace : String
  originalDFI : String
  correctedData : String
  traceNumber : String
deriving DecidableEq

structure Addenda98Refused where
  typeCode : String
  changeCode : String
  originalTrace : String
  originalDFI : String
  correctedData : String
  refusedChangeCode : String
  traceSequenceNumber : String
  traceNumber : String
deriving DecidableEq

structure Addenda99 where
  typeCode : String
  returnCode : String
  originalTrace : String
  originalDFI : String
  addendaInformation : String
  traceNumber : String
deriving DecidableEq

structure Addenda99Dishonored where
  typeCode : String
  dishonoredReturnReasonCode : String
  originalEntryTraceNumber : String
  originalReceivingDFIIdentification : String
  returnTraceNumber : String
  returnSettlementDate : String
  returnReasonCode : String
  addendaInformation : String
  traceNumber : String
deriving DecidableEq

structure Addenda99Contested where
  typeCode : String
  contestedReturnCode : String
  originalEntryTraceNumber : String
  dateOriginalEntryReturned : String
  originalReceivingDFIIdentification : String
  originalSettlementDate : String
  returnTraceNumber : String
  returnSettlementDate : String
  returnReasonCode : String
  dishonoredReturnTraceNumber : String
  dishonoredReturnSettlementDate : String
  dishonoredReturnReasonCode : String
  traceNumber : String
deriving DecidableEq

/-- `ach.EntryDetail`.  Nil-able addenda pointers become `Option`; the Go
`Addenda05 []*ach.Addenda05` slice may hold nil pointers, hence
`List (Option Addenda05)`. -/
structure EntryDetail where
  transactionCode : Int
  rdfiIdentification : String
  checkDigit : String
  dfiAccountNumber : String
  amount : Int
  identificationNumber : String
  individualName : String
  discretionaryData : String
  addendaRecordIndicator : Int
  traceNumber : String
  category : String
  addenda02 : Option Addenda02
  addenda05 : List (Option Addenda05)
  addenda98 : Option Addenda98
  addenda98Refused : Option Addenda98Refused
  addenda99 : Option Addenda99
  addenda99Dishonored : Option Addenda99Dishonored
  addenda99Contested : Option Addenda99Contested
deriving DecidableEq

/-- A standard batch (`ach.Batcher`): header, entries, control. -/
structure Batch where
  header : BatchHeader
  entries : List EntryDetail
  control : BatchControl
deriving DecidableEq

structure IATBatchHeader where
  serviceClassCode : Int
  iatIndicator : String
  foreignExchangeIndicator : String
  foreignExchangeReferenceIndicator : Int
  foreignExchangeReference : String
  isoDestinationCountryCode : String
  originatorIdentification : String
  standardEntryClassCode : String
  companyEntryDescription : String
  isoOriginatingCurrencyCode : String
  isoDestinationCurrencyCode : String
  effectiveEntryDate : String
  odfiIdentification : String
  batchNumber : Int
deriving DecidableEq

structure Addenda10 where
  typeCode : String
  transactionTypeCode : String
  foreignPaymentAmount : Int
  foreignTraceNumber : String
  name : String
  entryDetailSequenceNumber : Int
deriving DecidableEq

structure Addenda11 where
  typeCode : String
  originatorName : String
  originatorStreetAddress : String
  entryDetailSequenceNumber : Int
deriving DecidableEq

structure Addenda12 where
  typeCode : String
  originatorCityStateProvince : String
  originatorCountryPostalCode : String
  entryDetailSequenceNumber : Int
deriving DecidableEq

structure Addenda13 where
  typeCode : String
  odfiName : String
  odfiIDNumberQualifier : String
  odfiIdentification : String
  odfiBranchCountryCode : String
  entryDetailSequenceNumber : Int
deriving DecidableEq

structure Addenda14 where
  typeCode : String
  rdfiName : String
  rdfiIDNumberQualifier : String
  rdfiIdentification : String
  rdfiBranchCountryCode : String
  entryDetailSequenceNumber : Int
deriving DecidableEq

structure Addenda15 where
  typeCode : String
  receiverIDNumber : String
  receiverStreetAddress : String
  entryDetailSequenceNumber : Int
deriving DecidableEq

structure Addenda16 where
  typeCode : String
  receiverCityStateProvince : String
  receiverCountryPostalCode : String
  entryDetailSequenceNumber : Int
deriving DecidableEq

structure Addenda17 where
  typeCode : String
  paymentRelatedInformation : String
  sequenceNumber : Int
  entryDetailSequenceNumber : Int
deriving DecidableEq

structure Addenda18 where
  typeCode : String
  foreignCorrespondentBankName : String
  foreignCorrespondentBankIDNumberQualifier : String
  foreignCorrespondentBankIDNumber : String
  foreignCorrespondentBankBranchCountryCode : String
  sequenceNumber : Int
  entryDetailSequenceNumber : Int
deriving DecidableEq

/-- `ach.IATEntryDetail`. -/
structure IATEntryDetail where
  transactionCode : Int
  rdfiIdentification : String
  checkDigit : String
  addendaRecords : Int
  amount : Int
  dfiAccountNumber : String
  ofacScreeningIndicator : String
  secondaryOFACScreeningIndicator : String
  addendaRecordIndicator : Int
  traceNumber : String
  category : String
  addenda10 : Option Addenda10
  addenda11 : Option Addenda11
  addenda12 : Option Addenda12
  addenda13 : Option Addenda13
  addenda14 : Option Addenda14
  addenda15 : Option Addenda15
  addenda16 : Option Addenda16
  addenda17 : List (Option Addenda17)
  addenda18 : List (Option Addenda18)
  addenda98 : Option Addenda98
  addenda99 : Option Addenda99
deriving DecidableEq

structure IATBatch where
  header : IATBatchHeader
  entries : List IATEntryDetail
deriving DecidableEq

/-- `ach.File` (the fields `convert.go` touches: header, standard batches,
IAT batches; the derived file control record is not read by the
conversion code and is omitted). -/
structure ACHFile where
  header : FileHeader
  batches : List Batch
  iatBatches : List IATBatch
deriving DecidableEq

/-! ## Access helpers shared by the reconstruction code -/

/-- Errors of reconstruction.  `runtimeFault` models a Go runtime panic
(out-of-bounds slice index); it is distinct from every error the Go
functions *return*.  `deepCopyFailure` mirrors the taxonomy but never
occurs in the pure value model of the external deep-copy library. -/
inductive RtErr where
  | noOriginal
  | deepCopyFailure
  | invalidIndex (col : String)
  | indexOutOfRange (col : String)
  | runtimeFault
  | createFailure
deriving DecidableEq

/-- The Go `map[string]int` built from a header list: later duplicate
names overwrite earlier ones, so lookup returns the last index. -/
def hIdx : List String → String → Option Nat
  | [], _ => none
  | h :: t, n =>
    match hIdx t n with
    | some j => some (j + 1)
    | none => if h = n then some 0 else none

/-- Unchecked Go map read (`headerIndex[name]`): missing keys yield the
zero value 0. -/
def hIdxD (hs : List String) (n : String) : Nat := (hIdx hs n).getD 0

/-- Go slice read `record[i]` with a `Nat` index: out of bounds is a
runtime panic. -/
def cellAt (rec : List String) (i : Nat) : Except RtErr String :=
  match rec.get? i with
  | some s => .ok s
  | none => .error .runtimeFault

/-- Go slice read with an `int` index: negative or too large panics. -/
def sliceGetI {α : Type} (xs : List α) (i : Int) : Except RtErr α :=
  if i < 0 then .error .runtimeFault
  else match xs.get? i.toNat with
    | some x => .ok x
    | none => .error .runtimeFault

/-- Parse an index cell with `strconv.Atoi`; failure is the Go functions'
`fmt.Errorf("invalid <col>: %w", err)`. -/
def parseIdxCell (rec : List String) (pos : Nat) (col : String) : Except RtErr Int := do
  let s ← cellAt rec pos
  match goAtoi s with
  | some v => .ok v
  | none => .error (.invalidIndex col)

/-! ## Flattening engine (hierarchy → tables), `FromFile` and helpers -/

def fileHeaderHeaders : List String :=
  ["immediate_destination", "immediate_origin", "file_creation_date",
   "file_creation_time", "file_id_modifier", "immediate_destination_name",
   "immediate_origin_name", "reference_code"]

/-- `convertFileHeader`: one row holding the file header's scalar fields. -/
def convertFileHeader (f : ACHFile) : TableData :=
  { headers := fileHeaderHeaders
    records := [[f.header.immediateDestination, f.header.immediateOrigin,
      f.header.fileCreationDate, f.header.fileCreationTime,
      f.header.fileIDModifier, f.header.immediateDestinationName,
      f.header.immediateOriginName, f.header.referenceCode]]
    columnTypes := List.replicate 8 .text }

def batchesHeaders : List String :=
  ["batch_index", "service_class_code", "company_name",
   "company_discretionary_data", "company_identification",
   "standard_entry_class_code", "company_entry_description",
   "company_descriptive_date", "effective_entry_date",
   "originator_status_code", "odfi_identification", "batch_number",
   "entry_addenda_count", "entry_hash", "total_debit", "total_credit"]

def batchesColumnTypes : List ColumnType :=
  [.integer, .integer, .text, .text, .text, .text, .text, .text, .text,
   .integer, .text, .integer, .integer, .integer, .integer, .integer]

def batchRowOf (i : Nat) (b : Batch) : List String :=
  [goItoa (i : Int), goItoa b.header.serviceClassCode,
   trimSpace b.header.companyName, trimSpace b.header.companyDiscretionaryData,
   trimSpace b.header.companyIdentification, b.header.standardEntryClassCode,
   trimSpace b.header.companyEntryDescription,
   trimSpace b.header.companyDescriptiveDate, b.header.effectiveEntryDate,
   goItoa b.header.originatorStatusCode, b.header.odfiIdentification,
   goItoa b.header.batchNumber, goItoa b.control.entryAddendaCount,
   goItoa b.control.entryHash, goItoa b.control.totalDebitEntryDollarAmount,
   goItoa b.control.totalCreditEntryDollarAmount]

/-- `convertBatches`. -/
def convertBatches (f : ACHFile) : TableData :=
  { headers := batchesHeaders
    records := f.batches.enum.map (fun p => batchRowOf p.1 p.2)
    columnTypes := batchesColumnTypes }

def entriesHeaders : List String :=
  ["batch_index", "entry_index", "transaction_code", "rdfi_identification",
   "check_digit", "dfi_account_number", "amount", "identification_number",
   "individual_name", "discretionary_data", "addenda_record_indicator",
   "trace_number", "category"]

def entriesColumnTypes : List ColumnType :=
  [.integer, .integer, .integer, .text, .text, .text, .integer, .text,
   .text, .text, .integer, .text, .text]

def entryRowOf (bi ei : Nat) (e : EntryDetail) : List String :=
  [goItoa (bi : Int), goItoa (ei : Int), goItoa e.transactionCode,
   e.rdfiIdentification, e.checkDigit, trimSpace e.dfiAccountNumber,
   goItoa e.amount, trimSpace e.identificationNumber,
   trimSpace e.individualName, trimSpace e.discretionaryData,
   goItoa e.addendaRecordIndicator, e.traceNumber, e.category]

/-- `convertEntries`. -/
def convertEntries (f : ACHFile) : TableData :=
  { headers := entriesHeaders
    records := f.batches.enum.flatMap
      (fun p => p.2.entries.enum.map (fun q => entryRowOf p.1 q.1 q.2))
    columnTypes := entriesColumnTypes }

def stdAddendaHeaders : List String :=
  ["batch_index", "entry_index", "addenda_index", "addenda_type",
   "type_code", "payment_related_information", "sequence_number",
   "entry_detail_sequence_number", "original_trace", "original_rdfi",
   "corrected_data", "change_code", "return_code", "addenda_information",
   "trace_number", "reference_information_one", "reference_information_two",
   "terminal_identification", "transaction_serial", "transaction_date",
   "authorization_code", "terminal_location", "terminal_city",
   "terminal_state", "refused_change_code", "trace_sequence_number",
   "dishonored_return_reason_code", "original_entry_trace_number",
   "original_receiving_dfi_identification", "return_trace_number",
   "return_settlement_date", "return_reason_code", "contested_return_code",
   "date_original_entry_returned", "original_settlement_date",
   "dishonored_return_trace_number", "dishonored_return_settlement_date",
   "dishonored_return_reason_code"]

def stdAddendaColumnTypes : List ColumnType :=
  [.integer, .integer, .integer, .text, .text, .text, .integer, .integer] ++
    List.replicate 30 .text

def row02 (bi ei k : Nat) (a : Addenda02) : List String :=
  [goItoa (bi : Int), goItoa (ei : Int), goItoa (k : Int), "02", a.typeCode,
   "", "0", "0", "", "", "", "", "", "", a.traceNumber,
   trimSpace a.referenceInformationOne, trimSpace a.referenceInformationTwo,
   trimSpace a.terminalIdentificationCode, trimSpace a.transactionSerialNumber,
   trimSpace a.transactionDate, trimSpace a.authorizationCodeOrExpireDate,
   trimSpace a.terminalLocation, trimSpace a.terminalCity,
   trimSpace a.terminalState,
   "", "", "", "", "", "", "", "", "", "", "", "", "", ""]

def row05 (bi ei k : Nat) (a : Addenda05) : List String :=
  [goItoa (bi : Int), goItoa (ei : Int), goItoa (k : Int), "05", a.typeCode,
   trimSpace a.paymentRelatedInformation, goItoa a.sequenceNumber,
   goItoa a.entryDetailSequenceNumber] ++ List.replicate 30 ""

def row98 (bi ei k : Nat) (a : Addenda98) : List String :=
  [goItoa (bi : Int), goItoa (ei : Int), goItoa (k : Int), "98", a.typeCode,
   "", "0", "0", a.originalTrace, a.originalDFI, trimSpace a.correctedData,
   a.changeCode, "", "", a.traceNumber] ++ List.replicate 23 ""

def row99 (bi ei k : Nat) (a : Addenda99) : List String :=
  [goItoa (bi : Int), goItoa (ei : Int), goItoa (k : Int), "99", a.typeCode,
   "", "0", "0", a.originalTrace, a.originalDFI, "", "", a.returnCode,
   trimSpace a.addendaInformation, a.traceNumber] ++ List.replicate 23 ""

def row98Refused (bi ei k : Nat) (a : Addenda98Refused) : List String :=
  [goItoa (bi : Int), goItoa (ei : Int), goItoa (k : Int), "98_refused",
   a.typeCode, "", "0", "0", a.originalTrace, a.originalDFI,
   trimSpace a.correctedData, a.changeCode, "", "", a.traceNumber,
   "", "", "", "", "", "", "", "", "",
   a.refusedChangeCode, a.traceSequenceNumber] ++ List.replicate 12 ""

def row99Dishonored (bi ei k : Nat) (a : Addenda99Dishonored) : List String :=
  [goItoa (bi : Int), goItoa (ei : Int), goItoa (k : Int), "99_dishonored",
   a.typeCode, "", "0", "0", "", "", "", "", "",
   trimSpace a.addendaInformation, a.traceNumber,
   "", "", "", "", "", "", "", "", "", "", "",
   a.dishonoredReturnReasonCode, a.originalEntryTraceNumber,
   a.originalReceivingDFIIdentification, a.returnTraceNumber,
   a.returnSettlementDate, a.returnReasonCode] ++ List.replicate 6 ""

def row99Contested (bi ei k : Nat) (a : Addenda99Contested) : List String :=
  [goItoa (bi : Int), goItoa (ei : Int), goItoa (k : Int), "99_contested",
   a.typeCode, "", "0", "0", "", "", "", "", "", "", a.traceNumber,
   "", "", "", "", "", "", "", "", "", "", "", "",
   a.originalEntryTraceNumber, a.originalReceivingDFIIdentification,
   a.returnTraceNumber, a.returnSettlementDate, a.returnReasonCode,
   a.contestedReturnCode, a.dateOriginalEntryReturned,
   a.originalSettlementDate, a.dishonoredReturnTraceNumber,
   a.dishonoredReturnSettlementDate, a.dishonoredReturnReasonCode]

/-- Addenda rows of one standard entry.  The source threads a counter
`addendaIdx` that starts at 0 and is incremented once per emitted row;
here each segment receives the number of rows already emitted, which is
the same value. -/
def entryAddendaRows (bi ei : Nat) (e : EntryDetail) : List (List String) :=
  let l02 := match e.addenda02 with | some a => [row02 bi ei 0 a] | none => []
  let c1 := l02.length
  let l05 := (e.addenda05.filterMap id).enum.map (fun p => row05 bi ei (c1 + p.1) p.2)
  let c2 := c1 + l05.length
  let l98 := match e.addenda98 with | some a => [row98 bi ei c2 a] | none => []
  let c3 := c2 + l98.length
  let l99 := match e.addenda99 with | some a => [row99 bi ei c3 a] | none => []
  let c4 := c3 + l99.length
  let l98r := match e.addenda98Refused with | some a => [row98Refused bi ei c4 a] | none => []
  let c5 := c4 + l98r.length
  let l99d := match e.addenda99Dishonored with | some a => [row99Dishonored bi ei c5 a] | none => []
  let c6 := c5 + l99d.length
  let l99c := match e.addenda99Contested with | some a => [row99Contested bi ei c6 a] | none => []
  l02 ++ l05 ++ l98 ++ l99 ++ l98r ++ l99d ++ l99c

/-- `convertAddenda`. -/
def convertAddenda (f : ACHFile) : TableData :=
  { headers := stdAddendaHeaders
    records := f.batches.enum.flatMap
      (fun p => p.2.entries.enum.flatMap (fun q => entryAddendaRows p.1 q.1 q.2))
    columnTypes := stdAddendaColumnTypes }

def iatBatchesHeaders : List String :=
  ["batch_index", "service_class_code", "iat_indicator",
   "foreign_exchange_indicator", "foreign_exchange_reference_indicator",
   "foreign_exchange_reference", "iso_destination_country_code",
   "originator_identification", "standard_entry_class_code",
   "company_entry_description", "iso_originating_currency_code",
   "iso_destination_currency_code", "effective_entry_date",
   "odfi_identification", "batch_number"]

def iatBatchesColumnTypes : List ColumnType :=
  [.integer, .integer, .text, .text, .integer, .text, .text, .text, .text,
   .text, .text, .text, .text, .text, .integer]

def iatBatchRowOf (i : Nat) (b : IATBatch) : List String :=
  [goItoa (i : Int), goItoa b.header.serviceClassCode,
   trimSpace b.header.iatIndicator, trimSpace b.header.foreignExchangeIndicator,
   goItoa b.header.foreignExchangeReferenceIndicator,
   trimSpace b.header.foreignExchangeReference,
   trimSpace b.header.isoDestinationCountryCode,
   trimSpace b.header.originatorIdentification,
   b.header.standardEntryClassCode,
   trimSpace b.header.companyEntryDescription,
   trimSpace b.header.isoOriginatingCurrencyCode,
   trimSpace b.header.isoDestinationCurrencyCode,
   b.header.effectiveEntryDate, b.header.odfiIdentification,
   goItoa b.header.batchNumber]

/-- `convertIATBatches`. -/
def convertIATBatches (f : ACHFile) : TableData :=
  { headers := iatBatchesHeaders
    records := f.iatBatches.enum.map (fun p => iatBatchRowOf p.1 p.2)
    columnTypes := iatBatchesColumnTypes }

def iatEntriesHeaders : List String :=
  ["batch_index", "entry_index", "transaction_code", "rdfi_identification",
   "check_digit", "addenda_records", "amount", "dfi_account_number",
   "ofac_screening_indicator", "secondary_ofac_screening_indicator",
   "addenda_record_indicator", "trace_number", "category"]

def iatEntriesColumnTypes : List ColumnType :=
  [.integer, .integer, .integer, .text, .text, .integer, .integer, .text,
   .text, .text, .integer, .text, .text]

def iatEntryRowOf (bi ei : Nat) (e : IATEntryDetail) : List String :=
  [goItoa (bi : Int), goItoa (ei : Int), goItoa e.transactionCode,
   e.rdfiIdentification, e.checkDigit, goItoa e.addendaRecords,
   goItoa e.amount, trimSpace e.dfiAccountNumber,
   trimSpace e.ofacScreeningIndicator,
   trimSpace e.secondaryOFACScreeningIndicator,
   goItoa e.addendaRecordIndicator, e.traceNumber, e.category]

/-- `convertIATEntries`. -/
def convertIATEntries (f : ACHFile) : TableData :=
  { headers := iatEntriesHeaders
    records := f.iatBatches.enum.flatMap
      (fun p => p.2.entries.enum.map (fun q => iatEntryRowOf p.1 q.1 q.2))
    columnTypes := iatEntriesColumnTypes }

def iatAddendaHeaders : List String :=
  ["batch_index", "entry_index", "addenda_index", "addenda_type",
   "type_code", "entry_detail_sequence_number", "transaction_type_code",
   "foreign_payment_amount", "foreign_trace_number",
   "receiving_company_name", "originator_name", "originator_street_address",
   "originator_city_state_province", "originator_country_postal_code",
   "odfi_name", "odfi_identification_number_qualifier",
   "odfi_identification", "odfi_branch_country_code", "rdfi_name",
   "rdfi_identification_number_qualifier", "rdfi_identification",
   "rdfi_branch_country_code", "receiver_identification_number",
   "receiver_street_address", "receiver_city_state_province",
   "receiver_country_postal_code", "payment_related_information",
   "sequence_number", "foreign_correspondent_bank_name",
   "foreign_correspondent_bank_id_number_qualifier",
   "foreign_correspondent_bank_id_number",
   "foreign_correspondent_bank_branch_country_code", "original_trace",
   "original_rdfi", "corrected_data", "change_code", "return_code",
   "addenda_information", "trace_number"]

/-- The source assigns IAT addenda column types by name. -/
def iatAddendaColumnTypes : List ColumnType :=
  iatAddendaHeaders.map (fun h =>
    if h = "batch_index" ∨ h = "entry_index" ∨ h = "addenda_index" ∨
       h = "entry_detail_sequence_number" ∨ h = "sequence_number" ∨
       h = "foreign_payment_amount"
    then .integer else .text)

def iatRow10 (bi ei k : Nat) (a : Addenda10) : List String :=
  [goItoa (bi : Int), goItoa (ei : Int), goItoa (k : Int), "10", a.typeCode,
   goItoa a.entryDetailSequenceNumber, a.transactionTypeCode,
   goItoa a.foreignPaymentAmount, trimSpace a.foreignTraceNumber,
   trimSpace a.name] ++ List.replicate 29 ""

def iatRow11 (bi ei k : Nat) (a : Addenda11) : List String :=
  [goItoa (bi : Int), goItoa (ei : Int), goItoa (k : Int), "11", a.typeCode,
   goItoa a.entryDetailSequenceNumber, "", "", "", "",
   trimSpace a.originatorName, trimSpace a.originatorStreetAddress] ++
    List.replicate 27 ""

def iatRow12 (bi ei k : Nat) (a : Addenda12) : List String :=
  [goItoa (bi : Int), goItoa (ei : Int), goItoa (k : Int), "12", a.typeCode,
   goItoa a.entryDetailSequenceNumber, "", "", "", "", "", "",
   trimSpace a.originatorCityStateProvince,
   trimSpace a.originatorCountryPostalCode] ++ List.replicate 25 ""

def iatRow13 (bi ei k : Nat) (a : Addenda13) : List String :=
  [goItoa (bi : Int), goItoa (ei : Int), goItoa (k : Int), "13", a.typeCode,
   goItoa a.entryDetailSequenceNumber, "", "", "", "", "", "", "", "",
   trimSpace a.odfiName, trimSpace a.odfiIDNumberQualifier,
   trimSpace a.odfiIdentification, trimSpace a.odfiBranchCountryCode] ++
    List.replicate 21 ""

def iatRow14 (bi ei k : Nat) (a : Addenda14) : List String :=
  [goItoa (bi : Int), goItoa (ei : Int), goItoa (k : Int), "14", a.typeCode,
   goItoa a.entryDetailSequenceNumber,
   "", "", "", "", "", "", "", "", "", "", "", "",
   trimSpace a.rdfiName, trimSpace a.rdfiIDNumberQualifier,
   trimSpace a.rdfiIdentification, trimSpace a.rdfiBranchCountryCode] ++
    List.replicate 17 ""

def iatRow15 (bi ei k : Nat) (a : Addenda15) : List String :=
  [goItoa (bi : Int), goItoa (ei : Int), goItoa (k : Int), "15", a.typeCode,
   goItoa a.entryDetailSequenceNumber,
   "", "", "", "", "", "", "", "", "", "", "", "", "", "", "", "",
   trimSpace a.receiverIDNumber, trimSpace a.receiverStreetAddress] ++
    List.replicate 15 ""

def iatRow16 (bi ei k : Nat) (a : Addenda16) : List String :=
  [goItoa (bi : Int), goItoa (ei : Int), goItoa (k : Int), "16", a.typeCode,
   goItoa a.entryDetailSequenceNumber,
   "", "", "", "", "", "", "", "", "", "", "", "", "", "", "", "", "", "",
   trimSpace a.receiverCityStateProvince,
   trimSpace a.receiverCountryPostalCode] ++ List.replicate 13 ""

def iatRow17 (bi ei k : Nat) (a : Addenda17) : List String :=
  [goItoa (bi : Int), goItoa (ei : Int), goItoa (k : Int), "17", a.typeCode,
   goItoa a.entryDetailSequenceNumber,
   "", "", "", "", "", "", "", "", "", "", "", "", "", "", "", "", "", "",
   "", "",
   trimSpace a.paymentRelatedInformation, goItoa a.sequenceNumber] ++
    List.replicate 11 ""

def iatRow18 (bi ei k : Nat) (a : Addenda18) : List String :=
  [goItoa (bi : Int), goItoa (ei : Int), goItoa (k : Int), "18", a.typeCode,
   goItoa a.entryDetailSequenceNumber,
   "", "", "", "", "", "", "", "", "", "", "", "", "", "", "", "", "", "",
   "", "", "",
   goItoa a.sequenceNumber, trimSpace a.foreignCorrespondentBankName,
   trimSpace a.foreignCorrespondentBankIDNumberQualifier,
   trimSpace a.foreignCorrespondentBankIDNumber,
   trimSpace a.foreignCorrespondentBankBranchCountryCode] ++
    List.replicate 7 ""

def iatRow98 (bi ei k : Nat) (a : Addenda98) : List String :=
  [goItoa (bi : Int), goItoa (ei : Int), goItoa (k : Int), "98", a.typeCode,
   ""] ++ List.replicate 26 "" ++
  [a.originalTrace, a.originalDFI, trimSpace a.correctedData, a.changeCode,
   "", "", a.traceNumber]

def iatRow99 (bi ei k : Nat) (a : Addenda99) : List String :=
  [goItoa (bi : Int), goItoa (ei : Int), goItoa (k : Int), "99", a.typeCode,
   ""] ++ List.replicate 26 "" ++
  [a.originalTrace, a.originalDFI, "", "", a.returnCode,
   trimSpace a.addendaInformation, a.traceNumber]

/-- Addenda rows of one IAT entry, in the source's traversal order
(10–16, each 17, each 18, 98, 99); like `entryAddendaRows` the counter
equals the number of rows already emitted. -/
def iatEntryAddendaRows (bi ei : Nat) (e : IATEntryDetail) : List (List String) :=
  let l10 := match e.addenda10 with | some a => [iatRow10 bi ei 0 a] | none => []
  let c1 := l10.length
  let l11 := match e.addenda11 with | some a => [iatRow11 bi ei c1 a] | none => []
  let c2 := c1 + l11.length
  let l12 := match e.addenda12 with | some a => [iatRow12 bi ei c2 a] | none => []
  let c3 := c2 + l12.length
  let l13 := match e.addenda13 with | some a => [iatRow13 bi ei c3 a] | none => []
  let c4 := c3 + l13.length
  let l14 := match e.addenda14 with | some a => [iatRow14 bi ei c4 a] | none => []
  let c5 := c4 + l14.length
  let l15 := match e.addenda15 with | some a => [iatRow15 bi ei c5 a] | none => []
  let c6 := c5 + l15.length
  let l16 := match e.addenda16 with | some a => [iatRow16 bi ei c6 a] | none => []
  let c7 := c6 + l16.length
  let l17 := (e.addenda17.filterMap id).enum.map (fun p => iatRow17 bi ei (c7 + p.1) p.2)
  let c8 := c7 + l17.length
  let l18 := (e.addenda18.filterMap id).enum.map (fun p => iatRow18 bi ei (c8 + p.1) p.2)
  let c9 := c8 + l18.length
  let l98 := match e.addenda98 with | some a => [iatRow98 bi ei c9 a] | none => []
  let c10 := c9 + l98.length
  let l99 := match e.addenda99 with | some a => [iatRow99 bi ei c10 a] | none => []
  l10 ++ l11 ++ l12 ++ l13 ++ l14 ++ l15 ++ l16 ++ l17 ++ l18 ++ l98 ++ l99

/-- `convertIATAddenda`. -/
def convertIATAddenda (f : ACHFile) : TableData :=
  { headers := iatAddendaHeaders
    records := f.iatBatches.enum.flatMap
      (fun p => p.2.entries.enum.flatMap (fun q => iatEntryAddendaRows p.1 q.1 q.2))
    columnTypes := iatAddendaColumnTypes }

/-- `ach.TableSet`: the seven tables (nil-able pointers become `Option`)
plus the reference to the original file. -/
structure TableSet where
  fileHeader : Option TableData
  batches : Option TableData
  entries : Option TableData
  addenda : Option TableData
  iatBatches : Option TableData
  iatEntries : Option TableData
  iatAddenda : Option TableData
  originalFile : Option ACHFile
deriving DecidableEq

/-- The table set `FromFile` builds for a non-nil file. -/
def fromFileTS (f : ACHFile) : TableSet :=
  { fileHeader := some (convertFileHeader f)
    batches := some (convertBatches f)
    entries := some (convertEntries f)
    addenda := some (convertAddenda f)
    iatBatches := if 0 < f.iatBatches.length then some (convertIATBatches f) else none
    iatEntries := if 0 < f.iatBatches.length then some (convertIATEntries f) else none
    iatAddenda := if 0 < f.iatBatches.length then some (convertIATAddenda f) else none
    originalFile := some f }

/-- `FromFile`: nil input yields a nil table set. -/
def FromFile : Option ACHFile → Option TableSet
  | none => none
  | some f => some (fromFileTS f)

/-! ## Reconstruction engine (tables → hierarchy), `ToFile` and helpers -/

/-- Replace the entry at `(b, e)`; used where the Go code mutates an
entry through the pointer obtained from the batch's entry slice. -/
def setEntry (f : ACHFile) (b e : Nat) (ed : EntryDetail) : ACHFile :=
  match f.batches.get? b with
  | some bat =>
    { f with batches := f.batches.set b { bat with entries := bat.entries.set e ed } }
  | none => f

/-- Replace the header of batch `b` (Go mutates it via `GetHeader()`). -/
def setBatchHeader (f : ACHFile) (b : Nat) (h : BatchHeader) : ACHFile :=
  match f.batches.get? b with
  | some bat => { f with batches := f.batches.set b { bat with header := h } }
  | none => f

def setIATEntry (f : ACHFile) (b e : Nat) (ed : IATEntryDetail) : ACHFile :=
  match f.iatBatches.get? b with
  | some bat =>
    { f with iatBatches := f.iatBatches.set b { bat with entries := bat.entries.set e ed } }
  | none => f

def setIATBatchHeader (f : ACHFile) (b : Nat) (h : IATBatchHeader) : ACHFile :=
  match f.iatBatches.get? b with
  | some bat => { f with iatBatches := f.iatBatches.set b { bat with header := h } }
  | none => f

/-- Guarded column update: the Go pattern
`if idx, ok := headerIndex[name]; ok && idx < len(record) { ... }`. -/
def updG {α : Type} (hs rec : List String) (name : String)
    (f : String → α → α) (x : α) : α :=
  match hIdx hs name with
  | some i =>
    match rec.get? i with
    | some v => f v x
    | none => x
  | none => x

/-- Guarded integer column update: applies only when `strconv.Atoi`
succeeds. -/
def updGInt {α : Type} (hs rec : List String) (name : String)
    (f : Int → α → α) (x : α) : α :=
  updG hs rec name
    (fun s x => match goAtoi s with | some v => f v x | none => x) x

/-- Unguarded column update: the Go pattern
`if idx, ok := headerIndex[name]; ok { ... record[idx] ... }`, where the
cell read can panic if the row is too short. -/
def updU {α : Type} (hs rec : List String) (name : String)
    (f : String → α → α) (x : α) : Except RtErr α :=
  match hIdx hs name with
  | some i => do
    let v ← cellAt rec i
    .ok (f v x)
  | none => .ok x

/-- Unguarded integer column update. -/
def updUInt {α : Type} (hs rec : List String) (name : String)
    (f : Int → α → α) (x : α) : Except RtErr α :=
  match hIdx hs name with
  | some i => do
    let v ← cellAt rec i
    match goAtoi v with
    | some n => .ok (f n x)
    | none => .ok x
  | none => .ok x

/-- `applyFileHeaderModifications`: overwrite header scalars from row 0;
no rows is a no-op. -/
def applyFileHeaderModifications (td : TableData) (f : ACHFile) : ACHFile :=
  match td.records.get? 0 with
  | none => f
  | some rec =>
    let hs := td.headers
    let h := f.header
    let h := updG hs rec "immediate_destination"
      (fun v h => { h with immediateDestination := v }) h
    let h := updG hs rec "immediate_origin"
      (fun v h => { h with immediateOrigin := v }) h
    let h := updG hs rec "file_creation_date"
      (fun v h => { h with fileCreationDate := v }) h
    let h := updG hs rec "file_creation_time"
      (fun v h => { h with fileCreationTime := v }) h
    let h := updG hs rec "file_id_modifier"
      (fun v h => { h with fileIDModifier := v }) h
    let h := updG hs rec "immediate_destination_name"
      (fun v h => { h with immediateDestinationName := v }) h
    let h := updG hs rec "immediate_origin_name"
      (fun v h => { h with immediateOriginName := v }) h
    let h := updG hs rec "reference_code"
      (fun v h => { h with referenceCode := v }) h
    { f with header := h }

/-- One row of `applyBatchModifications`.  A missing `batch_index` column
skips the row; a non-numeric index is fatal; only `batchIdx >= len` is
checked before the slice access, so a negative index faults. -/
def applyBatchRow (hs : List String) (f : ACHFile) (rec : List String) :
    Except RtErr ACHFile :=
  match hIdx hs "batch_index" with
  | none => .ok f
  | some pos => do
    let s ← cellAt rec pos
    let batchIdx ←
      match goAtoi s with
      | some v => Except.ok v
      | none => Except.error (.invalidIndex "batch_index")
    if (f.batches.length : Int) ≤ batchIdx then
      Except.error (.indexOutOfRange "batch_index")
    else do
      let bat ← sliceGetI f.batches batchIdx
      let h := bat.header
      let h := updGInt hs rec "service_class_code"
        (fun v h => { h with serviceClassCode := v }) h
      let h := updG hs rec "company_name"
        (fun v h => { h with companyName := v }) h
      let h := updG hs rec "company_discretionary_data"
        (fun v h => { h with companyDiscretionaryData := v }) h
      let h := updG hs rec "company_identification"
        (fun v h => { h with companyIdentification := v }) h
      let h := updG hs rec "standard_entry_class_code"
        (fun v h => { h with standardEntryClassCode := v }) h
      let h := updG hs rec "company_entry_description"
        (fun v h => { h with companyEntryDescription := v }) h
      let h := updG hs rec "company_descriptive_date"
        (fun v h => { h with companyDescriptiveDate := v }) h
      let h := updG hs rec "effective_entry_date"
        (fun v h => { h with effectiveEntryDate := v }) h
      let h := updGInt hs rec "originator_status_code"
        (fun v h => { h with originatorStatusCode := v }) h
      let h := updG hs rec "odfi_identification"
        (fun v h => { h with odfiIdentification := v }) h
      let h := updGInt hs rec "batch_number"
        (fun v h => { h with batchNumber := v }) h
      Except.ok (setBatchHeader f batchIdx.toNat h)

def applyBatchModifications (td : TableData) (f : ACHFile) : Except RtErr ACHFile :=
  td.records.foldlM (fun f r => applyBatchRow td.headers f r) f

/-- One row of `applyEntryModifications`.  Index cells are read through
the unchecked map (missing column reads position 0); out of range at
either level is fatal; field updates are unguarded cell reads. -/
def applyEntryRow (hs : List String) (f : ACHFile) (rec : List String) :
    Except RtErr ACHFile := do
  let batchIdx ← parseIdxCell rec (hIdxD hs "batch_index") "batch_index"
  let entryIdx ← parseIdxCell rec (hIdxD hs "entry_index") "entry_index"
  if (f.batches.length : Int) ≤ batchIdx then
    Except.error (.indexOutOfRange "batch_index")
  else do
    let bat ← sliceGetI f.batches batchIdx
    if (bat.entries.length : Int) ≤ entryIdx then
      Except.error (.indexOutOfRange "entry_index")
    else do
      let e ← sliceGetI bat.entries entryIdx
      let e ← updUInt hs rec "transaction_code"
        (fun v e => { e with transactionCode := v }) e
      let e ← updU hs rec "rdfi_identification"
        (fun v e => { e with rdfiIdentification := v }) e
      let e ← updU hs rec "check_digit"
        (fun v e => { e with checkDigit := v }) e
      let e ← updU hs rec "dfi_account_number"
        (fun v e => { e with dfiAccountNumber := v }) e
      let e ← updUInt hs rec "amount"
        (fun v e => { e with amount := v }) e
      let e ← updU hs rec "identification_number"
        (fun v e => { e with identificationNumber := v }) e
      let e ← updU hs rec "individual_name"
        (fun v e => { e with individualName := v }) e
      let e ← updU hs rec "discretionary_data"
        (fun v e => { e with discretionaryData := v }) e
      let e ← updUInt hs rec "addenda_record_indicator"
        (fun v e => { e with addendaRecordIndicator := v }) e
      let e ← updU hs rec "trace_number"
        (fun v e => { e with traceNumber := v }) e
      let e ← updU hs rec "category"
        (fun v e => { e with category := v }) e
      Except.ok (setEntry f batchIdx.toNat entryIdx.toNat e)

def applyEntryModifications (td : TableData) (f : ACHFile) : Except RtErr ACHFile :=
  td.records.foldlM (fun f r => applyEntryRow td.headers f r) f

/-- `applyAddenda02Modifications` (all guarded string updates). -/
def applyAddenda02Mods (hs rec : List String) (a : Addenda02) : Addenda02 :=
  let a := updG hs rec "reference_information_one"
    (fun v a => { a with referenceInformationOne := v }) a
  let a := updG hs rec "reference_information_two"
    (fun v a => { a with referenceInformationTwo := v }) a
  let a := updG hs rec "terminal_identification"
    (fun v a => { a with terminalIdentificationCode := v }) a
  let a := updG hs rec "transaction_serial"
    (fun v a => { a with transactionSerialNumber := v }) a
  let a := updG hs rec "transaction_date"
    (fun v a => { a with transactionDate := v }) a
  let a := updG hs rec "authorization_code"
    (fun v a => { a with authorizationCodeOrExpireDate := v }) a
  let a := updG hs rec "terminal_location"
    (fun v a => { a with terminalLocation := v }) a
  let a := updG hs rec "terminal_city"
    (fun v a => { a with terminalCity := v }) a
  updG hs rec "terminal_state" (fun v a => { a with terminalState := v }) a

/-- `applyAddenda05Modifications`. -/
def applyAddenda05Mods (hs rec : List String) (a : Addenda05) : Addenda05 :=
  let a := updG hs rec "payment_related_information"
    (fun v a => { a with paymentRelatedInformation := v }) a
  let a := updGInt hs rec "sequence_number"
    (fun v a => { a with sequenceNumber := v }) a
  updGInt hs rec "entry_detail_sequence_number"
    (fun v a => { a with entryDetailSequenceNumber := v }) a

/-- `applyAddenda98Modifications`. -/
def applyAddenda98Mods (hs rec : List String) (a : Addenda98) : Addenda98 :=
  let a := updG hs rec "change_code" (fun v a => { a with changeCode := v }) a
  let a := updG hs rec "original_trace" (fun v a => { a with originalTrace := v }) a
  let a := updG hs rec "original_rdfi" (fun v a => { a with originalDFI := v }) a
  updG hs rec "corrected_data" (fun v a => { a with correctedData := v }) a

/-- `applyAddenda99Modifications`. -/
def applyAddenda99Mods (hs rec : List String) (a : Addenda99) : Addenda99 :=
  let a := updG hs rec "return_code" (fun v a => { a with returnCode := v }) a
  let a := updG hs rec "original_trace" (fun v a => { a with originalTrace := v }) a
  let a := updG hs rec "original_rdfi" (fun v a => { a with originalDFI := v }) a
  updG hs rec "addenda_information" (fun v a => { a with addendaInformation := v }) a

/-- `applyAddenda98RefusedModifications`. -/
def applyAddenda98RefusedMods (hs rec : List String) (a : Addenda98Refused) :
    Addenda98Refused :=
  let a := updG hs rec "refused_change_code"
    (fun v a => { a with refusedChangeCode := v }) a
  let a := updG hs rec "original_trace" (fun v a => { a with originalTrace := v }) a
  let a := updG hs rec "original_rdfi" (fun v a => { a with originalDFI := v }) a
  let a := updG hs rec "corrected_data" (fun v a => { a with correctedData := v }) a
  let a := updG hs rec "change_code" (fun v a => { a with changeCode := v }) a
  let a := updG hs rec "trace_sequence_number"
    (fun v a => { a with traceSequenceNumber := v }) a
  updG hs rec "trace_number" (fun v a => { a with traceNumber := v }) a

/-- `applyAddenda99DishonoredModifications`. -/
def applyAddenda99DishonoredMods (hs rec : List String) (a : Addenda99Dishonored) :
    Addenda99Dishonored :=
  let a := updG hs rec "dishonored_return_reason_code"
    (fun v a => { a with dishonoredReturnReasonCode := v }) a
  let a := updG hs rec "original_entry_trace_number"
    (fun v a => { a with originalEntryTraceNumber := v }) a
  let a := updG hs rec "original_receiving_dfi_identification"
    (fun v a => { a with originalReceivingDFIIdentification := v }) a
  let a := updG hs rec "return_trace_number"
    (fun v a => { a with returnTraceNumber := v }) a
  let a := updG hs rec "return_settlement_date"
    (fun v a => { a with returnSettlementDate := v }) a
  let a := updG hs rec "return_reason_code"
    (fun v a => { a with returnReasonCode := v }) a
  let a := updG hs rec "addenda_information"
    (fun v a => { a with addendaInformation := v }) a
  updG hs rec "trace_number" (fun v a => { a with traceNumber := v }) a

/-- `applyAddenda99ContestedModifications`. -/
def applyAddenda99ContestedMods (hs rec : List String) (a : Addenda99Contested) :
    Addenda99Contested :=
  let a := updG hs rec "contested_return_code"
    (fun v a => { a with contestedReturnCode := v }) a
  let a := updG hs rec "original_entry_trace_number"
    (fun v a => { a with originalEntryTraceNumber := v }) a
  let a := updG hs rec "date_original_entry_returned"
    (fun v a => { a with dateOriginalEntryReturned := v }) a
  let a := updG hs rec "original_receiving_dfi_identification"
    (fun v a => { a with originalReceivingDFIIdentification := v }) a
  let a := updG hs rec "original_settlement_date"
    (fun v a => { a with originalSettlementDate := v }) a
  let a := updG hs rec "return_trace_number"
    (fun v a => { a with returnTraceNumber := v }) a
  let a := updG hs rec "return_settlement_date"
    (fun v a => { a with returnSettlementDate := v }) a
  let a := updG hs rec "return_reason_code"
    (fun v a => { a with returnReasonCode := v }) a
  let a := updG hs rec "dishonored_return_trace_number"
    (fun v a => { a with dishonoredReturnTraceNumber := v }) a
  let a := updG hs rec "dishonored_return_settlement_date"
    (fun v a => { a with dishonoredReturnSettlementDate := v }) a
  let a := updG hs rec "dishonored_return_reason_code"
    (fun v a => { a with dishonoredReturnReasonCode := v }) a
  updG hs rec "trace_number" (fun v a => { a with traceNumber := v }) a

/-- One row of `applyAddendaModifications`: three index cells must parse
(else fatal); rows beyond the batch or entry count are skipped; a
negative index passes the one-sided check and faults at the slice
access; dispatch on `addenda_type`, each variant applied only when
present.  For `"05"` the `addenda_index` is used directly as a position
into the entry's `Addenda05` slice. -/
def applyAddendaRow (hs : List String) (f : ACHFile) (rec : List String) :
    Except RtErr ACHFile := do
  let batchIdx ← parseIdxCell rec (hIdxD hs "batch_index") "batch_index"
  let entryIdx ← parseIdxCell rec (hIdxD hs "entry_index") "entry_index"
  let addendaIdx ← parseIdxCell rec (hIdxD hs "addenda_index") "addenda_index"
  if (f.batches.length : Int) ≤ batchIdx then Except.ok f
  else do
    let bat ← sliceGetI f.batches batchIdx
    if (bat.entries.length : Int) ≤ entryIdx then Except.ok f
    else do
      let e ← sliceGetI bat.entries entryIdx
      let addendaType := updG hs rec "addenda_type" (fun v _ => v) ""
      if addendaType = "02" then
        match e.addenda02 with
        | some a => Except.ok (setEntry f batchIdx.toNat entryIdx.toNat
            { e with addenda02 := some (applyAddenda02Mods hs rec a) })
        | none => Except.ok f
      else if addendaType = "05" then
        if addendaIdx < (e.addenda05.length : Int) then do
          let ao ← sliceGetI e.addenda05 addendaIdx
          match ao with
          | some a => Except.ok (setEntry f batchIdx.toNat entryIdx.toNat
              { e with addenda05 :=
                  (e.addenda05.set addendaIdx.toNat (some (applyAddenda05Mods hs rec a))) })
          | none => Except.ok f
        else Except.ok f
      else if addendaType = "98" then
        match e.addenda98 with
        | some a => Except.ok (setEntry f batchIdx.toNat entryIdx.toNat
            { e with addenda98 := some (applyAddenda98Mods hs rec a) })
        | none => Except.ok f
      else if addendaType = "98_refused" then
        match e.addenda98Refused with
        | some a => Except.ok (setEntry f batchIdx.toNat entryIdx.toNat
            { e with addenda98Refused := some (applyAddenda98RefusedMods hs rec a) })
        | none => Except.ok f
      else if addendaType = "99" then
        match e.addenda99 with
        | some a => Except.ok (setEntry f batchIdx.toNat entryIdx.toNat
            { e with addenda99 := some (applyAddenda99Mods hs rec a) })
        | none => Except.ok f
      else if addendaType = "99_dishonored" then
        match e.addenda99Dishonored with
        | some a => Except.ok (setEntry f batchIdx.toNat entryIdx.toNat
            { e with addenda99Dishonored := some (applyAddenda99DishonoredMods hs rec a) })
        | none => Except.ok f
      else if addendaType = "99_contested" then
        match e.addenda99Contested with
        | some a => Except.ok (setEntry f batchIdx.toNat entryIdx.toNat
            { e with addenda99Contested := some (applyAddenda99ContestedMods hs rec a) })
        | none => Except.ok f
      else Except.ok f

def applyAddendaModifications (td : TableData) (f : ACHFile) : Except RtErr ACHFile :=
  td.records.foldlM (fun f r => applyAddendaRow td.headers f r) f

/-- One row of `applyIATBatchModifications`: a non-numeric `batch_index`
is fatal, but an out-of-range one (both directions are checked here) is
silently skipped. -/
def applyIATBatchRow (hs : List String) (f : ACHFile) (rec : List String) :
    Except RtErr ACHFile := do
  let batchIdx ← parseIdxCell rec (hIdxD hs "batch_index") "batch_index"
  if batchIdx < 0 ∨ (f.iatBatches.length : Int) ≤ batchIdx then Except.ok f
  else do
    let bat ← sliceGetI f.iatBatches batchIdx
    let h := bat.header
    let h ← updUInt hs rec "service_class_code"
      (fun v h => { h with serviceClassCode := v }) h
    let h ← updU hs rec "iat_indicator" (fun v h => { h with iatIndicator := v }) h
    let h ← updU hs rec "foreign_exchange_indicator"
      (fun v h => { h with foreignExchangeIndicator := v }) h
    let h ← updUInt hs rec "foreign_exchange_reference_indicator"
      (fun v h => { h with foreignExchangeReferenceIndicator := v }) h
    let h ← updU hs rec "foreign_exchange_reference"
      (fun v h => { h with foreignExchangeReference := v }) h
    let h ← updU hs rec "iso_destination_country_code"
      (fun v h => { h with isoDestinationCountryCode := v }) h
    let h ← updU hs rec "originator_identification"
      (fun v h => { h with originatorIdentification := v }) h
    let h ← updU hs rec "standard_entry_class_code"
      (fun v h => { h with standardEntryClassCode := v }) h
    let h ← updU hs rec "company_entry_description"
      (fun v h => { h with companyEntryDescription := v }) h
    let h ← updU hs rec "iso_originating_currency_code"
      (fun v h => { h with isoOriginatingCurrencyCode := v }) h
    let h ← updU hs rec "iso_destination_currency_code"
      (fun v h => { h with isoDestinationCurrencyCode := v }) h
    let h ← updU hs rec "effective_entry_date"
      (fun v h => { h with effectiveEntryDate := v }) h
    let h ← updU hs rec "odfi_identification"
      (fun v h => { h with odfiIdentification := v }) h
    let h ← updUInt hs rec "batch_number" (fun v h => { h with batchNumber := v }) h
    Except.ok (setIATBatchHeader f batchIdx.toNat h)

def applyIATBatchModifications (td : TableData) (f : ACHFile) : Except RtErr ACHFile :=
  td.records.foldlM (fun f r => applyIATBatchRow td.headers f r) f

/-- One row of `applyIATEntryModifications`: out-of-range (either side)
is silently skipped; non-numeric indices are fatal. -/
def applyIATEntryRow (hs : List String) (f : ACHFile) (rec : List String) :
    Except RtErr ACHFile := do
  let batchIdx ← parseIdxCell rec (hIdxD hs "batch_index") "batch_index"
  let entryIdx ← parseIdxCell rec (hIdxD hs "entry_index") "entry_index"
  if batchIdx < 0 ∨ (f.iatBatches.length : Int) ≤ batchIdx then Except.ok f
  else do
    let bat ← sliceGetI f.iatBatches batchIdx
    if entryIdx < 0 ∨ (bat.entries.length : Int) ≤ entryIdx then Except.ok f
    else do
      let e ← sliceGetI bat.entries entryIdx
      let e ← updUInt hs rec "transaction_code"
        (fun v e => { e with transactionCode := v }) e
      let e ← updU hs rec "rdfi_identification"
        (fun v e => { e with rdfiIdentification := v }) e
      let e ← updU hs rec "check_digit" (fun v e => { e with checkDigit := v }) e
      let e ← updUInt hs rec "addenda_records"
        (fun v e => { e with addendaRecords := v }) e
      let e ← updUInt hs rec "amount" (fun v e => { e with amount := v }) e
      let e ← updU hs rec "dfi_account_number"
        (fun v e => { e with dfiAccountNumber := v }) e
      let e ← updU hs rec "ofac_screening_indicator"
        (fun v e => { e with ofacScreeningIndicator := v }) e
      let e ← updU hs rec "secondary_ofac_screening_indicator"
        (fun v e => { e with secondaryOFACScreeningIndicator := v }) e
      let e ← updUInt hs rec "addenda_record_indicator"
        (fun v e => { e with addendaRecordIndicator := v }) e
      let e ← updU hs rec "trace_number" (fun v e => { e with traceNumber := v }) e
      let e ← updU hs rec "category" (fun v e => { e with category := v }) e
      Except.ok (setIATEntry f batchIdx.toNat entryIdx.toNat e)

def applyIATEntryModifications (td : TableData) (f : ACHFile) : Except RtErr ACHFile :=
  td.records.foldlM (fun f r => applyIATEntryRow td.headers f r) f

/-- `findAddenda17Index`: subtract from `addenda_index` the number of
present Addenda10–16 slots. -/
def findAddenda17Index (e : IATEntryDetail) (addendaIdx : Int) : Int :=
  let offset : Int :=
    (if e.addenda10.isSome then 1 else 0) +
    (if e.addenda11.isSome then 1 else 0) +
    (if e.addenda12.isSome then 1 else 0) +
    (if e.addenda13.isSome then 1 else 0) +
    (if e.addenda14.isSome then 1 else 0) +
    (if e.addenda15.isSome then 1 else 0) +
    (if e.addenda16.isSome then 1 else 0)
  addendaIdx - offset

/-- `findAddenda18Index`: additionally subtract `len(Addenda17)`. -/
def findAddenda18Index (e : IATEntryDetail) (addendaIdx : Int) : Int :=
  let offset : Int :=
    (if e.addenda10.isSome then 1 else 0) +
    (if e.addenda11.isSome then 1 else 0) +
    (if e.addenda12.isSome then 1 else 0) +
    (if e.addenda13.isSome then 1 else 0) +
    (if e.addenda14.isSome then 1 else 0) +
    (if e.addenda15.isSome then 1 else 0) +
    (if e.addenda16.isSome then 1 else 0) +
    (e.addenda17.length : Int)
  addendaIdx - offset

/-- Update the Addenda17 occurrence at slice position `j` (the Go code
mutates it in place through the slice). -/
def setA17 (e : IATEntryDetail) (j : Nat) (a : Addenda17) : IATEntryDetail :=
  { e with addenda17 := e.addenda17.set j (some a) }

def setA18 (e : IATEntryDetail) (j : Nat) (a : Addenda18) : IATEntryDetail :=
  { e with addenda18 := e.addenda18.set j (some a) }

/-- One row of `applyIATAddendaModifications`.  Non-numeric
`batch_index`/`entry_index` are fatal; out-of-range rows are skipped; the
`addenda_type` cell is read unchecked; for `"17"`/`"18"` a non-numeric
`addenda_index` just skips the row, and the slice position is computed by
`findAddenda17Index`/`findAddenda18Index` with a fully two-sided guard. -/
def applyIATAddendaRow (hs : List String) (f : ACHFile) (rec : List String) :
    Except RtErr ACHFile := do
  let batchIdx ← parseIdxCell rec (hIdxD hs "batch_index") "batch_index"
  let entryIdx ← parseIdxCell rec (hIdxD hs "entry_index") "entry_index"
  if batchIdx < 0 ∨ (f.iatBatches.length : Int) ≤ batchIdx then Except.ok f
  else do
    let bat ← sliceGetI f.iatBatches batchIdx
    if entryIdx < 0 ∨ (bat.entries.length : Int) ≤ entryIdx then Except.ok f
    else do
      let e ← sliceGetI bat.entries entryIdx
      let addendaType ← cellAt rec (hIdxD hs "addenda_type")
      if addendaType = "10" then
        match e.addenda10 with
        | some a =>
          let a ← updU hs rec "transaction_type_code"
            (fun v a => { a with transactionTypeCode := v }) a
          let a ← updUInt hs rec "foreign_payment_amount"
            (fun v a => { a with foreignPaymentAmount := v }) a
          let a ← updU hs rec "foreign_trace_number"
            (fun v a => { a with foreignTraceNumber := v }) a
          let a ← updU hs rec "receiving_company_name"
            (fun v a => { a with name := v }) a
          Except.ok (setIATEntry f batchIdx.toNat entryIdx.toNat
            { e with addenda10 := some a })
        | none => Except.ok f
      else if addendaType = "11" then
        match e.addenda11 with
        | some a =>
          let a ← updU hs rec "originator_name"
            (fun v a => { a with originatorName := v }) a
          let a ← updU hs rec "originator_street_address"
            (fun v a => { a with originatorStreetAddress := v }) a
          Except.ok (setIATEntry f batchIdx.toNat entryIdx.toNat
            { e with addenda11 := some a })
        | none => Except.ok f
      else if addendaType = "12" then
        match e.addenda12 with
        | some a =>
          let a ← updU hs rec "originator_city_state_province"
            (fun v a => { a with originatorCityStateProvince := v }) a
          let a ← updU hs rec "originator_country_postal_code"
            (fun v a => { a with originatorCountryPostalCode := v }) a
          Except.ok (setIATEntry f batchIdx.toNat entryIdx.toNat
            { e with addenda12 := some a })
        | none => Except.ok f
      else if addendaType = "13" then
        match e.addenda13 with
        | some a =>
          let a ← updU hs rec "odfi_name" (fun v a => { a with odfiName := v }) a
          let a ← updU hs rec "odfi_identification_number_qualifier"
            (fun v a => { a with odfiIDNumberQualifier := v }) a
          let a ← updU hs rec "odfi_identification"
            (fun v a => { a with odfiIdentification := v }) a
          let a ← updU hs rec "odfi_branch_country_code"
            (fun v a => { a with odfiBranchCountryCode := v }) a
          Except.ok (setIATEntry f batchIdx.toNat entryIdx.toNat
            { e with addenda13 := some a })
        | none => Except.ok f
      else if addendaType = "14" then
        match e.addenda14 with
        | some a =>
          let a ← updU hs rec "rdfi_name" (fun v a => { a with rdfiName := v }) a
          let a ← updU hs rec "rdfi_identification_number_qualifier"
            (fun v a => { a with rdfiIDNumberQualifier := v }) a
          let a ← updU hs rec "rdfi_identification"
            (fun v a => { a with rdfiIdentification := v }) a
          let a ← updU hs rec "rdfi_branch_country_code"
            (fun v a => { a with rdfiBranchCountryCode := v }) a
          Except.ok (setIATEntry f batchIdx.toNat entryIdx.toNat
            { e with addenda14 := some a })
        | none => Except.ok f
      else if addendaType = "15" then
        match e.addenda15 with
        | some a =>
          let a ← updU hs rec "receiver_identification_number"
            (fun v a => { a with receiverIDNumber := v }) a
          let a ← updU hs rec "receiver_street_address"
            (fun v a => { a with receiverStreetAddress := v }) a
          Except.ok (setIATEntry f batchIdx.toNat entryIdx.toNat
            { e with addenda15 := some a })
        | none => Except.ok f
      else if addendaType = "16" then
        match e.addenda16 with
        | some a =>
          let a ← updU hs rec "receiver_city_state_province"
            (fun v a => { a with receiverCityStateProvince := v }) a
          let a ← updU hs rec "receiver_country_postal_code"
            (fun v a => { a with receiverCountryPostalCode := v }) a
          Except.ok (setIATEntry f batchIdx.toNat entryIdx.toNat
            { e with addenda16 := some a })
        | none => Except.ok f
      else if addendaType = "17" then do
        let s ← cellAt rec (hIdxD hs "addenda_index")
        match goAtoi s with
        | none => Except.ok f
        | some ai =>
          let j := findAddenda17Index e ai
          if 0 ≤ j ∧ j < (e.addenda17.length : Int) then
            match e.addenda17.get? j.toNat with
            | some (some a) =>
              let a ← updU hs rec "payment_related_information"
                (fun v a => { a with paymentRelatedInformation := v }) a
              Except.ok (setIATEntry f batchIdx.toNat entryIdx.toNat
                (setA17 e j.toNat a))
            | _ => Except.ok f
          else Except.ok f
      else if addendaType = "18" then do
        let s ← cellAt rec (hIdxD hs "addenda_index")
        match goAtoi s with
        | none => Except.ok f
        | some ai =>
          let j := findAddenda18Index e ai
          if 0 ≤ j ∧ j < (e.addenda18.length : Int) then
            match e.addenda18.get? j.toNat with
            | some (some a) =>
              let a ← updU hs rec "foreign_correspondent_bank_name"
                (fun v a => { a with foreignCorrespondentBankName := v }) a
              let a ← updU hs rec "foreign_correspondent_bank_id_number_qualifier"
                (fun v a => { a with foreignCorrespondentBankIDNumberQualifier := v }) a
              let a ← updU hs rec "foreign_correspondent_bank_id_number"
                (fun v a => { a with foreignCorrespondentBankIDNumber := v }) a
              let a ← updU hs rec "foreign_correspondent_bank_branch_country_code"
                (fun v a => { a with foreignCorrespondentBankBranchCountryCode := v }) a
              Except.ok (setIATEntry f batchIdx.toNat entryIdx.toNat
                (setA18 e j.toNat a))
            | _ => Except.ok f
          else Except.ok f
      else if addendaType = "98" then
        match e.addenda98 with
        | some a =>
          let a ← updU hs rec "original_trace"
            (fun v a => { a with originalTrace := v }) a
          let a ← updU hs rec "original_rdfi"
            (fun v a => { a with originalDFI := v }) a
          let a ← updU hs rec "corrected_data"
            (fun v a => { a with correctedData := v }) a
          let a ← updU hs rec "change_code" (fun v a => { a with changeCode := v }) a
          let a ← updU hs rec "trace_number"
            (fun v a => { a with traceNumber := v }) a
          Except.ok (setIATEntry f batchIdx.toNat entryIdx.toNat
            { e with addenda98 := some a })
        | none => Except.ok f
      else if addendaType = "99" then
        match e.addenda99 with
        | some a =>
          let a ← updU hs rec "original_trace"
            (fun v a => { a with originalTrace := v }) a
          let a ← updU hs rec "original_rdfi"
            (fun v a => { a with originalDFI := v }) a
          let a ← updU hs rec "return_code" (fun v a => { a with returnCode := v }) a
          let a ← updU hs rec "addenda_information"
            (fun v a => { a with addendaInformation := v }) a
          let a ← updU hs rec "trace_number"
            (fun v a => { a with traceNumber := v }) a
          Except.ok (setIATEntry f batchIdx.toNat entryIdx.toNat
            { e with addenda99 := some a })
        | none => Except.ok f
      else Except.ok f

def applyIATAddendaModifications (td : TableData) (f : ACHFile) : Except RtErr ACHFile :=
  td.records.foldlM (fun f r => applyIATAddendaRow td.headers f r) f

/-! ## Control recalculation and deep copy (external collaborators) -/

/-- Modelled from the spec: `deepcopy.Copy` from the external
tiendc/go-deepcopy library is not part of this repository.  Per the spec
(§4.4, §3) it produces a structurally independent copy of the file such
that no mutation of the copy can be observed through the original; in a
pure value model that copy is the value itself, and for these concrete
struct/slice/pointer types it always succeeds (the `DeepCopyFailure`
taxonomy entry never fires). -/
def deepCopyFile (f : ACHFile) : ACHFile := f

/-- Number of addenda records attached to a standard entry. -/
def addendaCountOfEntry (e : EntryDetail) : Int :=
  (if e.addenda02.isSome then 1 else 0) +
  ((e.addenda05.filterMap id).length : Int) +
  (if e.addenda98.isSome then 1 else 0) +
  (if e.addenda99.isSome then 1 else 0) +
  (if e.addenda98Refused.isSome then 1 else 0) +
  (if e.addenda99Dishonored.isSome then 1 else 0) +
  (if e.addenda99Contested.isSome then 1 else 0)

/-- NACHA transaction-code convention: units digit 2–4 is a credit. -/
def isCreditCode (c : Int) : Bool :=
  c % 10 = 2 || c % 10 = 3 || c % 10 = 4

/-- NACHA transaction-code convention: units digit 7–9 is a debit. -/
def isDebitCode (c : Int) : Bool :=
  c % 10 = 7 || c % 10 = 8 || c % 10 = 9

/-- Recompute one batch's derived control totals. -/
def recalcBatch (b : Batch) : Batch :=
  { b with control :=
    { entryAddendaCount :=
        (b.entries.length : Int) + (b.entries.map addendaCountOfEntry).sum
      entryHash :=
        ((b.entries.map (fun e => (goAtoi e.rdfiIdentification).getD 0)).sum) %
          10000000000
      totalDebitEntryDollarAmount :=
        ((b.entries.filter (fun e => isDebitCode e.transactionCode)).map
          (fun e => e.amount)).sum
      totalCreditEntryDollarAmount :=
        ((b.entries.filter (fun e => isCreditCode e.transactionCode)).map
          (fun e => e.amount)).sum } }

/-- Modelled from the spec: `(*ach.File).Create` from the external
moov-io/ach codec is not part of this repository.  Per the spec (§4.3
step 7, §3, §7) it recomputes the derived control totals (entry/addenda
count, entry hash, debit/credit totals) of every batch as a final pass,
fails with a control-recalculation error when required header fields are
missing, and does not modify header scalar fields, entries or addenda.
The debit/credit split follows the standard transaction-code convention
(`isCreditCode`/`isDebitCode`). -/
def fileCreate (f : ACHFile) : Except RtErr ACHFile :=
  if f.header.immediateDestination = "" ∨ f.header.immediateOrigin = "" then
    .error .createFailure
  else .ok { f with batches := f.batches.map recalcBatch }

/-! ## `ToFile`: clone-then-mutate pipeline with explicit memory state -/

/-- The two file objects alive during `ToFile`: the caller's original and
the working deep copy.  Writes during reconstruction target `work`
only. -/
structure MemState where
  caller : ACHFile
  work : ACHFile

/-- Run one reconstruction step on the working copy; the caller's file is
carried through untouched, and after a failure no further writes
happen. -/
def runStep (f : ACHFile → Except RtErr ACHFile) :
    MemState × Option RtErr → MemState × Option RtErr
  | (s, some e) => (s, some e)
  | (s, none) =>
    match f s.work with
    | .ok w => (⟨s.caller, w⟩, none)
    | .error e => (s, some e)

/-- Apply one optional table when it is non-nil and has rows (the Go
guard `ts.X != nil && len(ts.X.Records) > 0`). -/
def tableStep (t : Option TableData)
    (app : TableData → ACHFile → Except RtErr ACHFile) (w : ACHFile) :
    Except RtErr ACHFile :=
  match t with
  | some td => if 0 < td.records.length then app td w else .ok w
  | none => .ok w

/-- The file-header step never fails. -/
def fileHeaderStep (t : TableSet) (w : ACHFile) : Except RtErr ACHFile :=
  match t.fileHeader with
  | some td => if 0 < td.records.length then .ok (applyFileHeaderModifications td w) else .ok w
  | none => .ok w

/-- The whole `ToFile` body after the nil checks, with the caller's file
threaded explicitly: deep-copy, apply the seven tables in order, then
recalculate controls.  Go wraps each step's error with context via
`fmt.Errorf`; the model keeps the inner error's identity. -/
def toFileMem (t : TableSet) (orig : ACHFile) : MemState × Option RtErr :=
  let s0 : MemState × Option RtErr := (⟨orig, deepCopyFile orig⟩, none)
  let s1 := runStep (fileHeaderStep t) s0
  let s2 := runStep (tableStep t.batches applyBatchModifications) s1
  let s3 := runStep (tableStep t.entries applyEntryModifications) s2
  let s4 := runStep (tableStep t.addenda applyAddendaModifications) s3
  let s5 := runStep (tableStep t.iatBatches applyIATBatchModifications) s4
  let s6 := runStep (tableStep t.iatEntries applyIATEntryModifications) s5
  let s7 := runStep (tableStep t.iatAddenda applyIATAddendaModifications) s6
  runStep fileCreate s7

/-- `ToFile`: nil table set or nil original is an error; otherwise run
the pipeline and return the working copy or the first error. -/
def ToFile : Option TableSet → Except RtErr ACHFile
  | none => .error .noOriginal
  | some t =>
    match t.originalFile with
    | none => .error .noOriginal
    | some orig =>
      match toFileMem t orig with
      | (s, none) => .ok s.work
      | (_, some e) => .error e

/-! ## Theorems -/

theorem exceptOk_bind {ε α β : Type} (a : α) (f : α → Except ε β) :
    (Except.ok a : Except ε α) >>= f = f a := rfl

theorem exceptErr_bind {ε α β : Type} (e : ε) (f : α → Except ε β) :
    (Except.error e : Except ε α) >>= f = Except.error e := rfl

theorem hIdxD_std_bi : hIdxD stdAddendaHeaders "batch_index" = 0 := by rfl
theorem hIdxD_std_ei : hIdxD stdAddendaHeaders "entry_index" = 1 := by rfl
theorem hIdxD_std_ai : hIdxD stdAddendaHeaders "addenda_index" = 2 := by rfl
theorem hIdx_std_tag : hIdx stdAddendaHeaders "addenda_type" = some 3 := by rfl
theorem hIdx_std_pri : hIdx stdAddendaHeaders "payment_related_information" = some 5 := by rfl
theorem hIdx_std_sq : hIdx stdAddendaHeaders "sequence_number" = some 6 := by rfl
theorem hIdx_std_esq : hIdx stdAddendaHeaders "entry_detail_sequence_number" = some 7 := by rfl

theorem intNatCast_nonneg_not_lt (n : Nat) : ¬ ((n : Int) < 0) := by omega

theorem runStep_caller (f : ACHFile → Except RtErr ACHFile)
    (s : MemState × Option RtErr) : ((runStep f s).1).caller = s.1.caller := by
  rcases s with ⟨s, e⟩
  cases e with
  | some e => rfl
  | none =>
    simp only [runStep]
    cases f s.work <;> rfl

/-- C3.  Reconstruction never mutates the caller's original file: in the
explicit memory model of `ToFile`'s body (`toFileMem`, which `ToFile` is
defined from), every write targets the working deep copy, so after the
pipeline finishes — with a file or with an error at any step — the
caller-side file is exactly the file passed in.  The external deep copy
is modelled from the spec as a full structural copy (`deepCopyFile`). -/
theorem toFile_never_mutates_original (t : TableSet) (orig : ACHFile) :
    (toFileMem t orig).1.caller = orig := by
  simp only [toFileMem, runStep_caller]

/-- C8.  For every non-nil file, `FromFile` yields a table set whose
file-header table has exactly one row, whose batches/entries/addenda
tables are always present (zero batches give empty, not absent, tables),
and whose three IAT tables are present exactly when the file has at
least one IAT batch. -/
theorem fromFile_table_shape (f : ACHFile) :
    FromFile (some f) = some (fromFileTS f) ∧
    (fromFileTS f).fileHeader.map (fun td => td.records.length) = some 1 ∧
    (fromFileTS f).batches = some (convertBatches f) ∧
    (fromFileTS f).entries = some (convertEntries f) ∧
    (fromFileTS f).addenda = some (convertAddenda f) ∧
    ((fromFileTS f).iatBatches.isSome = true ↔ f.iatBatches ≠ []) ∧
    ((fromFileTS f).iatEntries.isSome = true ↔ f.iatBatches ≠ []) ∧
    ((fromFileTS f).iatAddenda.isSome = true ↔ f.iatBatches ≠ []) ∧
    (f.batches = [] → (convertBatches f).records = [] ∧
      (convertEntries f).records = [] ∧ (convertAddenda f).records = []) := by
  refine ⟨rfl, rfl, rfl, rfl, rfl, ?_, ?_, ?_, ?_⟩
  · simp only [fromFileTS]
    constructor
    · intro h hnil
      rw [hnil] at h; simp at h
    · intro h
      have : 0 < f.iatBatches.length := List.length_pos.mpr h
      simp [this]
  · simp only [fromFileTS]
    constructor
    · intro h hnil
      rw [hnil] at h; simp at h
    · intro h
      have : 0 < f.iatBatches.length := List.length_pos.mpr h
      simp [this]
  · simp only [fromFileTS]
    constructor
    · intro h hnil
      rw [hnil] at h; simp at h
    · intro h
      have : 0 < f.iatBatches.length := List.length_pos.mpr h
      simp [this]
  · intro h
    simp [convertBatches, convertEntries, convertAddenda, h]

/-! ### C9: `addenda_index` is a running counter in the fixed traversal
order -/

/-- The `addenda_index` cell of an addenda row. -/
def idxCellOf (r : List String) : String := r.getD 2 ""

/-- The `addenda_type` cell of an addenda row. -/
def tagCellOf (r : List String) : String := r.getD 3 ""

/-- The string the flattener writes for counter value `k`. -/
def natIdxStr (k : Nat) : String := goItoa (k : Int)

/-- The rows `l` carry consecutive `addenda_index` values starting at
`c`. -/
def SegIdx (c : Nat) (l : List (List String)) : Prop :=
  l.map idxCellOf = (List.range' c l.length).map natIdxStr

theorem range'_append_nat (s m n : Nat) :
    List.range' s m ++ List.range' (s + m) n = List.range' s (m + n) := by
  have := List.range'_append s m n 1
  simpa [Nat.add_comm] using this

theorem segIdx_append {c : Nat} {l₁ l₂ : List (List String)}
    (h1 : SegIdx c l₁) (h2 : SegIdx (c + l₁.length) l₂) :
    SegIdx c (l₁ ++ l₂) := by
  unfold SegIdx at *
  rw [List.map_append, h1, h2, List.length_append, ← range'_append_nat,
    List.map_append]

theorem segIdx_nil (c : Nat) : SegIdx c [] := by simp [SegIdx]

theorem segIdx_singleton (c : Nat) (r : List String)
    (h : idxCellOf r = natIdxStr c) : SegIdx c [r] := by
  simp [SegIdx, List.range'_succ, h]

theorem segIdx_enumFrom {α : Type} (xs : List α) (s c : Nat)
    (g : Nat → α → List String)
    (h : ∀ k a, idxCellOf (g k a) = natIdxStr k) :
    ((xs.enumFrom s).map (fun p => g (c + p.1) p.2)).map idxCellOf =
      (List.range' (c + s) xs.length).map natIdxStr := by
  induction xs generalizing s with
  | nil => simp
  | cons x xs ih =>
    simp only [List.enumFrom, List.map_cons, List.length_cons, List.range'_succ,
      h (c + s) x]
    congr 1
    rw [show c + s + 1 = c + (s + 1) by omega]
    exact ih (s + 1)

theorem segIdx_enum {α : Type} (xs : List α) (c : Nat)
    (g : Nat → α → List String)
    (h : ∀ k a, idxCellOf (g k a) = natIdxStr k) :
    SegIdx c (xs.enum.map (fun p => g (c + p.1) p.2)) := by
  unfold SegIdx
  have hlen : (xs.enum.map (fun p => g (c + p.1) p.2)).length = xs.length := by
    simp
  rw [hlen]
  have := segIdx_enumFrom xs 0 c g h
  simpa using this

/-- The documented fixed traversal order of the standard addenda table:
02, then each 05 in original order, then 98, 99, 98-refused,
99-dishonored, 99-contested. -/
def stdTagSeq (e : EntryDetail) : List String :=
  (match e.addenda02 with | some _ => ["02"] | none => []) ++
  List.replicate (e.addenda05.filterMap id).length "05" ++
  (match e.addenda98 with | some _ => ["98"] | none => []) ++
  (match e.addenda99 with | some _ => ["99"] | none => []) ++
  (match e.addenda98Refused with | some _ => ["98_refused"] | none => []) ++
  (match e.addenda99Dishonored with | some _ => ["99_dishonored"] | none => []) ++
  (match e.addenda99Contested with | some _ => ["99_contested"] | none => [])

/-- The documented fixed traversal order of the IAT addenda table:
10–16, then each 17, then each 18, then 98, 99. -/
def iatTagSeq (e : IATEntryDetail) : List String :=
  (match e.addenda10 with | some _ => ["10"] | none => []) ++
  (match e.addenda11 with | some _ => ["11"] | none => []) ++
  (match e.addenda12 with | some _ => ["12"] | none => []) ++
  (match e.addenda13 with | some _ => ["13"] | none => []) ++
  (match e.addenda14 with | some _ => ["14"] | none => []) ++
  (match e.addenda15 with | some _ => ["15"] | none => []) ++
  (match e.addenda16 with | some _ => ["16"] | none => []) ++
  List.replicate (e.addenda17.filterMap id).length "17" ++
  List.replicate (e.addenda18.filterMap id).length "18" ++
  (match e.addenda98 with | some _ => ["98"] | none => []) ++
  (match e.addenda99 with | some _ => ["99"] | none => [])

theorem tag_enum {α : Type} (xs : List α) (c : Nat) (g : Nat → α → List String)
    (t : String) (h : ∀ k a, tagCellOf (g k a) = t) :
    (xs.enum.map (fun p => g (c + p.1) p.2)).map tagCellOf =
      List.replicate xs.length t := by
  rw [List.map_map]
  have heq : (tagCellOf ∘ fun p : Nat × α => g (c + p.1) p.2) = fun _ => t := by
    funext p; simp [Function.comp, h]
  rw [heq]
  simp

/-- C9.  Flattening assigns `addenda_index` as a running counter from 0
over all addenda of one entry in the fixed traversal order, for both the
standard table (02, each 05, 98, 99, 98-refused, 99-dishonored,
99-contested) and the IAT table (10–16, each 17, each 18, 98, 99); the
rows of one entry therefore carry consecutive indices 0, 1, 2, …. -/
theorem addenda_index_running_counter (bi ei : Nat) (e : EntryDetail)
    (ie : IATEntryDetail) :
    ((entryAddendaRows bi ei e).map idxCellOf =
      (List.range (entryAddendaRows bi ei e).length).map natIdxStr) ∧
    ((entryAddendaRows bi ei e).map tagCellOf = stdTagSeq e) ∧
    ((iatEntryAddendaRows bi ei ie).map idxCellOf =
      (List.range (iatEntryAddendaRows bi ei ie).length).map natIdxStr) ∧
    ((iatEntryAddendaRows bi ei ie).map tagCellOf = iatTagSeq ie) := by
  refine ⟨?_, ?_, ?_, ?_⟩
  · rw [List.range_eq_range']
    show SegIdx 0 (entryAddendaRows bi ei e)
    unfold entryAddendaRows
    refine segIdx_append (segIdx_append (segIdx_append (segIdx_append
      (segIdx_append (segIdx_append ?_ ?_) ?_) ?_) ?_) ?_) ?_ <;>
      (try simp only [List.length_append, List.length_map, List.enum_length,
        Nat.zero_add])
    · cases e.addenda02 with
      | none => exact segIdx_nil _
      | some a => exact segIdx_singleton _ _ rfl
    · exact segIdx_enum (e.addenda05.filterMap id) _
        (fun k a => row05 bi ei k a) (fun k a => rfl)
    · cases e.addenda98 with
      | none => exact segIdx_nil _
      | some a => exact segIdx_singleton _ _ rfl
    · cases e.addenda99 with
      | none => exact segIdx_nil _
      | some a => exact segIdx_singleton _ _ rfl
    · cases e.addenda98Refused with
      | none => exact segIdx_nil _
      | some a => exact segIdx_singleton _ _ rfl
    · cases e.addenda99Dishonored with
      | none => exact segIdx_nil _
      | some a => exact segIdx_singleton _ _ rfl
    · cases e.addenda99Contested with
      | none => exact segIdx_nil _
      | some a => exact segIdx_singleton _ _ rfl
  · unfold entryAddendaRows stdTagSeq
    simp only [List.map_append]
    congr 1
    · congr 1
      · congr 1
        · congr 1
          · congr 1
            · congr 1
              · cases e.addenda02 <;> rfl
              · exact tag_enum (e.addenda05.filterMap id) _
                  (fun k a => row05 bi ei k a) "05" (fun k a => rfl)
            · cases e.addenda98 <;> rfl
          · cases e.addenda99 <;> rfl
        · cases e.addenda98Refused <;> rfl
      · cases e.addenda99Dishonored <;> rfl
    · cases e.addenda99Contested <;> rfl
  · rw [List.range_eq_range']
    show SegIdx 0 (iatEntryAddendaRows bi ei ie)
    unfold iatEntryAddendaRows
    refine segIdx_append (segIdx_append (segIdx_append (segIdx_append
      (segIdx_append (segIdx_append (segIdx_append (segIdx_append
      (segIdx_append (segIdx_append ?_ ?_) ?_) ?_) ?_) ?_) ?_) ?_) ?_) ?_) ?_ <;>
      (try simp only [List.length_append, List.length_map, List.enum_length,
        Nat.zero_add])
    · cases ie.addenda10 with
      | none => exact segIdx_nil _
      | some a => exact segIdx_singleton _ _ rfl
    · cases ie.addenda11 with
      | none => exact segIdx_nil _
      | some a => exact segIdx_singleton _ _ rfl
    · cases ie.addenda12 with
      | none => exact segIdx_nil _
      | some a => exact segIdx_singleton _ _ rfl
    · cases ie.addenda13 with
      | none => exact segIdx_nil _
      | some a => exact segIdx_singleton _ _ rfl
    · cases ie.addenda14 with
      | none => exact segIdx_nil _
      | some a => exact segIdx_singleton _ _ rfl
    · cases ie.addenda15 with
      | none => exact segIdx_nil _
      | some a => exact segIdx_singleton _ _ rfl
    · cases ie.addenda16 with
      | none => exact segIdx_nil _
      | some a => exact segIdx_singleton _ _ rfl
    · exact segIdx_enum (ie.addenda17.filterMap id) _
        (fun k a => iatRow17 bi ei k a) (fun k a => rfl)
    · exact segIdx_enum (ie.addenda18.filterMap id) _
        (fun k a => iatRow18 bi ei k a) (fun k a => rfl)
    · cases ie.addenda98 with
      | none => exact segIdx_nil _
      | some a => exact segIdx_singleton _ _ rfl
    · cases ie.addenda99 with
      | none => exact segIdx_nil _
      | some a => exact segIdx_singleton _ _ rfl
  · unfold iatEntryAddendaRows iatTagSeq
    simp only [List.map_append]
    congr 1
    · congr 1
      · congr 1
        · congr 1
          · congr 1
            · congr 1
              · congr 1
                · congr 1
                  · congr 1
                    · congr 1
                      · cases ie.addenda10 <;> rfl
                      · cases ie.addenda11 <;> rfl
                    · cases ie.addenda12 <;> rfl
                  · cases ie.addenda13 <;> rfl
                · cases ie.addenda14 <;> rfl
              · cases ie.addenda15 <;> rfl
            · cases ie.addenda16 <;> rfl
          · exact tag_enum (ie.addenda17.filterMap id) _
              (fun k a => iatRow17 bi ei k a) "17" (fun k a => rfl)
        · exact tag_enum (ie.addenda18.filterMap id) _
            (fun k a => iatRow18 bi ei k a) "18" (fun k a => rfl)
      · cases ie.addenda98 <;> rfl
    · cases ie.addenda99 <;> rfl


/-! ### C2: occurrence resolution for repeatable addenda variants -/

/-- Extract the reconstructed entry at `(b, e)` from a `ToFile` result. -/
def entryAt (r : Except RtErr ACHFile) (b e : Nat) : Option EntryDetail :=
  match r with
  | .ok g =>
    match g.batches.get? b with
    | some bat => bat.entries.get? e
    | none => none
  | .error _ => none

/-- The payment-related information of `Addenda05` occurrence `k` of the
entry at `(b, e)`. -/
def a05PRIAt (r : Except RtErr ACHFile) (b e k : Nat) : Option String :=
  match entryAt r b e with
  | some ed =>
    match ed.addenda05.get? k with
    | some (some a) => some a.paymentRelatedInformation
    | _ => none
  | none => none

def cx2A05A : Addenda05 :=
  { typeCode := "05", paymentRelatedInformation := "INFO-A",
    sequenceNumber := 1, entryDetailSequenceNumber := 1 }

def cx2A05B : Addenda05 :=
  { typeCode := "05", paymentRelatedInformation := "INFO-B",
    sequenceNumber := 2, entryDetailSequenceNumber := 1 }

def cx2A02 : Addenda02 :=
  { typeCode := "02", referenceInformationOne := "", referenceInformationTwo := "",
    terminalIdentificationCode := "T1", transactionSerialNumber := "S1",
    transactionDate := "0624", authorizationCodeOrExpireDate := "",
    terminalLocation := "L", terminalCity := "C", terminalState := "ST",
    traceNumber := "121042880000001" }

def cx2Entry : EntryDetail :=
  { transactionCode := 22, rdfiIdentification := "23138010",
    checkDigit := "4", dfiAccountNumber := "81967038518",
    amount := 100000, identificationNumber := "", individualName := "Jane Doe",
    discretionaryData := "", addendaRecordIndicator := 1,
    traceNumber := "121042880000001", category := "Forward",
    addenda02 := some cx2A02, addenda05 := [some cx2A05A, some cx2A05B],
    addenda98 := none, addenda98Refused := none, addenda99 := none,
    addenda99Dishonored := none, addenda99Contested := none }

def cx2BatchHeader : BatchHeader :=
  { serviceClassCode := 220, companyName := "Company", companyDiscretionaryData := "",
    companyIdentification := "121042882", standardEntryClassCode := "PPD",
    companyEntryDescription := "PAYROLL", companyDescriptiveDate := "",
    effectiveEntryDate := "190624", originatorStatusCode := 1,
    odfiIdentification := "12104288", batchNumber := 1 }

def cx2Control : BatchControl :=
  { entryAddendaCount := 4, entryHash := 23138010,
    totalDebitEntryDollarAmount := 0, totalCreditEntryDollarAmount := 100000 }

def cx2Header : FileHeader :=
  { immediateDestination := "231380104", immediateOrigin := "121042882",
    fileCreationDate := "190624", fileCreationTime := "0000",
    fileIDModifier := "A", immediateDestinationName := "", immediateOriginName := "",
    referenceCode := "" }

def cx2Batch : Batch :=
  { header := cx2BatchHeader, entries := [cx2Entry], control := cx2Control }

def cx2File : ACHFile :=
  { header := cx2Header, batches := [cx2Batch], iatBatches := [] }

/-- The flattened table set of `cx2File` with one cell edit: the
`payment_related_information` cell (column 5) of the addenda row with
`addenda_index` 1 — the row encoding the first `Addenda05` occurrence,
which follows the `Addenda02` row — is set to "EDITED". -/
def cx2TS : TableSet :=
  let t := fromFileTS cx2File
  { t with addenda := t.addenda.map (fun td =>
      { td with records := td.records.set 1 ((td.records.getD 1 []).set 5 "EDITED") }) }

/-- C2 counterexample.  The claim says the edited `"05"` row with
`addenda_index` 1 on an entry that also carries an `Addenda02` updates
`Addenda05` occurrence 1 − 1 = 0.  On the code it does not: occurrence 0
keeps its original value and occurrence 1 receives the edit, because the
standard-table decoder indexes `Addenda05` with the raw `addenda_index`
(no subtraction of the preceding non-repeatable addenda). -/
theorem addenda05_offset_counterexample :
    a05PRIAt (ToFile (some cx2TS)) 0 0 0 = some "INFO-A" ∧
    a05PRIAt (ToFile (some cx2TS)) 0 0 1 = some "EDITED" ∧
    "INFO-A" ≠ "EDITED" := by
  refine ⟨by decide, by decide, by decide⟩

/-- The count of present non-repeatable IAT addenda (10–16) preceding
the repeatable variants in the fixed order. -/
def iatNonRepCount (e : IATEntryDetail) : Int :=
  (if e.addenda10.isSome then 1 else 0) +
  (if e.addenda11.isSome then 1 else 0) +
  (if e.addenda12.isSome then 1 else 0) +
  (if e.addenda13.isSome then 1 else 0) +
  (if e.addenda14.isSome then 1 else 0) +
  (if e.addenda15.isSome then 1 else 0) +
  (if e.addenda16.isSome then 1 else 0)

/-- An edited standard addenda-table row with tag `"05"`: the three
index cells, the tag, and the data cells the `"05"` decoder reads; all
remaining columns are empty as on encode. -/
def edited05Row (bi ei k : Nat) (tc pri sq esq : String) : List String :=
  [goItoa (bi : Int), goItoa (ei : Int), goItoa (k : Int), "05", tc, pri, sq, esq] ++
    List.replicate 30 ""

/-- C2 amended.  The offset subtraction exists only for the IAT
repeatable variants: `findAddenda17Index` subtracts the count of present
Addenda10–16 and `findAddenda18Index` additionally subtracts
`len(Addenda17)`; for a standard `"05"` row the `addenda_index` `k` is
used directly as the position into the entry's `Addenda05` slice, so
(when `k` is in range and the slot is non-nil) the row updates the
occurrence at position `k`, not `k` minus the preceding count. -/
theorem addenda05_raw_position_and_iat_offsets
    (f : ACHFile) (bi ei k : Nat) (tc pri sq esq : String)
    (bat : Batch) (hb : f.batches.get? bi = some bat)
    (e : EntryDetail) (he : bat.entries.get? ei = some e)
    (oa : Option Addenda05) (ha : e.addenda05.get? k = some oa) (a : Addenda05)
    (hoa : oa = some a) (ie : IATEntryDetail) (j : Int) :
    (applyAddendaRow stdAddendaHeaders f (edited05Row bi ei k tc pri sq esq) =
      .ok (setEntry f bi ei { e with addenda05 :=
        (e.addenda05.set k (some (applyAddenda05Mods stdAddendaHeaders
          (edited05Row bi ei k tc pri sq esq) a))) }) ∧
      (applyAddenda05Mods stdAddendaHeaders (edited05Row bi ei k tc pri sq esq)
        a).paymentRelatedInformation = pri) ∧
    findAddenda17Index ie j = j - iatNonRepCount ie ∧
    findAddenda18Index ie j = j - iatNonRepCount ie - (ie.addenda17.length : Int) := by
  have hblt : bi < f.batches.length := (List.get?_eq_some.mp hb).1
  have helt : ei < bat.entries.length := (List.get?_eq_some.mp he).1
  have halt : k < e.addenda05.length := (List.get?_eq_some.mp ha).1
  subst hoa
  refine ⟨⟨?_, ?_⟩, ?_, ?_⟩
  · have hbneg : ¬ ((f.batches.length : Int) ≤ (bi : Int)) := by
      exact_mod_cast not_le.mpr hblt
    have heneg : ¬ ((bat.entries.length : Int) ≤ (ei : Int)) := by
      exact_mod_cast not_le.mpr helt
    have hklt : ((k : Nat) : Int) < ((e.addenda05.length : Nat) : Int) := by
      exact_mod_cast halt
    have htag : updG stdAddendaHeaders (edited05Row bi ei k tc pri sq esq)
        "addenda_type" (fun v _ => v) "" = "05" := by
      simp [updG, hIdx_std_tag, edited05Row, List.get?]
    simp only [applyAddendaRow, parseIdxCell, hIdxD_std_bi, hIdxD_std_ei,
      hIdxD_std_ai, htag]
    simp only [edited05Row, cellAt, List.cons_append, List.get?, goAtoi_goItoa,
      exceptOk_bind]
    rw [if_neg hbneg]
    simp only [sliceGetI, if_neg (intNatCast_nonneg_not_lt bi), Int.toNat_natCast,
      hb, exceptOk_bind]
    rw [if_neg heneg]
    simp only [if_neg (intNatCast_nonneg_not_lt ei), he, exceptOk_bind]
    rw [if_neg (by decide : ¬ (("05" : String) = "02"))]
    simp only [eq_self_iff_true, if_true, if_pos hklt,
      if_neg (intNatCast_nonneg_not_lt k), ha, exceptOk_bind]
  · simp only [applyAddenda05Mods, updG, updGInt, hIdx_std_pri, hIdx_std_sq,
      hIdx_std_esq, edited05Row, List.cons_append, List.get?]
    cases goAtoi sq <;> cases goAtoi esq <;> rfl
  · rfl
  · unfold findAddenda18Index iatNonRepCount
    ring

/-- A minimal IAT entry used by the witness. -/
def cx2IATEntry : IATEntryDetail :=
  { transactionCode := 22, rdfiIdentification := "12104288", checkDigit := "2",
    addendaRecords := 7, amount := 5000, dfiAccountNumber := "1234",
    ofacScreeningIndicator := "", secondaryOFACScreeningIndicator := "",
    addendaRecordIndicator := 1, traceNumber := "121042880000001",
    category := "Forward",
    addenda10 := none, addenda11 := none, addenda12 := none, addenda13 := none,
    addenda14 := none, addenda15 := none, addenda16 := none,
    addenda17 := [], addenda18 := [], addenda98 := none, addenda99 := none }

theorem addenda05_raw_position_and_iat_offsets_witness :
    (cx2File.batches.get? 0 = some cx2Batch ∧
     cx2Batch.entries.get? 0 = some cx2Entry ∧
     cx2Entry.addenda05.get? 1 = some (some cx2A05B)) ∧
    ((applyAddendaRow stdAddendaHeaders cx2File
        (edited05Row 0 0 1 "05" "EDITED" "2" "1") =
      .ok (setEntry cx2File 0 0 { cx2Entry with addenda05 :=
        (cx2Entry.addenda05.set 1 (some (applyAddenda05Mods stdAddendaHeaders
          (edited05Row 0 0 1 "05" "EDITED" "2" "1") cx2A05B))) }) ∧
      (applyAddenda05Mods stdAddendaHeaders
        (edited05Row 0 0 1 "05" "EDITED" "2" "1")
        cx2A05B).paymentRelatedInformation = "EDITED") ∧
    findAddenda17Index cx2IATEntry 5 = 5 - iatNonRepCount cx2IATEntry ∧
    findAddenda18Index cx2IATEntry 5 = 5 - iatNonRepCount cx2IATEntry -
      (cx2IATEntry.addenda17.length : Int)) :=
  ⟨⟨by decide, by decide, by decide⟩,
    addenda05_raw_position_and_iat_offsets cx2File 0 0 1 "05" "EDITED" "2" "1"
      cx2Batch (by decide) cx2Entry (by decide) (some cx2A05B) (by decide)
      cx2A05B rfl cx2IATEntry 5⟩


/-! ### C4/C5/C6: index-resolution behaviour of the reconstruction
engine -/

instance {ε α : Type} [DecidableEq ε] [DecidableEq α] : DecidableEq (Except ε α) :=
  fun x y =>
  match x, y with
  | .error a, .error b =>
    match decEq a b with
    | isTrue h => isTrue (h ▸ rfl)
    | isFalse h => isFalse (fun hc => h (by cases hc; rfl))
  | .ok a, .ok b =>
    match decEq a b with
    | isTrue h => isTrue (h ▸ rfl)
    | isFalse h => isFalse (fun hc => h (by cases hc; rfl))
  | .error _, .ok _ => isFalse (fun hc => Except.noConfusion hc)
  | .ok _, .error _ => isFalse (fun hc => Except.noConfusion hc)

/-- `Except.isOk`-style discriminator used to state that `ToFile`
returned a file rather than an error. -/
def exceptIsOk {ε α : Type} : Except ε α → Bool
  | .ok _ => true
  | .error _ => false

theorem hIdx_bat_bi : hIdx batchesHeaders "batch_index" = some 0 := by rfl
theorem hIdxD_ent_bi : hIdxD entriesHeaders "batch_index" = 0 := by rfl
theorem hIdxD_ent_ei : hIdxD entriesHeaders "entry_index" = 1 := by rfl
theorem hIdxD_iatb_bi : hIdxD iatBatchesHeaders "batch_index" = 0 := by rfl
theorem hIdxD_iate_bi : hIdxD iatEntriesHeaders "batch_index" = 0 := by rfl
theorem hIdxD_iate_ei : hIdxD iatEntriesHeaders "entry_index" = 1 := by rfl

def batchesTableOf (row : List String) : TableData :=
  { headers := batchesHeaders, records := [row], columnTypes := batchesColumnTypes }

def entriesTableOf (row : List String) : TableData :=
  { headers := entriesHeaders, records := [row], columnTypes := entriesColumnTypes }

def addendaTableOf (row : List String) : TableData :=
  { headers := stdAddendaHeaders, records := [row], columnTypes := stdAddendaColumnTypes }

def iatBatchesTableOf (row : List String) : TableData :=
  { headers := iatBatchesHeaders, records := [row], columnTypes := iatBatchesColumnTypes }

/-- A table set holding only a batches table with a single row. -/
def mkBatchesOnlyTS (f : ACHFile) (row : List String) : TableSet :=
  { fileHeader := none, batches := some (batchesTableOf row), entries := none,
    addenda := none, iatBatches := none, iatEntries := none, iatAddenda := none,
    originalFile := some f }

/-- A table set holding only an entries table with a single row. -/
def mkEntriesOnlyTS (f : ACHFile) (row : List String) : TableSet :=
  { fileHeader := none, batches := none, entries := some (entriesTableOf row),
    addenda := none, iatBatches := none, iatEntries := none, iatAddenda := none,
    originalFile := some f }

/-- A table set holding only an addenda table with a single row. -/
def mkAddendaOnlyTS (f : ACHFile) (row : List String) : TableSet :=
  { fileHeader := none, batches := none, entries := none,
    addenda := some (addendaTableOf row), iatBatches := none, iatEntries := none,
    iatAddenda := none, originalFile := some f }

/-- A table set holding only an iat_batches table with a single row. -/
def mkIATBatchesOnlyTS (f : ACHFile) (row : List String) : TableSet :=
  { fileHeader := none, batches := none, entries := none, addenda := none,
    iatBatches := some (iatBatchesTableOf row), iatEntries := none,
    iatAddenda := none, originalFile := some f }

/-- A batches-table row whose `batch_index` cell holds the decimal form
of `n`; data cells are empty. -/
def batchIdxRow (n : Int) : List String := goItoa n :: List.replicate 15 ""

/-- An entries-table row with the given index cells. -/
def entryIdxRow (n m : Int) : List String :=
  [goItoa n, goItoa m] ++ List.replicate 11 ""

/-- An addenda-table row with the given three index cells. -/
def rawAddendaRow (s1 s2 s3 : String) : List String :=
  [s1, s2, s3] ++ List.replicate 35 ""

/-- An iat_batches-table row with the given `batch_index` cell. -/
def iatBatchIdxRow (n : Int) : List String := goItoa n :: List.replicate 14 ""

/-- An iat_entries-table row with the given index cells. -/
def iatEntryIdxRow (n m : Int) : List String :=
  [goItoa n, goItoa m] ++ List.replicate 11 ""

/-- A one-batch, one-entry file with no addenda used by the concrete
counterexamples. -/
def simpleEntry : EntryDetail :=
  { transactionCode := 22, rdfiIdentification := "23138010", checkDigit := "4",
    dfiAccountNumber := "12345678", amount := 100, identificationNumber := "",
    individualName := "A B", discretionaryData := "",
    addendaRecordIndicator := 0, traceNumber := "121042880000001",
    category := "Forward",
    addenda02 := none, addenda05 := [], addenda98 := none,
    addenda98Refused := none, addenda99 := none, addenda99Dishonored := none,
    addenda99Contested := none }

def simpleBatch : Batch :=
  { header := cx2BatchHeader, entries := [simpleEntry], control := cx2Control }

def simpleFile : ACHFile :=
  { header := cx2Header, batches := [simpleBatch], iatBatches := [] }

def simpleIATBatchHeader : IATBatchHeader :=
  { serviceClassCode := 220, iatIndicator := "", foreignExchangeIndicator := "FV",
    foreignExchangeReferenceIndicator := 3, foreignExchangeReference := "",
    isoDestinationCountryCode := "US", originatorIdentification := "123456789",
    standardEntryClassCode := "IAT", companyEntryDescription := "TRADEPAYMT",
    isoOriginatingCurrencyCode := "CAD", isoDestinationCurrencyCode := "USD",
    effectiveEntryDate := "190624", odfiIdentification := "23138010",
    batchNumber := 1 }

/-- A file whose only content is one IAT batch with one entry. -/
def simpleIATBatch : IATBatch :=
  { header := simpleIATBatchHeader, entries := [cx2IATEntry] }

def simpleIATFile : ACHFile :=
  { header := cx2Header, batches := [], iatBatches := [simpleIATBatch] }

/-- C4 counterexample.  The claim says any `batch_index` outside
`[0, count)` makes `ToFile` fail with an `IndexOutOfRange` error; but the
code checks only the upper bound, so an edited batches-table row with
`batch_index` "-1" reaches the slice access and the call ends in a Go
runtime panic (`RtErr.runtimeFault`), which is not a returned
`IndexOutOfRange` error. -/
theorem batch_negative_index_counterexample :
    ToFile (some (mkBatchesOnlyTS simpleFile (batchIdxRow (-1)))) =
      .error .runtimeFault ∧
    RtErr.runtimeFault ≠ RtErr.indexOutOfRange "batch_index" :=
  ⟨by decide, by decide⟩

/-- C4 amended.  A batches-table row whose `batch_index` is at least the
batch count makes `ToFile` fail with `IndexOutOfRange` (and likewise an
entries-table row whose resolved `entry_index` is at least the entry
count of its batch), and in both cases the caller's original file is
left untouched; negative indices are not range-checked and end in a
runtime fault instead (see the counterexample). -/
theorem out_of_range_rows_fail_index_out_of_range
    (f : ACHFile) (n m : Nat) (bi : Nat) (bat : Batch)
    (hn : f.batches.length ≤ n)
    (hb : f.batches.get? bi = some bat)
    (hm : bat.entries.length ≤ m) :
    (ToFile (some (mkBatchesOnlyTS f (batchIdxRow (n : Int)))) =
        .error (.indexOutOfRange "batch_index") ∧
      (toFileMem (mkBatchesOnlyTS f (batchIdxRow (n : Int))) f).1.caller = f) ∧
    (ToFile (some (mkEntriesOnlyTS f (entryIdxRow (bi : Int) (m : Int)))) =
        .error (.indexOutOfRange "entry_index") ∧
      (toFileMem (mkEntriesOnlyTS f (entryIdxRow (bi : Int) (m : Int))) f).1.caller = f) := by
  have hblt : bi < f.batches.length := (List.get?_eq_some.mp hb).1
  have hnle : ((f.batches.length : Nat) : Int) ≤ ((n : Nat) : Int) := by
    exact_mod_cast hn
  have hbneg : ¬ ((f.batches.length : Int) ≤ (bi : Int)) := by
    exact_mod_cast not_le.mpr hblt
  have hmle : ((bat.entries.length : Nat) : Int) ≤ ((m : Nat) : Int) := by
    exact_mod_cast hm
  refine ⟨⟨?_, ?_⟩, ⟨?_, ?_⟩⟩
  · have hrow : applyBatchRow batchesHeaders f (batchIdxRow (n : Int)) =
        .error (.indexOutOfRange "batch_index") := by
      simp only [applyBatchRow, hIdx_bat_bi, batchIdxRow, cellAt, List.get?,
        goAtoi_goItoa, exceptOk_bind, if_pos hnle]
    simp only [ToFile, mkBatchesOnlyTS, toFileMem, fileHeaderStep, tableStep,
      runStep, deepCopyFile, applyBatchModifications, batchesTableOf,
      List.foldlM, hrow, exceptErr_bind]
    simp
  · simp only [toFileMem, runStep_caller]
  · have hrow : applyEntryRow entriesHeaders f (entryIdxRow (bi : Int) (m : Int)) =
        .error (.indexOutOfRange "entry_index") := by
      simp only [applyEntryRow, parseIdxCell, hIdxD_ent_bi, hIdxD_ent_ei,
        entryIdxRow, cellAt, List.cons_append, List.get?, goAtoi_goItoa,
        exceptOk_bind]
      rw [if_neg hbneg]
      simp only [sliceGetI, if_neg (intNatCast_nonneg_not_lt bi),
        Int.toNat_natCast, hb, exceptOk_bind, if_pos hmle]
    simp only [ToFile, mkEntriesOnlyTS, toFileMem, fileHeaderStep, tableStep,
      runStep, deepCopyFile, applyEntryModifications, entriesTableOf,
      List.foldlM, hrow, exceptErr_bind]
    simp
  · simp only [toFileMem, runStep_caller]

theorem out_of_range_rows_witness :
    (simpleFile.batches.length ≤ 5 ∧
     simpleFile.batches.get? 0 = some simpleBatch ∧
     simpleBatch.entries.length ≤ 7) ∧
    ((ToFile (some (mkBatchesOnlyTS simpleFile (batchIdxRow ((5 : Nat) : Int)))) =
        .error (.indexOutOfRange "batch_index") ∧
      (toFileMem (mkBatchesOnlyTS simpleFile (batchIdxRow ((5 : Nat) : Int))) simpleFile).1.caller =
        simpleFile) ∧
     (ToFile (some (mkEntriesOnlyTS simpleFile (entryIdxRow ((0 : Nat) : Int) ((7 : Nat) : Int)))) =
        .error (.indexOutOfRange "entry_index") ∧
      (toFileMem (mkEntriesOnlyTS simpleFile (entryIdxRow ((0 : Nat) : Int) ((7 : Nat) : Int))) simpleFile).1.caller =
        simpleFile)) :=
  ⟨⟨by decide, by decide, by decide⟩,
    out_of_range_rows_fail_index_out_of_range simpleFile 5 7 0 simpleBatch
      (by decide) (by decide) (by decide)⟩

/-- C5 counterexample.  The claim says out-of-range indices in the IAT
tables are fatal `IndexOutOfRange` errors exactly like the standard
tables; but an iat_batches row with `batch_index` 5 on a file with one
IAT batch is silently skipped and `ToFile` succeeds. -/
theorem iat_out_of_range_counterexample :
    exceptIsOk (ToFile (some (mkIATBatchesOnlyTS simpleIATFile (iatBatchIdxRow 5)))) =
      true := by decide

/-- C5 amended.  Out-of-range (either side) `batch_index`/`entry_index`
values in the iat_batches and iat_entries tables are silently skipped,
leaving the working file unchanged — unlike the standard tables, whose
upper-bound violations are fatal. -/
theorem iat_out_of_range_rows_skipped
    (f : ACHFile) (n m : Int) (bi : Nat) (bat : IATBatch)
    (hn : n < 0 ∨ (f.iatBatches.length : Int) ≤ n)
    (hb : f.iatBatches.get? bi = some bat)
    (hm : m < 0 ∨ (bat.entries.length : Int) ≤ m) :
    applyIATBatchRow iatBatchesHeaders f (iatBatchIdxRow n) = .ok f ∧
    applyIATEntryRow iatEntriesHeaders f (iatEntryIdxRow n m) = .ok f ∧
    applyIATEntryRow iatEntriesHeaders f (iatEntryIdxRow (bi : Int) m) = .ok f := by
  have hblt : bi < f.iatBatches.length := (List.get?_eq_some.mp hb).1
  have hlenle : ¬ ((f.iatBatches.length : Int) ≤ (bi : Int)) := by
    exact_mod_cast not_le.mpr hblt
  have hguard : ¬ (((bi : Int) < 0) ∨ ((f.iatBatches.length : Int) ≤ (bi : Int))) := by
    rintro (h | h)
    · omega
    · exact hlenle h
  refine ⟨?_, ?_, ?_⟩
  · simp only [applyIATBatchRow, parseIdxCell, hIdxD_iatb_bi, iatBatchIdxRow,
      cellAt, List.get?, goAtoi_goItoa, exceptOk_bind, if_pos hn]
  · simp only [applyIATEntryRow, parseIdxCell, hIdxD_iate_bi, hIdxD_iate_ei,
      iatEntryIdxRow, cellAt, List.cons_append, List.get?, goAtoi_goItoa,
      exceptOk_bind, if_pos hn]
  · simp only [applyIATEntryRow, parseIdxCell, hIdxD_iate_bi, hIdxD_iate_ei,
      iatEntryIdxRow, cellAt, List.cons_append, List.get?, goAtoi_goItoa,
      exceptOk_bind]
    rw [if_neg hguard]
    simp only [sliceGetI, if_neg (intNatCast_nonneg_not_lt bi),
      Int.toNat_natCast, hb, exceptOk_bind, if_pos hm]

theorem iat_out_of_range_rows_witness :
    (((5 : Int) < 0 ∨ (simpleIATFile.iatBatches.length : Int) ≤ 5) ∧
     simpleIATFile.iatBatches.get? 0 = some simpleIATBatch ∧
     ((-2 : Int) < 0 ∨ (simpleIATBatch.entries.length : Int) ≤ -2)) ∧
    (applyIATBatchRow iatBatchesHeaders simpleIATFile (iatBatchIdxRow 5) =
      .ok simpleIATFile ∧
     applyIATEntryRow iatEntriesHeaders simpleIATFile (iatEntryIdxRow 5 (-2)) =
      .ok simpleIATFile ∧
     applyIATEntryRow iatEntriesHeaders simpleIATFile
       (iatEntryIdxRow ((0 : Nat) : Int) (-2)) = .ok simpleIATFile) :=
  ⟨⟨by decide, by decide, by decide⟩,
    iat_out_of_range_rows_skipped simpleIATFile 5 (-2) 0 simpleIATBatch
      (by decide) (by decide) (by decide)⟩

/-- C6 counterexample.  The claim says an addenda row whose numeric
indices do not resolve is silently skipped; but a numeric negative
`batch_index` ("-1") passes the one-sided upper-bound check and faults
at the slice access, so `ToFile` does not continue without error. -/
theorem addenda_negative_index_counterexample :
    ToFile (some (mkAddendaOnlyTS simpleFile (rawAddendaRow "-1" "0" "0"))) =
      .error .runtimeFault := by decide

/-- C6 amended.  An addenda-table row whose numeric `batch_index` or
`entry_index` is at least the corresponding count is silently skipped
(the working file is returned unchanged); a non-numeric `batch_index`,
`entry_index` or `addenda_index` cell is a fatal invalid-index error;
negative numeric indices, however, are not guarded and fault at the
slice access (see the counterexample). -/
theorem addenda_rows_skip_and_malformed
    (f : ACHFile) (bat : Batch) (bi : Nat) (n j k : Int) (s t : String)
    (hb : f.batches.get? bi = some bat)
    (hn : (f.batches.length : Int) ≤ n)
    (hj : (bat.entries.length : Int) ≤ j)
    (hs : goAtoi s = none) (ht : goAtoi t = some j) :
    applyAddendaRow stdAddendaHeaders f (rawAddendaRow (goItoa n) (goItoa j) (goItoa k)) =
      .ok f ∧
    applyAddendaRow stdAddendaHeaders f (rawAddendaRow (goItoa (bi : Int)) (goItoa j) (goItoa k)) =
      .ok f ∧
    applyAddendaRow stdAddendaHeaders f (rawAddendaRow s t t) =
      .error (.invalidIndex "batch_index") ∧
    applyAddendaRow stdAddendaHeaders f (rawAddendaRow (goItoa n) s t) =
      .error (.invalidIndex "entry_index") ∧
    applyAddendaRow stdAddendaHeaders f (rawAddendaRow (goItoa n) t s) =
      .error (.invalidIndex "addenda_index") := by
  have hblt : bi < f.batches.length := (List.get?_eq_some.mp hb).1
  have hbneg : ¬ ((f.batches.length : Int) ≤ (bi : Int)) := by
    exact_mod_cast not_le.mpr hblt
  refine ⟨?_, ?_, ?_, ?_, ?_⟩
  · simp only [applyAddendaRow, parseIdxCell, hIdxD_std_bi, hIdxD_std_ei,
      hIdxD_std_ai, rawAddendaRow, cellAt, List.cons_append, List.get?,
      goAtoi_goItoa, exceptOk_bind, if_pos hn]
  · simp only [applyAddendaRow, parseIdxCell, hIdxD_std_bi, hIdxD_std_ei,
      hIdxD_std_ai, rawAddendaRow, cellAt, List.cons_append, List.get?,
      goAtoi_goItoa, exceptOk_bind]
    rw [if_neg hbneg]
    simp only [sliceGetI, if_neg (intNatCast_nonneg_not_lt bi),
      Int.toNat_natCast, hb, exceptOk_bind, if_pos hj]
  · simp only [applyAddendaRow, parseIdxCell, hIdxD_std_bi, hIdxD_std_ei,
      hIdxD_std_ai, rawAddendaRow, cellAt, List.cons_append, List.get?, hs,
      exceptOk_bind, exceptErr_bind]
  · simp only [applyAddendaRow, parseIdxCell, hIdxD_std_bi, hIdxD_std_ei,
      hIdxD_std_ai, rawAddendaRow, cellAt, List.cons_append, List.get?,
      goAtoi_goItoa, hs, exceptOk_bind, exceptErr_bind]
  · simp only [applyAddendaRow, parseIdxCell, hIdxD_std_bi, hIdxD_std_ei,
      hIdxD_std_ai, rawAddendaRow, cellAt, List.cons_append, List.get?,
      goAtoi_goItoa, ht, hs, exceptOk_bind, exceptErr_bind]

theorem addenda_rows_skip_and_malformed_witness :
    (simpleFile.batches.get? 0 = some simpleBatch ∧
     (simpleFile.batches.length : Int) ≤ 9 ∧
     (simpleBatch.entries.length : Int) ≤ 4 ∧
     goAtoi "x" = none ∧ goAtoi "4" = some 4) ∧
    (applyAddendaRow stdAddendaHeaders simpleFile
        (rawAddendaRow (goItoa 9) (goItoa 4) (goItoa 0)) = .ok simpleFile ∧
     applyAddendaRow stdAddendaHeaders simpleFile
        (rawAddendaRow (goItoa ((0 : Nat) : Int)) (goItoa 4) (goItoa 0)) = .ok simpleFile ∧
     applyAddendaRow stdAddendaHeaders simpleFile (rawAddendaRow "x" "4" "4") =
        .error (.invalidIndex "batch_index") ∧
     applyAddendaRow stdAddendaHeaders simpleFile (rawAddendaRow (goItoa 9) "x" "4") =
        .error (.invalidIndex "entry_index") ∧
     applyAddendaRow stdAddendaHeaders simpleFile (rawAddendaRow (goItoa 9) "4" "x") =
        .error (.invalidIndex "addenda_index")) :=
  ⟨⟨by decide, by decide, by decide, by decide, by decide⟩,
    addenda_rows_skip_and_malformed simpleFile simpleBatch 0 9 4 0 "x" "4"
      (by decide) (by decide) (by decide) (by decide) (by decide)⟩


/-! ### C10: non-numeric strings in integer data columns are ignored -/

theorem hIdx_ent_tc : hIdx entriesHeaders "transaction_code" = some 2 := by rfl
theorem hIdx_ent_rdfi : hIdx entriesHeaders "rdfi_identification" = some 3 := by rfl
theorem hIdx_ent_cd : hIdx entriesHeaders "check_digit" = some 4 := by rfl
theorem hIdx_ent_dfi : hIdx entriesHeaders "dfi_account_number" = some 5 := by rfl
theorem hIdx_ent_amt : hIdx entriesHeaders "amount" = some 6 := by rfl
theorem hIdx_ent_idn : hIdx entriesHeaders "identification_number" = some 7 := by rfl
theorem hIdx_ent_nm : hIdx entriesHeaders "individual_name" = some 8 := by rfl
theorem hIdx_ent_dd : hIdx entriesHeaders "discretionary_data" = some 9 := by rfl
theorem hIdx_ent_ari : hIdx entriesHeaders "addenda_record_indicator" = some 10 := by rfl
theorem hIdx_ent_tn : hIdx entriesHeaders "trace_number" = some 11 := by rfl
theorem hIdx_ent_cat : hIdx entriesHeaders "category" = some 12 := by rfl
theorem hIdx_bat2_scc : hIdx batchesHeaders "service_class_code" = some 1 := by rfl
theorem hIdx_bat2_cn : hIdx batchesHeaders "company_name" = some 2 := by rfl
theorem hIdx_bat2_cdd : hIdx batchesHeaders "company_discretionary_data" = some 3 := by rfl
theorem hIdx_bat2_cid : hIdx batchesHeaders "company_identification" = some 4 := by rfl
theorem hIdx_bat2_sec : hIdx batchesHeaders "standard_entry_class_code" = some 5 := by rfl
theorem hIdx_bat2_ced : hIdx batchesHeaders "company_entry_description" = some 6 := by rfl
theorem hIdx_bat2_cdate : hIdx batchesHeaders "company_descriptive_date" = some 7 := by rfl
theorem hIdx_bat2_eed : hIdx batchesHeaders "effective_entry_date" = some 8 := by rfl
theorem hIdx_bat2_osc : hIdx batchesHeaders "originator_status_code" = some 9 := by rfl
theorem hIdx_bat2_odfi : hIdx batchesHeaders "odfi_identification" = some 10 := by rfl
theorem hIdx_bat2_bn : hIdx batchesHeaders "batch_number" = some 11 := by rfl
theorem hIdx_iate_tc : hIdx iatEntriesHeaders "transaction_code" = some 2 := by rfl
theorem hIdx_iate_rdfi : hIdx iatEntriesHeaders "rdfi_identification" = some 3 := by rfl
theorem hIdx_iate_cd : hIdx iatEntriesHeaders "check_digit" = some 4 := by rfl
theorem hIdx_iate_ar : hIdx iatEntriesHeaders "addenda_records" = some 5 := by rfl
theorem hIdx_iate_amt : hIdx iatEntriesHeaders "amount" = some 6 := by rfl
theorem hIdx_iate_dfi : hIdx iatEntriesHeaders "dfi_account_number" = some 7 := by rfl
theorem hIdx_iate_o1 : hIdx iatEntriesHeaders "ofac_screening_indicator" = some 8 := by rfl
theorem hIdx_iate_o2 : hIdx iatEntriesHeaders "secondary_ofac_screening_indicator" = some 9 := by rfl
theorem hIdx_iate_ari : hIdx iatEntriesHeaders "addenda_record_indicator" = some 10 := by rfl
theorem hIdx_iate_tn : hIdx iatEntriesHeaders "trace_number" = some 11 := by rfl
theorem hIdx_iate_cat : hIdx iatEntriesHeaders "category" = some 12 := by rfl

/-- An edited entries-table row with the given cells. -/
def entryRow13 (bi ei : Nat) (tc rdfi cd dfi amt idn nm dd ari tn cat : String) :
    List String :=
  [goItoa (bi : Int), goItoa (ei : Int), tc, rdfi, cd, dfi, amt, idn, nm, dd,
   ari, tn, cat]

/-- An edited batches-table row with the given cells (control cells
empty; `applyBatchModifications` never reads them). -/
def batchRow16 (bi : Nat) (scc cn cdd cid sec ced cdate eed osc odfi bn : String) :
    List String :=
  [goItoa (bi : Int), scc, cn, cdd, cid, sec, ced, cdate, eed, osc, odfi, bn] ++
    List.replicate 4 ""

/-- An edited iat_entries-table row with the given cells. -/
def iatEntryRow13 (bi ei : Nat) (tc rdfi cd ar amt dfi o1 o2 ari tn cat : String) :
    List String :=
  [goItoa (bi : Int), goItoa (ei : Int), tc, rdfi, cd, ar, amt, dfi, o1, o2,
   ari, tn, cat]

/-- C10.  When an edited row resolves to an existing record, a
non-numeric string in an integer-valued data column (`transaction_code`,
`amount`, `addenda_record_indicator` on entries; `service_class_code`,
`originator_status_code`, `batch_number` on batches; and the same on IAT
entries, e.g. `amount`/`addenda_records`) is silently ignored: the field
keeps its value from the cloned original and the row application
succeeds. -/
theorem non_numeric_integer_cells_ignored
    (f : ACHFile) (bi ei : Nat) (bat : Batch) (e : EntryDetail)
    (g : ACHFile) (ibi iei : Nat) (ibat : IATBatch) (ie : IATEntryDetail)
    (tc rdfi cd dfi amt idn nm dd ari tn cat : String)
    (scc cn cdd cid sec ced cdate eed osc odfi bn : String)
    (iar : String)
    (hb : f.batches.get? bi = some bat) (he : bat.entries.get? ei = some e)
    (hgb : g.iatBatches.get? ibi = some ibat)
    (hge : ibat.entries.get? iei = some ie)
    (htc : goAtoi tc = none) (hamt : goAtoi amt = none)
    (hari : goAtoi ari = none) (hscc : goAtoi scc = none)
    (hosc : goAtoi osc = none) (hbn : goAtoi bn = none)
    (hiar : goAtoi iar = none) :
    (∃ e', applyEntryRow entriesHeaders f
        (entryRow13 bi ei tc rdfi cd dfi amt idn nm dd ari tn cat) =
        .ok (setEntry f bi ei e') ∧
      e'.transactionCode = e.transactionCode ∧ e'.amount = e.amount ∧
      e'.addendaRecordIndicator = e.addendaRecordIndicator) ∧
    (∃ h', applyBatchRow batchesHeaders f
        (batchRow16 bi scc cn cdd cid sec ced cdate eed osc odfi bn) =
        .ok (setBatchHeader f bi h') ∧
      h'.serviceClassCode = bat.header.serviceClassCode ∧
      h'.originatorStatusCode = bat.header.originatorStatusCode ∧
      h'.batchNumber = bat.header.batchNumber) ∧
    (∃ ie', applyIATEntryRow iatEntriesHeaders g
        (iatEntryRow13 ibi iei tc rdfi cd iar amt dfi idn nm ari tn cat) =
        .ok (setIATEntry g ibi iei ie') ∧
      ie'.transactionCode = ie.transactionCode ∧
      ie'.addendaRecords = ie.addendaRecords ∧ ie'.amount = ie.amount ∧
      ie'.addendaRecordIndicator = ie.addendaRecordIndicator) := by
  have hblt : bi < f.batches.length := (List.get?_eq_some.mp hb).1
  have helt : ei < bat.entries.length := (List.get?_eq_some.mp he).1
  have hbneg : ¬ ((f.batches.length : Int) ≤ (bi : Int)) := by
    exact_mod_cast not_le.mpr hblt
  have heneg : ¬ ((bat.entries.length : Int) ≤ (ei : Int)) := by
    exact_mod_cast not_le.mpr helt
  have hgblt : ibi < g.iatBatches.length := (List.get?_eq_some.mp hgb).1
  have hgelt : iei < ibat.entries.length := (List.get?_eq_some.mp hge).1
  have hgbneg : ¬ ((g.iatBatches.length : Int) ≤ (ibi : Int)) := by
    exact_mod_cast not_le.mpr hgblt
  have hgeneg : ¬ ((ibat.entries.length : Int) ≤ (iei : Int)) := by
    exact_mod_cast not_le.mpr hgelt
  have hgbguard : ¬ (((ibi : Int) < 0) ∨ ((g.iatBatches.length : Int) ≤ (ibi : Int))) := by
    rintro (h | h)
    · omega
    · exact hgbneg h
  have hgeguard : ¬ (((iei : Int) < 0) ∨ ((ibat.entries.length : Int) ≤ (iei : Int))) := by
    rintro (h | h)
    · omega
    · exact hgeneg h
  refine ⟨?_, ?_, ?_⟩
  · simp only [applyEntryRow, parseIdxCell, hIdxD_ent_bi, hIdxD_ent_ei, entryRow13,
      cellAt, List.get?, goAtoi_goItoa, exceptOk_bind]
    rw [if_neg hbneg]
    simp only [sliceGetI, if_neg (intNatCast_nonneg_not_lt bi), Int.toNat_natCast,
      hb, exceptOk_bind]
    rw [if_neg heneg]
    simp only [if_neg (intNatCast_nonneg_not_lt ei), he, exceptOk_bind,
      updU, updUInt, hIdx_ent_tc, hIdx_ent_rdfi, hIdx_ent_cd, hIdx_ent_dfi,
      hIdx_ent_amt, hIdx_ent_idn, hIdx_ent_nm, hIdx_ent_dd, hIdx_ent_ari,
      hIdx_ent_tn, hIdx_ent_cat, cellAt, List.get?, htc, hamt, hari]
    exact ⟨_, rfl, rfl, rfl, rfl⟩
  · simp only [applyBatchRow, hIdx_bat_bi, batchRow16, cellAt, List.cons_append,
      List.get?, goAtoi_goItoa, exceptOk_bind]
    rw [if_neg hbneg]
    simp only [sliceGetI, if_neg (intNatCast_nonneg_not_lt bi), Int.toNat_natCast,
      hb, exceptOk_bind, updG, updGInt, hIdx_bat2_scc, hIdx_bat2_cn,
      hIdx_bat2_cdd, hIdx_bat2_cid, hIdx_bat2_sec, hIdx_bat2_ced,
      hIdx_bat2_cdate, hIdx_bat2_eed, hIdx_bat2_osc, hIdx_bat2_odfi,
      hIdx_bat2_bn, List.get?, hscc, hosc, hbn]
    exact ⟨_, rfl, rfl, rfl, rfl⟩
  · simp only [applyIATEntryRow, parseIdxCell, hIdxD_iate_bi, hIdxD_iate_ei,
      iatEntryRow13, cellAt, List.get?, goAtoi_goItoa, exceptOk_bind]
    rw [if_neg hgbguard]
    simp only [sliceGetI, if_neg (intNatCast_nonneg_not_lt ibi), Int.toNat_natCast,
      hgb, exceptOk_bind]
    rw [if_neg hgeguard]
    simp only [if_neg (intNatCast_nonneg_not_lt iei), hge, exceptOk_bind,
      updU, updUInt, hIdx_iate_tc, hIdx_iate_rdfi, hIdx_iate_cd, hIdx_iate_ar,
      hIdx_iate_amt, hIdx_iate_dfi, hIdx_iate_o1, hIdx_iate_o2, hIdx_iate_ari,
      hIdx_iate_tn, hIdx_iate_cat, cellAt, List.get?, htc, hamt, hari, hiar]
    exact ⟨_, rfl, rfl, rfl, rfl, rfl⟩

theorem non_numeric_integer_cells_ignored_witness :
    (simpleFile.batches.get? 0 = some simpleBatch ∧
     simpleBatch.entries.get? 0 = some simpleEntry ∧
     simpleIATFile.iatBatches.get? 0 = some simpleIATBatch ∧
     simpleIATBatch.entries.get? 0 = some cx2IATEntry ∧
     goAtoi "abc" = none) ∧
    ((∃ e', applyEntryRow entriesHeaders simpleFile
        (entryRow13 0 0 "abc" "r" "c" "d" "abc" "i" "n" "x" "abc" "t" "g") =
        .ok (setEntry simpleFile 0 0 e') ∧
      e'.transactionCode = simpleEntry.transactionCode ∧
      e'.amount = simpleEntry.amount ∧
      e'.addendaRecordIndicator = simpleEntry.addendaRecordIndicator) ∧
    (∃ h', applyBatchRow batchesHeaders simpleFile
        (batchRow16 0 "abc" "cn" "cdd" "cid" "sec" "ced" "cd" "ee" "abc" "od" "abc") =
        .ok (setBatchHeader simpleFile 0 h') ∧
      h'.serviceClassCode = simpleBatch.header.serviceClassCode ∧
      h'.originatorStatusCode = simpleBatch.header.originatorStatusCode ∧
      h'.batchNumber = simpleBatch.header.batchNumber) ∧
    (∃ ie', applyIATEntryRow iatEntriesHeaders simpleIATFile
        (iatEntryRow13 0 0 "abc" "r" "c" "abc" "abc" "d" "i" "n" "abc" "t" "g") =
        .ok (setIATEntry simpleIATFile 0 0 ie') ∧
      ie'.transactionCode = cx2IATEntry.transactionCode ∧
      ie'.addendaRecords = cx2IATEntry.addendaRecords ∧
      ie'.amount = cx2IATEntry.amount ∧
      ie'.addendaRecordIndicator = cx2IATEntry.addendaRecordIndicator)) :=
  ⟨⟨by decide, by decide, by decide, by decide, by decide⟩,
    non_numeric_integer_cells_ignored simpleFile 0 0 simpleBatch simpleEntry
      simpleIATFile 0 0 simpleIATBatch cx2IATEntry
      "abc" "r" "c" "d" "abc" "i" "n" "x" "abc" "t" "g"
      "abc" "cn" "cdd" "cid" "sec" "ced" "cd" "ee" "abc" "od" "abc" "abc"
      (by decide) (by decide) (by decide) (by decide)
      (by decide) (by decide) (by decide) (by decide) (by decide) (by decide)
      (by decide)⟩


/-! ### C7: the concrete single-amount-edit scenario -/

/-- The header of the reconstructed file's batch `b`. -/
def batchHeaderAt (r : Except RtErr ACHFile) (b : Nat) : Option BatchHeader :=
  match r with
  | .ok g => (g.batches.get? b).map Batch.header
  | .error _ => none

/-- The reconstructed file's header. -/
def fileHeaderOf (r : Except RtErr ACHFile) : Option FileHeader :=
  match r with
  | .ok g => some g.header
  | .error _ => none

def c7A05 : Addenda05 :=
  { typeCode := "05", paymentRelatedInformation := "Original Payment Info",
    sequenceNumber := 1, entryDetailSequenceNumber := 1 }

def c7Entry : EntryDetail :=
  { transactionCode := 27, rdfiIdentification := "23138010", checkDigit := "4",
    dfiAccountNumber := "744-5678-99", amount := 100000000,
    identificationNumber := "ID-Number", individualName := "Receiver Account Name",
    discretionaryData := "", addendaRecordIndicator := 1,
    traceNumber := "121042880000001", category := "Forward",
    addenda02 := none, addenda05 := [some c7A05], addenda98 := none,
    addenda98Refused := none, addenda99 := none, addenda99Dishonored := none,
    addenda99Contested := none }

def c7BatchHeader : BatchHeader :=
  { serviceClassCode := 225, companyName := "Name on Account",
    companyDiscretionaryData := "", companyIdentification := "121042882",
    standardEntryClassCode := "PPD", companyEntryDescription := "REG.SALARY",
    companyDescriptiveDate := "", effectiveEntryDate := "190624",
    originatorStatusCode := 1, odfiIdentification := "12104288",
    batchNumber := 1 }

def c7Control : BatchControl :=
  { entryAddendaCount := 2, entryHash := 23138010,
    totalDebitEntryDollarAmount := 100000000, totalCreditEntryDollarAmount := 0 }

def c7Header : FileHeader :=
  { immediateDestination := "231380104", immediateOrigin := "121042882",
    fileCreationDate := "190624", fileCreationTime := "0000",
    fileIDModifier := "A", immediateDestinationName := "Federal Reserve Bank",
    immediateOriginName := "My Bank Name", referenceCode := "" }

def c7Batch : Batch :=
  { header := c7BatchHeader, entries := [c7Entry], control := c7Control }

/-- One batch, one entry (amount = 100000000), one attached "05" addenda
whose payment-related information is "Original Payment Info". -/
def c7File : ACHFile :=
  { header := c7Header, batches := [c7Batch], iatBatches := [] }

/-- `FromFile c7File` with exactly one cell edit: the entries table's
`amount` cell (row 0, column 6) set to "50000000". -/
def c7EditedTS : TableSet :=
  let t := fromFileTS c7File
  { t with entries := t.entries.map (fun td =>
      { td with records := td.records.set 0 ((td.records.getD 0 []).set 6 "50000000") }) }

/-- C7.  Editing only the amount cell to "50000000" and reconstructing
yields a file whose single entry has amount 50000000, whose addenda's
payment-related information is still "Original Payment Info", and whose
other entry fields, batch header fields and file header fields equal the
original's.  (The derived batch control totals are recomputed by design —
spec §3 sets them apart from the scalar fields as "derived, never
hand-set" — and are not entry or batch header fields.) -/
theorem single_amount_edit_scenario :
    entryAt (ToFile (some c7EditedTS)) 0 0 =
      some { c7Entry with amount := 50000000 } ∧
    a05PRIAt (ToFile (some c7EditedTS)) 0 0 0 = some "Original Payment Info" ∧
    batchHeaderAt (ToFile (some c7EditedTS)) 0 = some c7BatchHeader ∧
    fileHeaderOf (ToFile (some c7EditedTS)) = some c7Header :=
  ⟨by decide, by decide, by decide, by decide⟩


def c8File : ACHFile := { header := c7Header, batches := [], iatBatches := [] }

theorem fromFile_table_shape_witness :
    c8File.batches = [] ∧
    ((convertBatches c8File).records = [] ∧ (convertEntries c8File).records = [] ∧
      (convertAddenda c8File).records = []) ∧
    (fromFileTS c8File).fileHeader.map (fun td => td.records.length) = some 1 :=
  ⟨rfl, (fromFile_table_shape c8File).2.2.2.2.2.2.2.2 rfl,
    (fromFile_table_shape c8File).2.1⟩

/-! ### C1: round trip with no edits preserves header, counts and
variant structure -/

/-- The variant structure of one standard entry: which single-slot
variants are present and the nil/non-nil mask of the `Addenda05`
slice. -/
structure EntryShape where
  has02 : Bool
  mask05 : List Bool
  has98 : Bool
  has99 : Bool
  has98r : Bool
  has99d : Bool
  has99c : Bool
deriving DecidableEq

def entryShape (e : EntryDetail) : EntryShape :=
  { has02 := e.addenda02.isSome
    mask05 := e.addenda05.map Option.isSome
    has98 := e.addenda98.isSome
    has99 := e.addenda99.isSome
    has98r := e.addenda98Refused.isSome
    has99d := e.addenda99Dishonored.isSome
    has99c := e.addenda99Contested.isSome }

/-- The variant structure of one IAT entry. -/
structure IATEntryShape where
  has10 : Bool
  has11 : Bool
  has12 : Bool
  has13 : Bool
  has14 : Bool
  has15 : Bool
  has16 : Bool
  mask17 : List Bool
  mask18 : List Bool
  has98 : Bool
  has99 : Bool
deriving DecidableEq

def iatEntryShape (e : IATEntryDetail) : IATEntryShape :=
  { has10 := e.addenda10.isSome, has11 := e.addenda11.isSome
    has12 := e.addenda12.isSome, has13 := e.addenda13.isSome
    has14 := e.addenda14.isSome, has15 := e.addenda15.isSome
    has16 := e.addenda16.isSome
    mask17 := e.addenda17.map Option.isSome
    mask18 := e.addenda18.map Option.isSome
    has98 := e.addenda98.isSome, has99 := e.addenda99.isSome }

/-- Entry shapes of a standard batch. -/
def batchShape (b : Batch) : List EntryShape := b.entries.map entryShape

def iatBatchShape (b : IATBatch) : List IATEntryShape := b.entries.map iatEntryShape

/-- The batch/entry/addenda structure of a file's standard part. -/
def stdShape (f : ACHFile) : List (List EntryShape) := f.batches.map batchShape

/-- The batch/entry/addenda structure of a file's IAT part. -/
def iatShape (f : ACHFile) : List (List IATEntryShape) := f.iatBatches.map iatBatchShape

theorem set_same {α : Type} (l : List α) (i : Nat) (a : α)
    (h : l.get? i = some a) : l.set i a = l := by
  apply List.ext_get?
  intro n
  by_cases hin : i = n
  · subst hin
    rw [List.get?_eq_getElem?] at h ⊢
    rw [List.getElem?_set_self', h]
    simp [h]
  · rw [List.get?_eq_getElem?, List.get?_eq_getElem?, List.getElem?_set_ne hin]

/-- Setting a position to a value with the same image under `f` does not
change the mapped list. -/
theorem map_set_same {α β : Type} (f : α → β) (l : List α) (i : Nat) (x y : α)
    (h : l.get? i = some y) (hf : f x = f y) : (l.set i x).map f = l.map f := by
  rw [List.map_set]
  apply set_same
  rw [List.get?_map, h, hf]
  rfl

theorem stdShape_setEntry (g : ACHFile) (b e : Nat) (ed : EntryDetail)
    (bat : Batch) (hb : g.batches.get? b = some bat)
    (eg : EntryDetail) (he : bat.entries.get? e = some eg)
    (hsh : entryShape ed = entryShape eg) :
    stdShape (setEntry g b e ed) = stdShape g ∧
    iatShape (setEntry g b e ed) = iatShape g ∧
    (setEntry g b e ed).header = g.header := by
  unfold setEntry
  rw [hb]
  refine ⟨?_, rfl, rfl⟩
  unfold stdShape
  apply map_set_same _ _ _ _ _ hb
  unfold batchShape
  exact map_set_same _ _ _ _ _ he hsh

theorem stdShape_setBatchHeader (g : ACHFile) (b : Nat) (h : BatchHeader)
    (bat : Batch) (hb : g.batches.get? b = some bat) :
    stdShape (setBatchHeader g b h) = stdShape g ∧
    iatShape (setBatchHeader g b h) = iatShape g ∧
    (setBatchHeader g b h).header = g.header := by
  unfold setBatchHeader
  rw [hb]
  refine ⟨?_, rfl, rfl⟩
  unfold stdShape
  apply map_set_same _ _ _ _ _ hb
  rfl

theorem iatShape_setIATEntry (g : ACHFile) (b e : Nat) (ed : IATEntryDetail)
    (bat : IATBatch) (hb : g.iatBatches.get? b = some bat)
    (eg : IATEntryDetail) (he : bat.entries.get? e = some eg)
    (hsh : iatEntryShape ed = iatEntryShape eg) :
    stdShape (setIATEntry g b e ed) = stdShape g ∧
    iatShape (setIATEntry g b e ed) = iatShape g ∧
    (setIATEntry g b e ed).header = g.header := by
  unfold setIATEntry
  rw [hb]
  refine ⟨rfl, ?_, rfl⟩
  unfold iatShape
  apply map_set_same _ _ _ _ _ hb
  unfold iatBatchShape
  exact map_set_same _ _ _ _ _ he hsh

theorem iatShape_setIATBatchHeader (g : ACHFile) (b : Nat) (h : IATBatchHeader)
    (bat : IATBatch) (hb : g.iatBatches.get? b = some bat) :
    stdShape (setIATBatchHeader g b h) = stdShape g ∧
    iatShape (setIATBatchHeader g b h) = iatShape g ∧
    (setIATBatchHeader g b h).header = g.header := by
  unfold setIATBatchHeader
  rw [hb]
  refine ⟨rfl, ?_, rfl⟩
  unfold iatShape
  apply map_set_same _ _ _ _ _ hb
  rfl


theorem batches_length_of_stdShape {g f : ACHFile}
    (h : stdShape g = stdShape f) : g.batches.length = f.batches.length := by
  have := congrArg List.length h
  simpa [stdShape] using this

theorem iatBatches_length_of_iatShape {g f : ACHFile}
    (h : iatShape g = iatShape f) : g.iatBatches.length = f.iatBatches.length := by
  have := congrArg List.length h
  simpa [iatShape] using this

theorem entries_length_of_stdShape {g f : ACHFile} (h : stdShape g = stdShape f)
    {i : Nat} {bg bf : Batch} (hg : g.batches.get? i = some bg)
    (hf : f.batches.get? i = some bf) : bg.entries.length = bf.entries.length := by
  have h1 : (stdShape g).get? i = (stdShape f).get? i := by rw [h]
  rw [stdShape, stdShape, List.get?_map, List.get?_map, hg, hf] at h1
  simp only [Option.map_some'] at h1
  have := congrArg List.length (Option.some.inj h1)
  simpa [batchShape] using this

theorem iatEntries_length_of_iatShape {g f : ACHFile} (h : iatShape g = iatShape f)
    {i : Nat} {bg bf : IATBatch} (hg : g.iatBatches.get? i = some bg)
    (hf : f.iatBatches.get? i = some bf) : bg.entries.length = bf.entries.length := by
  have h1 : (iatShape g).get? i = (iatShape f).get? i := by rw [h]
  rw [iatShape, iatShape, List.get?_map, List.get?_map, hg, hf] at h1
  simp only [Option.map_some'] at h1
  have := congrArg List.length (Option.some.inj h1)
  simpa [iatBatchShape] using this

/-- The pipeline invariant for the round-trip proof: the working file
has the same batch/entry/addenda structure as the original and carries
the original's header. -/
def RTInv (f g : ACHFile) : Prop :=
  stdShape g = stdShape f ∧ iatShape g = iatShape f ∧ g.header = f.header

theorem foldlM_ok_inv {α : Type} (P : ACHFile → Prop)
    (step : ACHFile → α → Except RtErr ACHFile) (l : List α)
    (hstep : ∀ g a, P g → a ∈ l → ∃ g', step g a = .ok g' ∧ P g') :
    ∀ g, P g → ∃ g', l.foldlM step g = .ok g' ∧ P g' := by
  induction l with
  | nil => exact fun g hg => ⟨g, rfl, hg⟩
  | cons a l ih =>
    intro g hg
    obtain ⟨g1, hs1, hP1⟩ := hstep g a hg (List.mem_cons_self _ _)
    obtain ⟨g2, hs2, hP2⟩ :=
      ih (fun g a hP ha => hstep g a hP (List.mem_cons_of_mem _ ha)) g1 hP1
    refine ⟨g2, ?_, hP2⟩
    rw [List.foldlM_cons, hs1]
    exact hs2

theorem hIdx_fh_dest : hIdx fileHeaderHeaders "immediate_destination" = some 0 := by rfl
theorem hIdx_fh_orig : hIdx fileHeaderHeaders "immediate_origin" = some 1 := by rfl
theorem hIdx_fh_date : hIdx fileHeaderHeaders "file_creation_date" = some 2 := by rfl
theorem hIdx_fh_time : hIdx fileHeaderHeaders "file_creation_time" = some 3 := by rfl
theorem hIdx_fh_mod : hIdx fileHeaderHeaders "file_id_modifier" = some 4 := by rfl
theorem hIdx_fh_dn : hIdx fileHeaderHeaders "immediate_destination_name" = some 5 := by rfl
theorem hIdx_fh_on : hIdx fileHeaderHeaders "immediate_origin_name" = some 6 := by rfl
theorem hIdx_fh_rc : hIdx fileHeaderHeaders "reference_code" = some 7 := by rfl

/-- With the unedited file-header table, the header write-back restores
exactly the original header. -/
theorem applyFileHeader_convert (f g : ACHFile) :
    applyFileHeaderModifications (convertFileHeader f) g = { g with header := f.header } := by
  simp only [applyFileHeaderModifications, convertFileHeader, List.get?, updG,
    hIdx_fh_dest, hIdx_fh_orig, hIdx_fh_date, hIdx_fh_time, hIdx_fh_mod,
    hIdx_fh_dn, hIdx_fh_on, hIdx_fh_rc]


theorem get?_of_lt {α : Type} (l : List α) (i : Nat) (h : i < l.length) :
    ∃ a, l.get? i = some a := by
  cases hx : l.get? i with
  | none => exact absurd (List.get?_eq_none.mp hx) (not_le.mpr h)
  | some a => exact ⟨a, rfl⟩

theorem hIdx_iatb_scc : hIdx iatBatchesHeaders "service_class_code" = some 1 := by rfl
theorem hIdx_iatb_ind : hIdx iatBatchesHeaders "iat_indicator" = some 2 := by rfl
theorem hIdx_iatb_fei : hIdx iatBatchesHeaders "foreign_exchange_indicator" = some 3 := by rfl
theorem hIdx_iatb_feri : hIdx iatBatchesHeaders "foreign_exchange_reference_indicator" = some 4 := by rfl
theorem hIdx_iatb_fer : hIdx iatBatchesHeaders "foreign_exchange_reference" = some 5 := by rfl
theorem hIdx_iatb_idcc : hIdx iatBatchesHeaders "iso_destination_country_code" = some 6 := by rfl
theorem hIdx_iatb_oid : hIdx iatBatchesHeaders "originator_identification" = some 7 := by rfl
theorem hIdx_iatb_sec : hIdx iatBatchesHeaders "standard_entry_class_code" = some 8 := by rfl
theorem hIdx_iatb_ced : hIdx iatBatchesHeaders "company_entry_description" = some 9 := by rfl
theorem hIdx_iatb_iocc : hIdx iatBatchesHeaders "iso_originating_currency_code" = some 10 := by rfl
theorem hIdx_iatb_idcur : hIdx iatBatchesHeaders "iso_destination_currency_code" = some 11 := by rfl
theorem hIdx_iatb_eed : hIdx iatBatchesHeaders "effective_entry_date" = some 12 := by rfl
theorem hIdx_iatb_odfi : hIdx iatBatchesHeaders "odfi_identification" = some 13 := by rfl
theorem hIdx_iatb_bn : hIdx iatBatchesHeaders "batch_number" = some 14 := by rfl

/-- An unedited batches row always applies cleanly and preserves the
structural invariant: only the resolved batch's header is rewritten. -/
theorem applyBatchRow_ok (f₀ g : ACHFile) (hg : RTInv f₀ g) (i : Nat) (b : Batch)
    (hi : i < f₀.batches.length) :
    ∃ g', applyBatchRow batchesHeaders g (batchRowOf i b) = .ok g' ∧ RTInv f₀ g' := by
  obtain ⟨hstd, hiat, hhdr⟩ := hg
  have hig : i < g.batches.length := by
    rw [batches_length_of_stdShape hstd]; exact hi
  obtain ⟨batg, hbatg⟩ := get?_of_lt g.batches i hig
  have hneg : ¬ ((g.batches.length : Int) ≤ (i : Int)) := by
    exact_mod_cast not_le.mpr hig
  simp only [applyBatchRow, hIdx_bat_bi, batchRowOf, cellAt, List.get?,
    goAtoi_goItoa, exceptOk_bind]
  rw [if_neg hneg]
  simp only [sliceGetI, if_neg (intNatCast_nonneg_not_lt i), Int.toNat_natCast,
    hbatg, exceptOk_bind, updG, updGInt, hIdx_bat2_scc, hIdx_bat2_cn,
    hIdx_bat2_cdd, hIdx_bat2_cid, hIdx_bat2_sec, hIdx_bat2_ced,
    hIdx_bat2_cdate, hIdx_bat2_eed, hIdx_bat2_osc, hIdx_bat2_odfi,
    hIdx_bat2_bn, List.get?, goAtoi_goItoa]
  refine ⟨_, rfl, ?_⟩
  obtain ⟨h1, h2, h3⟩ := stdShape_setBatchHeader g i _ batg hbatg
  exact ⟨h1.trans hstd, h2.trans hiat, h3.trans hhdr⟩

/-- An unedited entries row always applies cleanly and preserves the
structural invariant: only scalar fields of the resolved entry change. -/
theorem applyEntryRow_ok (f₀ g : ACHFile) (hg : RTInv f₀ g)
    (bi ei : Nat) (b₀ : Batch) (e : EntryDetail)
    (hb₀ : f₀.batches.get? bi = some b₀) (he₀ : b₀.entries.get? ei = some e) :
    ∃ g', applyEntryRow entriesHeaders g (entryRowOf bi ei e) = .ok g' ∧ RTInv f₀ g' := by
  obtain ⟨hstd, hiat, hhdr⟩ := hg
  have hbi : bi < f₀.batches.length := (List.get?_eq_some.mp hb₀).1
  have hbig : bi < g.batches.length := by
    rw [batches_length_of_stdShape hstd]; exact hbi
  obtain ⟨batg, hbatg⟩ := get?_of_lt g.batches bi hbig
  have hei : ei < b₀.entries.length := (List.get?_eq_some.mp he₀).1
  have heig : ei < batg.entries.length := by
    rw [entries_length_of_stdShape hstd hbatg hb₀]; exact hei
  obtain ⟨eg, heg⟩ := get?_of_lt batg.entries ei heig
  have hneg1 : ¬ ((g.batches.length : Int) ≤ (bi : Int)) := by
    exact_mod_cast not_le.mpr hbig
  have hneg2 : ¬ ((batg.entries.length : Int) ≤ (ei : Int)) := by
    exact_mod_cast not_le.mpr heig
  simp only [applyEntryRow, parseIdxCell, hIdxD_ent_bi, hIdxD_ent_ei,
    entryRowOf, cellAt, List.get?, goAtoi_goItoa, exceptOk_bind]
  rw [if_neg hneg1]
  simp only [sliceGetI, if_neg (intNatCast_nonneg_not_lt bi), Int.toNat_natCast,
    hbatg, exceptOk_bind]
  rw [if_neg hneg2]
  simp only [if_neg (intNatCast_nonneg_not_lt ei), Int.toNat_natCast, heg,
    exceptOk_bind, updU, updUInt, hIdx_ent_tc, hIdx_ent_rdfi, hIdx_ent_cd,
    hIdx_ent_dfi, hIdx_ent_amt, hIdx_ent_idn, hIdx_ent_nm, hIdx_ent_dd,
    hIdx_ent_ari, hIdx_ent_tn, hIdx_ent_cat, cellAt, List.get?, goAtoi_goItoa]
  obtain ⟨h1, h2, h3⟩ := stdShape_setEntry g bi ei
    ({ eg with
        transactionCode := e.transactionCode,
        rdfiIdentification := e.rdfiIdentification,
        checkDigit := e.checkDigit,
        dfiAccountNumber := trimSpace e.dfiAccountNumber,
        amount := e.amount,
        identificationNumber := trimSpace e.identificationNumber,
        individualName := trimSpace e.individualName,
        discretionaryData := trimSpace e.discretionaryData,
        addendaRecordIndicator := e.addendaRecordIndicator,
        traceNumber := e.traceNumber,
        category := e.category }) batg hbatg eg heg rfl
  exact ⟨_, rfl, h1.trans hstd, h2.trans hiat, h3.trans hhdr⟩


/-- Any addenda-table row whose three index cells are decimal naturals
and whose tag cell exists applies cleanly and preserves the structural
invariant: every dispatch branch either skips or rewrites fields of an
addenda record that is already present. -/
theorem applyAddendaRow_ok (f₀ g : ACHFile) (hg : RTInv f₀ g)
    (bi ei k : Nat) (tv : String) (rec : List String)
    (hc0 : rec.get? 0 = some (goItoa (bi : Int)))
    (hc1 : rec.get? 1 = some (goItoa (ei : Int)))
    (hc2 : rec.get? 2 = some (goItoa (k : Int)))
    (hc3 : rec.get? 3 = some tv) :
    ∃ g', applyAddendaRow stdAddendaHeaders g rec = .ok g' ∧ RTInv f₀ g' := by
  obtain ⟨hstd, hiat, hhdr⟩ := hg
  simp only [applyAddendaRow, parseIdxCell, hIdxD_std_bi, hIdxD_std_ei,
    hIdxD_std_ai, cellAt, hc0, hc1, hc2, goAtoi_goItoa, exceptOk_bind,
    updG, hIdx_std_tag, hc3, Int.toNat_natCast]
  by_cases hb : (g.batches.length : Int) ≤ (bi : Int)
  · rw [if_pos hb]; exact ⟨g, rfl, hstd, hiat, hhdr⟩
  rw [if_neg hb]
  have hbg : bi < g.batches.length := by exact_mod_cast not_le.mp hb
  obtain ⟨batg, hbatg⟩ := get?_of_lt g.batches bi hbg
  simp only [sliceGetI, if_neg (intNatCast_nonneg_not_lt bi), Int.toNat_natCast,
    hbatg, exceptOk_bind]
  by_cases he : (batg.entries.length : Int) ≤ (ei : Int)
  · rw [if_pos he]; exact ⟨g, rfl, hstd, hiat, hhdr⟩
  rw [if_neg he]
  have heg' : ei < batg.entries.length := by exact_mod_cast not_le.mp he
  obtain ⟨eg, heg⟩ := get?_of_lt batg.entries ei heg'
  simp only [if_neg (intNatCast_nonneg_not_lt ei), Int.toNat_natCast, heg,
    exceptOk_bind]
  by_cases ht02 : tv = "02"
  · rw [if_pos ht02]
    cases hx : eg.addenda02 with
    | none => exact ⟨g, rfl, hstd, hiat, hhdr⟩
    | some a =>
      have hsh : entryShape { eg with addenda02 := some (applyAddenda02Mods stdAddendaHeaders rec a) } =
          entryShape eg := by simp [entryShape, hx]
      obtain ⟨ha1, ha2, ha3⟩ := stdShape_setEntry g bi ei _ batg hbatg eg heg hsh
      exact ⟨_, rfl, ha1.trans hstd, ha2.trans hiat, ha3.trans hhdr⟩
  rw [if_neg ht02]
  by_cases ht05 : tv = "05"
  · rw [if_pos ht05]
    by_cases hk : ((k : Nat) : Int) < (eg.addenda05.length : Int)
    · rw [if_pos hk]
      have hkn : k < eg.addenda05.length := by exact_mod_cast hk
      obtain ⟨ao, hao⟩ := get?_of_lt eg.addenda05 k hkn
      simp only [sliceGetI, if_neg (intNatCast_nonneg_not_lt k),
        Int.toNat_natCast, hao, exceptOk_bind]
      cases ao with
      | none => exact ⟨g, rfl, hstd, hiat, hhdr⟩
      | some a =>
        have hmask : (eg.addenda05.set k (some (applyAddenda05Mods stdAddendaHeaders rec a))).map Option.isSome = eg.addenda05.map Option.isSome :=
          map_set_same Option.isSome _ _ _ _ hao rfl
        have hsh : entryShape { eg with addenda05 := eg.addenda05.set k (some (applyAddenda05Mods stdAddendaHeaders rec a)) } =
            entryShape eg := by
          simp [entryShape, hmask]
        obtain ⟨ha1, ha2, ha3⟩ := stdShape_setEntry g bi ei _ batg hbatg eg heg hsh
        exact ⟨_, rfl, ha1.trans hstd, ha2.trans hiat, ha3.trans hhdr⟩
    · rw [if_neg hk]; exact ⟨g, rfl, hstd, hiat, hhdr⟩
  rw [if_neg ht05]
  by_cases ht98 : tv = "98"
  · rw [if_pos ht98]
    cases hx : eg.addenda98 with
    | none => exact ⟨g, rfl, hstd, hiat, hhdr⟩
    | some a =>
      have hsh : entryShape { eg with addenda98 := some (applyAddenda98Mods stdAddendaHeaders rec a) } =
          entryShape eg := by simp [entryShape, hx]
      obtain ⟨ha1, ha2, ha3⟩ := stdShape_setEntry g bi ei _ batg hbatg eg heg hsh
      exact ⟨_, rfl, ha1.trans hstd, ha2.trans hiat, ha3.trans hhdr⟩
  rw [if_neg ht98]
  by_cases ht98r : tv = "98_refused"
  · rw [if_pos ht98r]
    cases hx : eg.addenda98Refused with
    | none => exact ⟨g, rfl, hstd, hiat, hhdr⟩
    | some a =>
      have hsh : entryShape { eg with addenda98Refused := some (applyAddenda98RefusedMods stdAddendaHeaders rec a) } =
          entryShape eg := by simp [entryShape, hx]
      obtain ⟨ha1, ha2, ha3⟩ := stdShape_setEntry g bi ei _ batg hbatg eg heg hsh
      exact ⟨_, rfl, ha1.trans hstd, ha2.trans hiat, ha3.trans hhdr⟩
  rw [if_neg ht98r]
  by_cases ht99 : tv = "99"
  · rw [if_pos ht99]
    cases hx : eg.addenda99 with
    | none => exact ⟨g, rfl, hstd, hiat, hhdr⟩
    | some a =>
      have hsh : entryShape { eg with addenda99 := some (applyAddenda99Mods stdAddendaHeaders rec a) } =
          entryShape eg := by simp [entryShape, hx]
      obtain ⟨ha1, ha2, ha3⟩ := stdShape_setEntry g bi ei _ batg hbatg eg heg hsh
      exact ⟨_, rfl, ha1.trans hstd, ha2.trans hiat, ha3.trans hhdr⟩
  rw [if_neg ht99]
  by_cases ht99d : tv = "99_dishonored"
  · rw [if_pos ht99d]
    cases hx : eg.addenda99Dishonored with
    | none => exact ⟨g, rfl, hstd, hiat, hhdr⟩
    | some a =>
      have hsh : entryShape { eg with addenda99Dishonored := some (applyAddenda99DishonoredMods stdAddendaHeaders rec a) } =
          entryShape eg := by simp [entryShape, hx]
      obtain ⟨ha1, ha2, ha3⟩ := stdShape_setEntry g bi ei _ batg hbatg eg heg hsh
      exact ⟨_, rfl, ha1.trans hstd, ha2.trans hiat, ha3.trans hhdr⟩
  rw [if_neg ht99d]
  by_cases ht99c : tv = "99_contested"
  · rw [if_pos ht99c]
    cases hx : eg.addenda99Contested with
    | none => exact ⟨g, rfl, hstd, hiat, hhdr⟩
    | some a =>
      have hsh : entryShape { eg with addenda99Contested := some (applyAddenda99ContestedMods stdAddendaHeaders rec a) } =
          entryShape eg := by simp [entryShape, hx]
      obtain ⟨ha1, ha2, ha3⟩ := stdShape_setEntry g bi ei _ batg hbatg eg heg hsh
      exact ⟨_, rfl, ha1.trans hstd, ha2.trans hiat, ha3.trans hhdr⟩
  rw [if_neg ht99c]
  exact ⟨g, rfl, hstd, hiat, hhdr⟩


/-- Every flattened standard addenda row has decimal-natural index cells
and a tag cell. -/
theorem entryAddendaRows_cells {bi ei : Nat} {e : EntryDetail} {r : List String}
    (hr : r ∈ entryAddendaRows bi ei e) :
    ∃ (k : Nat) (tv : String), r.get? 0 = some (goItoa (bi : Int)) ∧
      r.get? 1 = some (goItoa (ei : Int)) ∧ r.get? 2 = some (goItoa (k : Int)) ∧
      r.get? 3 = some tv := by
  simp only [entryAddendaRows] at hr
  rcases List.mem_append.mp hr with hr | hr99c
  · rcases List.mem_append.mp hr with hr | hr99d
    · rcases List.mem_append.mp hr with hr | hr98r
      · rcases List.mem_append.mp hr with hr | hr99
        · rcases List.mem_append.mp hr with hr | hr98
          · rcases List.mem_append.mp hr with hr02 | hr05
            · cases hx : e.addenda02 with
              | none => rw [hx] at hr02; simp at hr02
              | some a =>
                rw [hx] at hr02; simp only [List.mem_singleton] at hr02
                subst hr02
                exact ⟨0, "02", rfl, rfl, rfl, rfl⟩
            · obtain ⟨p, hp, hpr⟩ := List.mem_map.mp hr05
              subst hpr
              exact ⟨_, "05", rfl, rfl, rfl, rfl⟩
          · cases hx : e.addenda98 with
            | none => rw [hx] at hr98; simp at hr98
            | some a =>
              rw [hx] at hr98; simp only [List.mem_singleton] at hr98
              subst hr98
              exact ⟨_, "98", rfl, rfl, rfl, rfl⟩
        · cases hx : e.addenda99 with
          | none => rw [hx] at hr99; simp at hr99
          | some a =>
            rw [hx] at hr99; simp only [List.mem_singleton] at hr99
            subst hr99
            exact ⟨_, "99", rfl, rfl, rfl, rfl⟩
      · cases hx : e.addenda98Refused with
        | none => rw [hx] at hr98r; simp at hr98r
        | some a =>
          rw [hx] at hr98r; simp only [List.mem_singleton] at hr98r
          subst hr98r
          exact ⟨_, "98_refused", rfl, rfl, rfl, rfl⟩
    · cases hx : e.addenda99Dishonored with
      | none => rw [hx] at hr99d; simp at hr99d
      | some a =>
        rw [hx] at hr99d; simp only [List.mem_singleton] at hr99d
        subst hr99d
        exact ⟨_, "99_dishonored", rfl, rfl, rfl, rfl⟩
  · cases hx : e.addenda99Contested with
    | none => rw [hx] at hr99c; simp at hr99c
    | some a =>
      rw [hx] at hr99c; simp only [List.mem_singleton] at hr99c
      subst hr99c
      exact ⟨_, "99_contested", rfl, rfl, rfl, rfl⟩

theorem applyBatchMods_conv_ok (f₀ w : ACHFile) (hw : RTInv f₀ w) :
    ∃ w', applyBatchModifications (convertBatches f₀) w = .ok w' ∧ RTInv f₀ w' := by
  refine foldlM_ok_inv (RTInv f₀) _ _ ?_ w hw
  intro g r hg hr
  simp only [convertBatches] at hr
  obtain ⟨p, hp, hpr⟩ := List.mem_map.mp hr
  obtain ⟨i, b⟩ := p
  have hib : f₀.batches.get? i = some b := List.mem_enum_iff_get?.mp hp
  subst hpr
  exact applyBatchRow_ok f₀ g hg i b (List.get?_eq_some.mp hib).1

theorem applyEntryMods_conv_ok (f₀ w : ACHFile) (hw : RTInv f₀ w) :
    ∃ w', applyEntryModifications (convertEntries f₀) w = .ok w' ∧ RTInv f₀ w' := by
  refine foldlM_ok_inv (RTInv f₀) _ _ ?_ w hw
  intro g r hg hr
  simp only [convertEntries] at hr
  obtain ⟨p, hp, hr2⟩ := List.mem_flatMap.mp hr
  obtain ⟨bi, b⟩ := p
  have hb : f₀.batches.get? bi = some b := List.mem_enum_iff_get?.mp hp
  obtain ⟨q, hq, hqr⟩ := List.mem_map.mp hr2
  obtain ⟨ei, e⟩ := q
  have he : b.entries.get? ei = some e := List.mem_enum_iff_get?.mp hq
  subst hqr
  exact applyEntryRow_ok f₀ g hg bi ei b e hb he

theorem applyAddendaMods_conv_ok (f₀ w : ACHFile) (hw : RTInv f₀ w) :
    ∃ w', applyAddendaModifications (convertAddenda f₀) w = .ok w' ∧ RTInv f₀ w' := by
  refine foldlM_ok_inv (RTInv f₀) _ _ ?_ w hw
  intro g r hg hr
  simp only [convertAddenda] at hr
  obtain ⟨p, _, hr2⟩ := List.mem_flatMap.mp hr
  obtain ⟨q, _, hr3⟩ := List.mem_flatMap.mp hr2
  obtain ⟨k, tv, hc0, hc1, hc2, hc3⟩ := entryAddendaRows_cells hr3
  exact applyAddendaRow_ok f₀ g hg p.1 q.1 k tv r hc0 hc1 hc2 hc3


/-- An unedited iat_batches row applies cleanly and preserves the
structural invariant. -/
theorem applyIATBatchRow_ok (f₀ g : ACHFile) (hg : RTInv f₀ g) (i : Nat) (b : IATBatch)
    (hi : i < f₀.iatBatches.length) :
    ∃ g', applyIATBatchRow iatBatchesHeaders g (iatBatchRowOf i b) = .ok g' ∧ RTInv f₀ g' := by
  obtain ⟨hstd, hiat, hhdr⟩ := hg
  have hig : i < g.iatBatches.length := by
    rw [iatBatches_length_of_iatShape hiat]; exact hi
  obtain ⟨batg, hbatg⟩ := get?_of_lt g.iatBatches i hig
  have hle : ¬ ((g.iatBatches.length : Int) ≤ (i : Int)) := by
    exact_mod_cast not_le.mpr hig
  have hguard : ¬ (((i : Int) < 0) ∨ ((g.iatBatches.length : Int) ≤ (i : Int))) := by
    rintro (h | h)
    · exact intNatCast_nonneg_not_lt i h
    · exact hle h
  simp only [applyIATBatchRow, parseIdxCell, hIdxD_iatb_bi, iatBatchRowOf,
    cellAt, List.get?, goAtoi_goItoa, exceptOk_bind]
  rw [if_neg hguard]
  simp only [sliceGetI, if_neg (intNatCast_nonneg_not_lt i), Int.toNat_natCast,
    hbatg, exceptOk_bind, updU, updUInt, hIdx_iatb_scc, hIdx_iatb_ind,
    hIdx_iatb_fei, hIdx_iatb_feri, hIdx_iatb_fer, hIdx_iatb_idcc,
    hIdx_iatb_oid, hIdx_iatb_sec, hIdx_iatb_ced, hIdx_iatb_iocc,
    hIdx_iatb_idcur, hIdx_iatb_eed, hIdx_iatb_odfi, hIdx_iatb_bn,
    cellAt, List.get?, goAtoi_goItoa]
  refine ⟨_, rfl, ?_⟩
  obtain ⟨h1, h2, h3⟩ := iatShape_setIATBatchHeader g i _ batg hbatg
  exact ⟨h1.trans hstd, h2.trans hiat, h3.trans hhdr⟩

/-- An unedited iat_entries row applies cleanly and preserves the
structural invariant. -/
theorem applyIATEntryRow_ok (f₀ g : ACHFile) (hg : RTInv f₀ g)
    (bi ei : Nat) (b₀ : IATBatch) (e : IATEntryDetail)
    (hb₀ : f₀.iatBatches.get? bi = some b₀) (he₀ : b₀.entries.get? ei = some e) :
    ∃ g', applyIATEntryRow iatEntriesHeaders g (iatEntryRowOf bi ei e) = .ok g' ∧ RTInv f₀ g' := by
  obtain ⟨hstd, hiat, hhdr⟩ := hg
  have hbi : bi < f₀.iatBatches.length := (List.get?_eq_some.mp hb₀).1
  have hbig : bi < g.iatBatches.length := by
    rw [iatBatches_length_of_iatShape hiat]; exact hbi
  obtain ⟨batg, hbatg⟩ := get?_of_lt g.iatBatches bi hbig
  have hei : ei < b₀.entries.length := (List.get?_eq_some.mp he₀).1
  have heig : ei < batg.entries.length := by
    rw [iatEntries_length_of_iatShape hiat hbatg hb₀]; exact hei
  obtain ⟨eg, heg⟩ := get?_of_lt batg.entries ei heig
  have hguard1 : ¬ (((bi : Int) < 0) ∨ ((g.iatBatches.length : Int) ≤ (bi : Int))) := by
    rintro (h | h)
    · exact intNatCast_nonneg_not_lt bi h
    · exact (by exact_mod_cast not_le.mpr hbig :
        ¬ ((g.iatBatches.length : Int) ≤ (bi : Int))) h
  have hguard2 : ¬ (((ei : Int) < 0) ∨ ((batg.entries.length : Int) ≤ (ei : Int))) := by
    rintro (h | h)
    · exact intNatCast_nonneg_not_lt ei h
    · exact (by exact_mod_cast not_le.mpr heig :
        ¬ ((batg.entries.length : Int) ≤ (ei : Int))) h
  simp only [applyIATEntryRow, parseIdxCell, hIdxD_iate_bi, hIdxD_iate_ei,
    iatEntryRowOf, cellAt, List.get?, goAtoi_goItoa, exceptOk_bind]
  rw [if_neg hguard1]
  simp only [sliceGetI, if_neg (intNatCast_nonneg_not_lt bi), Int.toNat_natCast,
    hbatg, exceptOk_bind]
  rw [if_neg hguard2]
  simp only [if_neg (intNatCast_nonneg_not_lt ei), Int.toNat_natCast, heg,
    exceptOk_bind, updU, updUInt, hIdx_iate_tc, hIdx_iate_rdfi, hIdx_iate_cd,
    hIdx_iate_ar, hIdx_iate_amt, hIdx_iate_dfi, hIdx_iate_o1, hIdx_iate_o2,
    hIdx_iate_ari, hIdx_iate_tn, hIdx_iate_cat, cellAt, List.get?, goAtoi_goItoa]
  obtain ⟨h1, h2, h3⟩ := iatShape_setIATEntry g bi ei
    ({ eg with
        transactionCode := e.transactionCode,
        rdfiIdentification := e.rdfiIdentification,
        checkDigit := e.checkDigit,
        addendaRecords := e.addendaRecords,
        amount := e.amount,
        dfiAccountNumber := trimSpace e.dfiAccountNumber,
        ofacScreeningIndicator := trimSpace e.ofacScreeningIndicator,
        secondaryOFACScreeningIndicator := trimSpace e.secondaryOFACScreeningIndicator,
        addendaRecordIndicator := e.addendaRecordIndicator,
        traceNumber := e.traceNumber,
        category := e.category }) batg hbatg eg heg rfl
  exact ⟨_, rfl, h1.trans hstd, h2.trans hiat, h3.trans hhdr⟩


theorem hIdxD_iata_bi : hIdxD iatAddendaHeaders "batch_index" = 0 := by rfl
theorem hIdxD_iata_ei : hIdxD iatAddendaHeaders "entry_index" = 1 := by rfl
theorem hIdxD_iata_ai : hIdxD iatAddendaHeaders "addenda_index" = 2 := by rfl
theorem hIdxD_iata_tag : hIdxD iatAddendaHeaders "addenda_type" = 3 := by rfl

/-- Successful guarded-read bind: when the column exists and the row is
long enough, the unguarded string update reads its cell and continues. -/
theorem updU_bind_ok {α γ : Type} {P : γ → Prop} (hs rec : List String)
    (name : String) (i : Nat) (h1 : hIdx hs name = some i) (hi : i < rec.length)
    (f : String → α → α) (x : α) (k : α → Except RtErr γ)
    (hk : ∀ y, ∃ z, k y = .ok z ∧ P z) :
    ∃ z, (updU hs rec name f x >>= k) = .ok z ∧ P z := by
  obtain ⟨v, hv⟩ := get?_of_lt rec i hi
  obtain ⟨z, hz, hp⟩ := hk (f v x)
  refine ⟨z, ?_, hp⟩
  simp only [updU, h1, cellAt, hv, exceptOk_bind, hz]

/-- Successful integer-read bind: whatever the cell parses to, the
update succeeds and continues. -/
theorem updUInt_bind_ok {α γ : Type} {P : γ → Prop} (hs rec : List String)
    (name : String) (i : Nat) (h1 : hIdx hs name = some i) (hi : i < rec.length)
    (f : Int → α → α) (x : α) (k : α → Except RtErr γ)
    (hk : ∀ y, ∃ z, k y = .ok z ∧ P z) :
    ∃ z, (updUInt hs rec name f x >>= k) = .ok z ∧ P z := by
  obtain ⟨v, hv⟩ := get?_of_lt rec i hi
  simp only [updUInt, h1, cellAt, hv, exceptOk_bind]
  cases goAtoi v with
  | some n => exact hk (f n x)
  | none => exact hk x


/-- Any iat_addenda-table row of full width whose index cells are decimal
naturals applies cleanly and preserves the structural invariant. -/
theorem applyIATAddendaRow_ok (f₀ g : ACHFile) (hg : RTInv f₀ g)
    (bi ei k : Nat) (tv : String) (rec : List String)
    (hc0 : rec.get? 0 = some (goItoa (bi : Int)))
    (hc1 : rec.get? 1 = some (goItoa (ei : Int)))
    (hc2 : rec.get? 2 = some (goItoa (k : Int)))
    (hc3 : rec.get? 3 = some tv)
    (hlen : rec.length = 39) :
    ∃ g', applyIATAddendaRow iatAddendaHeaders g rec = .ok g' ∧ RTInv f₀ g' := by
  obtain ⟨hstd, hiat, hhdr⟩ := hg
  simp only [applyIATAddendaRow, parseIdxCell, hIdxD_iata_bi, hIdxD_iata_ei,
    hIdxD_iata_ai, hIdxD_iata_tag, cellAt, hc0, hc1, hc2, hc3, goAtoi_goItoa,
    exceptOk_bind, Int.toNat_natCast]
  by_cases hb : ((bi : Int) < 0) ∨ ((g.iatBatches.length : Int) ≤ (bi : Int))
  · rw [if_pos hb]; exact ⟨g, rfl, hstd, hiat, hhdr⟩
  rw [if_neg hb]
  have hbg : bi < g.iatBatches.length := by
    rcases not_or.mp hb with ⟨_, h2⟩
    exact_mod_cast not_le.mp h2
  obtain ⟨batg, hbatg⟩ := get?_of_lt g.iatBatches bi hbg
  simp only [sliceGetI, if_neg (intNatCast_nonneg_not_lt bi), Int.toNat_natCast,
    hbatg, exceptOk_bind]
  by_cases he : ((ei : Int) < 0) ∨ ((batg.entries.length : Int) ≤ (ei : Int))
  · rw [if_pos he]; exact ⟨g, rfl, hstd, hiat, hhdr⟩
  rw [if_neg he]
  have heg2 : ei < batg.entries.length := by
    rcases not_or.mp he with ⟨_, h2⟩
    exact_mod_cast not_le.mp h2
  obtain ⟨eg, heg⟩ := get?_of_lt batg.entries ei heg2
  simp only [if_neg (intNatCast_nonneg_not_lt ei), Int.toNat_natCast, heg,
    exceptOk_bind]
  by_cases ht10 : tv = "10"
  · rw [if_pos ht10]
    cases hx : eg.addenda10 with
    | none => exact ⟨g, rfl, hstd, hiat, hhdr⟩
    | some a =>
      refine updU_bind_ok iatAddendaHeaders rec "transaction_type_code" 6 (by rfl) (by omega) (fun v a => { a with transactionTypeCode := v }) a _ ?_
      intro y1
      refine updUInt_bind_ok iatAddendaHeaders rec "foreign_payment_amount" 7 (by rfl) (by omega) (fun v a => { a with foreignPaymentAmount := v }) y1 _ ?_
      intro y2
      refine updU_bind_ok iatAddendaHeaders rec "foreign_trace_number" 8 (by rfl) (by omega) (fun v a => { a with foreignTraceNumber := v }) y2 _ ?_
      intro y3
      refine updU_bind_ok iatAddendaHeaders rec "receiving_company_name" 9 (by rfl) (by omega) (fun v a => { a with name := v }) y3 _ ?_
      intro y4
      have hsh : iatEntryShape { eg with addenda10 := some y4 } = iatEntryShape eg := by simp [iatEntryShape, hx]
      obtain ⟨h1, h2, h3⟩ := iatShape_setIATEntry g bi ei _ batg hbatg eg heg hsh
      exact ⟨_, rfl, h1.trans hstd, h2.trans hiat, h3.trans hhdr⟩
  rw [if_neg ht10]
  by_cases ht11 : tv = "11"
  · rw [if_pos ht11]
    cases hx : eg.addenda11 with
    | none => exact ⟨g, rfl, hstd, hiat, hhdr⟩
    | some a =>
      refine updU_bind_ok iatAddendaHeaders rec "originator_name" 10 (by rfl) (by omega) (fun v a => { a with originatorName := v }) a _ ?_
      intro y1
      refine updU_bind_ok iatAddendaHeaders rec "originator_street_address" 11 (by rfl) (by omega) (fun v a => { a with originatorStreetAddress := v }) y1 _ ?_
      intro y2
      have hsh : iatEntryShape { eg with addenda11 := some y2 } = iatEntryShape eg := by simp [iatEntryShape, hx]
      obtain ⟨h1, h2, h3⟩ := iatShape_setIATEntry g bi ei _ batg hbatg eg heg hsh
      exact ⟨_, rfl, h1.trans hstd, h2.trans hiat, h3.trans hhdr⟩
  rw [if_neg ht11]
  by_cases ht12 : tv = "12"
  · rw [if_pos ht12]
    cases hx : eg.addenda12 with
    | none => exact ⟨g, rfl, hstd, hiat, hhdr⟩
    | some a =>
      refine updU_bind_ok iatAddendaHeaders rec "originator_city_state_province" 12 (by rfl) (by omega) (fun v a => { a with originatorCityStateProvince := v }) a _ ?_
      intro y1
      refine updU_bind_ok iatAddendaHeaders rec "originator_country_postal_code" 13 (by rfl) (by omega) (fun v a => { a with originatorCountryPostalCode := v }) y1 _ ?_
      intro y2
      have hsh : iatEntryShape { eg with addenda12 := some y2 } = iatEntryShape eg := by simp [iatEntryShape, hx]
      obtain ⟨h1, h2, h3⟩ := iatShape_setIATEntry g bi ei _ batg hbatg eg heg hsh
      exact ⟨_, rfl, h1.trans hstd, h2.trans hiat, h3.trans hhdr⟩
  rw [if_neg ht12]
  by_cases ht13 : tv = "13"
  · rw [if_pos ht13]
    cases hx : eg.addenda13 with
    | none => exact ⟨g, rfl, hstd, hiat, hhdr⟩
    | some a =>
      refine updU_bind_ok iatAddendaHeaders rec "odfi_name" 14 (by rfl) (by omega) (fun v a => { a with odfiName := v }) a _ ?_
      intro y1
      refine updU_bind_ok iatAddendaHeaders rec "odfi_identification_number_qualifier" 15 (by rfl) (by omega) (fun v a => { a with odfiIDNumberQualifier := v }) y1 _ ?_
      intro y2
      refine updU_bind_ok iatAddendaHeaders rec "odfi_identification" 16 (by rfl) (by omega) (fun v a => { a with odfiIdentification := v }) y2 _ ?_
      intro y3
      refine updU_bind_ok iatAddendaHeaders rec "odfi_branch_country_code" 17 (by rfl) (by omega) (fun v a => { a with odfiBranchCountryCode := v }) y3 _ ?_
      intro y4
      have hsh : iatEntryShape { eg with addenda13 := some y4 } = iatEntryShape eg := by simp [iatEntryShape, hx]
      obtain ⟨h1, h2, h3⟩ := iatShape_setIATEntry g bi ei _ batg hbatg eg heg hsh
      exact ⟨_, rfl, h1.trans hstd, h2.trans hiat, h3.trans hhdr⟩
  rw [if_neg ht13]
  by_cases ht14 : tv = "14"
  · rw [if_pos ht14]
    cases hx : eg.addenda14 with
    | none => exact ⟨g, rfl, hstd, hiat, hhdr⟩
    | some a =>
      refine updU_bind_ok iatAddendaHeaders rec "rdfi_name" 18 (by rfl) (by omega) (fun v a => { a with rdfiName := v }) a _ ?_
      intro y1
      refine updU_bind_ok iatAddendaHeaders rec "rdfi_identification_number_qualifier" 19 (by rfl) (by omega) (fun v a => { a with rdfiIDNumberQualifier := v }) y1 _ ?_
      intro y2
      refine updU_bind_ok iatAddendaHeaders rec "rdfi_identification" 20 (by rfl) (by omega) (fun v a => { a with rdfiIdentification := v }) y2 _ ?_
      intro y3
      refine updU_bind_ok iatAddendaHeaders rec "rdfi_branch_country_code" 21 (by rfl) (by omega) (fun v a => { a with rdfiBranchCountryCode := v }) y3 _ ?_
      intro y4
      have hsh : iatEntryShape { eg with addenda14 := some y4 } = iatEntryShape eg := by simp [iatEntryShape, hx]
      obtain ⟨h1, h2, h3⟩ := iatShape_setIATEntry g bi ei _ batg hbatg eg heg hsh
      exact ⟨_, rfl, h1.trans hstd, h2.trans hiat, h3.trans hhdr⟩
  rw [if_neg ht14]
  by_cases ht15 : tv = "15"
  · rw [if_pos ht15]
    cases hx : eg.addenda15 with
    | none => exact ⟨g, rfl, hstd, hiat, hhdr⟩
    | some a =>
      refine updU_bind_ok iatAddendaHeaders rec "receiver_identification_number" 22 (by rfl) (by omega) (fun v a => { a with receiverIDNumber := v }) a _ ?_
      intro y1
      refine updU_bind_ok iatAddendaHeaders rec "receiver_street_address" 23 (by rfl) (by omega) (fun v a => { a with receiverStreetAddress := v }) y1 _ ?_
      intro y2
      have hsh : iatEntryShape { eg with addenda15 := some y2 } = iatEntryShape eg := by simp [iatEntryShape, hx]
      obtain ⟨h1, h2, h3⟩ := iatShape_setIATEntry g bi ei _ batg hbatg eg heg hsh
      exact ⟨_, rfl, h1.trans hstd, h2.trans hiat, h3.trans hhdr⟩
  rw [if_neg ht15]
  by_cases ht16 : tv = "16"
  · rw [if_pos ht16]
    cases hx : eg.addenda16 with
    | none => exact ⟨g, rfl, hstd, hiat, hhdr⟩
    | some a =>
      refine updU_bind_ok iatAddendaHeaders rec "receiver_city_state_province" 24 (by rfl) (by omega) (fun v a => { a with receiverCityStateProvince := v }) a _ ?_
      intro y1
      refine updU_bind_ok iatAddendaHeaders rec "receiver_country_postal_code" 25 (by rfl) (by omega) (fun v a => { a with receiverCountryPostalCode := v }) y1 _ ?_
      intro y2
      have hsh : iatEntryShape { eg with addenda16 := some y2 } = iatEntryShape eg := by simp [iatEntryShape, hx]
      obtain ⟨h1, h2, h3⟩ := iatShape_setIATEntry g bi ei _ batg hbatg eg heg hsh
      exact ⟨_, rfl, h1.trans hstd, h2.trans hiat, h3.trans hhdr⟩
  rw [if_neg ht16]
  by_cases ht17 : tv = "17"
  · rw [if_pos ht17]
    by_cases hj : 0 ≤ findAddenda17Index eg ((k : Nat) : Int) ∧ findAddenda17Index eg ((k : Nat) : Int) < ((eg.addenda17.length : Nat) : Int)
    · rw [if_pos hj]
      cases hx : eg.addenda17.get? (findAddenda17Index eg ((k : Nat) : Int)).toNat with
      | none => exact ⟨g, rfl, hstd, hiat, hhdr⟩
      | some ao =>
        cases ao with
        | none => exact ⟨g, rfl, hstd, hiat, hhdr⟩
        | some a =>
          refine updU_bind_ok iatAddendaHeaders rec "payment_related_information" 26 (by rfl) (by omega) (fun v a => { a with paymentRelatedInformation := v }) a _ ?_
          intro y1
          have hmask : (eg.addenda17.set (findAddenda17Index eg ((k : Nat) : Int)).toNat (some y1)).map Option.isSome = eg.addenda17.map Option.isSome :=
            map_set_same Option.isSome _ _ _ _ hx rfl
          have hsh : iatEntryShape (setA17 eg (findAddenda17Index eg ((k : Nat) : Int)).toNat y1) = iatEntryShape eg := by
            simp [iatEntryShape, setA17, hmask]
          obtain ⟨h1, h2, h3⟩ := iatShape_setIATEntry g bi ei _ batg hbatg eg heg hsh
          exact ⟨_, rfl, h1.trans hstd, h2.trans hiat, h3.trans hhdr⟩
    · rw [if_neg hj]; exact ⟨g, rfl, hstd, hiat, hhdr⟩
  rw [if_neg ht17]
  by_cases ht18 : tv = "18"
  · rw [if_pos ht18]
    by_cases hj : 0 ≤ findAddenda18Index eg ((k : Nat) : Int) ∧ findAddenda18Index eg ((k : Nat) : Int) < ((eg.addenda18.length : Nat) : Int)
    · rw [if_pos hj]
      cases hx : eg.addenda18.get? (findAddenda18Index eg ((k : Nat) : Int)).toNat with
      | none => exact ⟨g, rfl, hstd, hiat, hhdr⟩
      | some ao =>
        cases ao with
        | none => exact ⟨g, rfl, hstd, hiat, hhdr⟩
        | some a =>
          refine updU_bind_ok iatAddendaHeaders rec "foreign_correspondent_bank_name" 28 (by rfl) (by omega) (fun v a => { a with foreignCorrespondentBankName := v }) a _ ?_
          intro y1
          refine updU_bind_ok iatAddendaHeaders rec "foreign_correspondent_bank_id_number_qualifier" 29 (by rfl) (by omega) (fun v a => { a with foreignCorrespondentBankIDNumberQualifier := v }) y1 _ ?_
          intro y2
          refine updU_bind_ok iatAddendaHeaders rec "foreign_correspondent_bank_id_number" 30 (by rfl) (by omega) (fun v a => { a with foreignCorrespondentBankIDNumber := v }) y2 _ ?_
          intro y3
          refine updU_bind_ok iatAddendaHeaders rec "foreign_correspondent_bank_branch_country_code" 31 (by rfl) (by omega) (fun v a => { a with foreignCorrespondentBankBranchCountryCode := v }) y3 _ ?_
          intro y4
          have hmask : (eg.addenda18.set (findAddenda18Index eg ((k : Nat) : Int)).toNat (some y4)).map Option.isSome = eg.addenda18.map Option.isSome :=
            map_set_same Option.isSome _ _ _ _ hx rfl
          have hsh : iatEntryShape (setA18 eg (findAddenda18Index eg ((k : Nat) : Int)).toNat y4) = iatEntryShape eg := by
            simp [iatEntryShape, setA18, hmask]
          obtain ⟨h1, h2, h3⟩ := iatShape_setIATEntry g bi ei _ batg hbatg eg heg hsh
          exact ⟨_, rfl, h1.trans hstd, h2.trans hiat, h3.trans hhdr⟩
    · rw [if_neg hj]; exact ⟨g, rfl, hstd, hiat, hhdr⟩
  rw [if_neg ht18]
  by_cases ht98 : tv = "98"
  · rw [if_pos ht98]
    cases hx : eg.addenda98 with
    | none => exact ⟨g, rfl, hstd, hiat, hhdr⟩
    | some a =>
      refine updU_bind_ok iatAddendaHeaders rec "original_trace" 32 (by rfl) (by omega) (fun v a => { a with originalTrace := v }) a _ ?_
      intro y1
      refine updU_bind_ok iatAddendaHeaders rec "original_rdfi" 33 (by rfl) (by omega) (fun v a => { a with originalDFI := v }) y1 _ ?_
      intro y2
      refine updU_bind_ok iatAddendaHeaders rec "corrected_data" 34 (by rfl) (by omega) (fun v a => { a with correctedData := v }) y2 _ ?_
      intro y3
      refine updU_bind_ok iatAddendaHeaders rec "change_code" 35 (by rfl) (by omega) (fun v a => { a with changeCode := v }) y3 _ ?_
      intro y4
      refine updU_bind_ok iatAddendaHeaders rec "trace_number" 38 (by rfl) (by omega) (fun v a => { a with traceNumber := v }) y4 _ ?_
      intro y5
      have hsh : iatEntryShape { eg with addenda98 := some y5 } = iatEntryShape eg := by simp [iatEntryShape, hx]
      obtain ⟨h1, h2, h3⟩ := iatShape_setIATEntry g bi ei _ batg hbatg eg heg hsh
      exact ⟨_, rfl, h1.trans hstd, h2.trans hiat, h3.trans hhdr⟩
  rw [if_neg ht98]
  by_cases ht99 : tv = "99"
  · rw [if_pos ht99]
    cases hx : eg.addenda99 with
    | none => exact ⟨g, rfl, hstd, hiat, hhdr⟩
    | some a =>
      refine updU_bind_ok iatAddendaHeaders rec "original_trace" 32 (by rfl) (by omega) (fun v a => { a with originalTrace := v }) a _ ?_
      intro y1
      refine updU_bind_ok iatAddendaHeaders rec "original_rdfi" 33 (by rfl) (by omega) (fun v a => { a with originalDFI := v }) y1 _ ?_
      intro y2
      refine updU_bind_ok iatAddendaHeaders rec "return_code" 36 (by rfl) (by omega) (fun v a => { a with returnCode := v }) y2 _ ?_
      intro y3
      refine updU_bind_ok iatAddendaHeaders rec "addenda_information" 37 (by rfl) (by omega) (fun v a => { a with addendaInformation := v }) y3 _ ?_
      intro y4
      refine updU_bind_ok iatAddendaHeaders rec "trace_number" 38 (by rfl) (by omega) (fun v a => { a with traceNumber := v }) y4 _ ?_
      intro y5
      have hsh : iatEntryShape { eg with addenda99 := some y5 } = iatEntryShape eg := by simp [iatEntryShape, hx]
      obtain ⟨h1, h2, h3⟩ := iatShape_setIATEntry g bi ei _ batg hbatg eg heg hsh
      exact ⟨_, rfl, h1.trans hstd, h2.trans hiat, h3.trans hhdr⟩
  rw [if_neg ht99]
  exact ⟨g, rfl, hstd, hiat, hhdr⟩


/-- Every flattened IAT addenda row has decimal-natural index cells, a
tag cell, and the full 39-column width. -/
theorem iatEntryAddendaRows_cells {bi ei : Nat} {e : IATEntryDetail} {r : List String}
    (hr : r ∈ iatEntryAddendaRows bi ei e) :
    ∃ (k : Nat) (tv : String), r.get? 0 = some (goItoa (bi : Int)) ∧
      r.get? 1 = some (goItoa (ei : Int)) ∧ r.get? 2 = some (goItoa (k : Int)) ∧
      r.get? 3 = some tv ∧ r.length = 39 := by
  simp only [iatEntryAddendaRows, List.mem_append] at hr
  rcases hr with ((((((((((h10 | h11) | h12) | h13) | h14) | h15) | h16) | h17) | h18) | h98) | h99)
  · cases hx : e.addenda10 with
    | none => rw [hx] at h10; simp at h10
    | some a =>
      rw [hx] at h10; simp only [List.mem_singleton] at h10
      subst h10
      exact ⟨_, "10", rfl, rfl, rfl, rfl, rfl⟩
  · cases hx : e.addenda11 with
    | none => rw [hx] at h11; simp at h11
    | some a =>
      rw [hx] at h11; simp only [List.mem_singleton] at h11
      subst h11
      exact ⟨_, "11", rfl, rfl, rfl, rfl, rfl⟩
  · cases hx : e.addenda12 with
    | none => rw [hx] at h12; simp at h12
    | some a =>
      rw [hx] at h12; simp only [List.mem_singleton] at h12
      subst h12
      exact ⟨_, "12", rfl, rfl, rfl, rfl, rfl⟩
  · cases hx : e.addenda13 with
    | none => rw [hx] at h13; simp at h13
    | some a =>
      rw [hx] at h13; simp only [List.mem_singleton] at h13
      subst h13
      exact ⟨_, "13", rfl, rfl, rfl, rfl, rfl⟩
  · cases hx : e.addenda14 with
    | none => rw [hx] at h14; simp at h14
    | some a =>
      rw [hx] at h14; simp only [List.mem_singleton] at h14
      subst h14
      exact ⟨_, "14", rfl, rfl, rfl, rfl, rfl⟩
  · cases hx : e.addenda15 with
    | none => rw [hx] at h15; simp at h15
    | some a =>
      rw [hx] at h15; simp only [List.mem_singleton] at h15
      subst h15
      exact ⟨_, "15", rfl, rfl, rfl, rfl, rfl⟩
  · cases hx : e.addenda16 with
    | none => rw [hx] at h16; simp at h16
    | some a =>
      rw [hx] at h16; simp only [List.mem_singleton] at h16
      subst h16
      exact ⟨_, "16", rfl, rfl, rfl, rfl, rfl⟩
  · obtain ⟨p, hp, hpr⟩ := List.mem_map.mp h17
    subst hpr
    exact ⟨_, "17", rfl, rfl, rfl, rfl, rfl⟩
  · obtain ⟨p, hp, hpr⟩ := List.mem_map.mp h18
    subst hpr
    exact ⟨_, "18", rfl, rfl, rfl, rfl, rfl⟩
  · cases hx : e.addenda98 with
    | none => rw [hx] at h98; simp at h98
    | some a =>
      rw [hx] at h98; simp only [List.mem_singleton] at h98
      subst h98
      exact ⟨_, "98", rfl, rfl, rfl, rfl, rfl⟩
  · cases hx : e.addenda99 with
    | none => rw [hx] at h99; simp at h99
    | some a =>
      rw [hx] at h99; simp only [List.mem_singleton] at h99
      subst h99
      exact ⟨_, "99", rfl, rfl, rfl, rfl, rfl⟩


theorem applyIATBatchMods_conv_ok (f₀ w : ACHFile) (hw : RTInv f₀ w) :
    ∃ w', applyIATBatchModifications (convertIATBatches f₀) w = .ok w' ∧ RTInv f₀ w' := by
  refine foldlM_ok_inv (RTInv f₀) _ _ ?_ w hw
  intro g r hg hr
  simp only [convertIATBatches] at hr
  obtain ⟨p, hp, hpr⟩ := List.mem_map.mp hr
  obtain ⟨i, b⟩ := p
  have hib : f₀.iatBatches.get? i = some b := List.mem_enum_iff_get?.mp hp
  subst hpr
  exact applyIATBatchRow_ok f₀ g hg i b (List.get?_eq_some.mp hib).1

theorem applyIATEntryMods_conv_ok (f₀ w : ACHFile) (hw : RTInv f₀ w) :
    ∃ w', applyIATEntryModifications (convertIATEntries f₀) w = .ok w' ∧ RTInv f₀ w' := by
  refine foldlM_ok_inv (RTInv f₀) _ _ ?_ w hw
  intro g r hg hr
  simp only [convertIATEntries] at hr
  obtain ⟨p, hp, hr2⟩ := List.mem_flatMap.mp hr
  obtain ⟨bi, b⟩ := p
  have hb : f₀.iatBatches.get? bi = some b := List.mem_enum_iff_get?.mp hp
  obtain ⟨q, hq, hqr⟩ := List.mem_map.mp hr2
  obtain ⟨ei, e⟩ := q
  have he : b.entries.get? ei = some e := List.mem_enum_iff_get?.mp hq
  subst hqr
  exact applyIATEntryRow_ok f₀ g hg bi ei b e hb he

theorem applyIATAddendaMods_conv_ok (f₀ w : ACHFile) (hw : RTInv f₀ w) :
    ∃ w', applyIATAddendaModifications (convertIATAddenda f₀) w = .ok w' ∧ RTInv f₀ w' := by
  refine foldlM_ok_inv (RTInv f₀) _ _ ?_ w hw
  intro g r hg hr
  simp only [convertIATAddenda] at hr
  obtain ⟨p, _, hr2⟩ := List.mem_flatMap.mp hr
  obtain ⟨q, _, hr3⟩ := List.mem_flatMap.mp hr2
  obtain ⟨k, tv, hc0, hc1, hc2, hc3, hlen⟩ := iatEntryAddendaRows_cells hr3
  exact applyIATAddendaRow_ok f₀ g hg p.1 q.1 k tv r hc0 hc1 hc2 hc3 hlen


theorem tableStep_ok (P : ACHFile → Prop) (t : Option TableData)
    (app : TableData → ACHFile → Except RtErr ACHFile)
    (happ : ∀ td, t = some td → ∀ w, P w → ∃ w', app td w = .ok w' ∧ P w')
    (w : ACHFile) (hw : P w) :
    ∃ w', tableStep t app w = .ok w' ∧ P w' := by
  cases t with
  | none => exact ⟨w, rfl, hw⟩
  | some td =>
    simp only [tableStep]
    by_cases h : 0 < td.records.length
    · rw [if_pos h]; exact happ td rfl w hw
    · rw [if_neg h]; exact ⟨w, rfl, hw⟩

theorem runStep_ok (F : ACHFile → Except RtErr ACHFile) (f₀ w : ACHFile)
    (h : ∃ w', F w = .ok w' ∧ RTInv f₀ w') :
    ∃ w', runStep F ((⟨f₀, w⟩ : MemState), none) = ((⟨f₀, w'⟩ : MemState), none) ∧
      RTInv f₀ w' := by
  obtain ⟨w', hF, hP⟩ := h
  exact ⟨w', by simp only [runStep, hF], hP⟩

/-- The unedited file-header table writes the original header back. -/
theorem fileHeaderStep_conv_ok (f₀ w : ACHFile) (hw : RTInv f₀ w) :
    ∃ w', fileHeaderStep (fromFileTS f₀) w = .ok w' ∧ RTInv f₀ w' := by
  obtain ⟨hstd, hiat, hhdr⟩ := hw
  refine ⟨{ w with header := f₀.header }, ?_, hstd, hiat, rfl⟩
  show Except.ok (applyFileHeaderModifications (convertFileHeader f₀) w) = _
  rw [applyFileHeader_convert]

/-- Control recalculation succeeds on a file whose header carries the
original's non-empty routing fields, and rewrites only batch controls. -/
theorem fileCreate_ok (f₀ w : ACHFile) (hw : RTInv f₀ w)
    (hdest : f₀.header.immediateDestination ≠ "")
    (horig : f₀.header.immediateOrigin ≠ "") :
    ∃ w', fileCreate w = .ok w' ∧ RTInv f₀ w' := by
  obtain ⟨hstd, hiat, hhdr⟩ := hw
  have hcond : ¬ (w.header.immediateDestination = "" ∨ w.header.immediateOrigin = "") := by
    rw [hhdr]
    rintro (h | h)
    · exact hdest h
    · exact horig h
  refine ⟨{ w with batches := w.batches.map recalcBatch }, ?_, ?_, hiat, hhdr⟩
  · simp only [fileCreate, if_neg hcond]
  · have hrec : stdShape { w with batches := w.batches.map recalcBatch } = stdShape w := by
      show (w.batches.map recalcBatch).map batchShape = w.batches.map batchShape
      rw [List.map_map]
      exact List.map_congr_left (fun b _ => rfl)
    exact hrec.trans hstd


/-- C1.  Flattening a hierarchical file with `FromFile` and immediately
reconstructing it with `ToFile` with no edits to any table succeeds
(given the non-empty routing fields the final `Create` pass requires)
and yields a file whose header scalar fields all equal the original's
and whose batch/entry/addenda structure matches the original's: the same
number of batches, the same number of entries in each batch, and on each
entry the same addenda variants with the same multiplicity and occupied
slice positions, so the discriminating data of every addenda record (its
variant tag and its position among the entry's addenda) is preserved. -/
theorem round_trip_preserves_structure (f : ACHFile)
    (hdest : f.header.immediateDestination ≠ "")
    (horig : f.header.immediateOrigin ≠ "") :
    ∃ g, ToFile (FromFile (some f)) = .ok g ∧ g.header = f.header ∧
      stdShape g = stdShape f ∧ iatShape g = iatShape f := by
  have st2 : ∀ w, RTInv f w →
      ∃ w', tableStep (fromFileTS f).batches applyBatchModifications w = .ok w' ∧ RTInv f w' := by
    intro w hw
    refine tableStep_ok (RTInv f) _ _ ?_ w hw
    intro td htd w' hw'
    simp only [fromFileTS] at htd
    obtain rfl := Option.some.inj htd
    exact applyBatchMods_conv_ok f w' hw'
  have st3 : ∀ w, RTInv f w →
      ∃ w', tableStep (fromFileTS f).entries applyEntryModifications w = .ok w' ∧ RTInv f w' := by
    intro w hw
    refine tableStep_ok (RTInv f) _ _ ?_ w hw
    intro td htd w' hw'
    simp only [fromFileTS] at htd
    obtain rfl := Option.some.inj htd
    exact applyEntryMods_conv_ok f w' hw'
  have st4 : ∀ w, RTInv f w →
      ∃ w', tableStep (fromFileTS f).addenda applyAddendaModifications w = .ok w' ∧ RTInv f w' := by
    intro w hw
    refine tableStep_ok (RTInv f) _ _ ?_ w hw
    intro td htd w' hw'
    simp only [fromFileTS] at htd
    obtain rfl := Option.some.inj htd
    exact applyAddendaMods_conv_ok f w' hw'
  have st5 : ∀ w, RTInv f w →
      ∃ w', tableStep (fromFileTS f).iatBatches applyIATBatchModifications w = .ok w' ∧ RTInv f w' := by
    intro w hw
    refine tableStep_ok (RTInv f) _ _ ?_ w hw
    intro td htd w' hw'
    simp only [fromFileTS] at htd
    by_cases hc : 0 < f.iatBatches.length
    · rw [if_pos hc] at htd
      obtain rfl := Option.some.inj htd
      exact applyIATBatchMods_conv_ok f w' hw'
    · rw [if_neg hc] at htd
      exact absurd htd (by simp)
  have st6 : ∀ w, RTInv f w →
      ∃ w', tableStep (fromFileTS f).iatEntries applyIATEntryModifications w = .ok w' ∧ RTInv f w' := by
    intro w hw
    refine tableStep_ok (RTInv f) _ _ ?_ w hw
    intro td htd w' hw'
    simp only [fromFileTS] at htd
    by_cases hc : 0 < f.iatBatches.length
    · rw [if_pos hc] at htd
      obtain rfl := Option.some.inj htd
      exact applyIATEntryMods_conv_ok f w' hw'
    · rw [if_neg hc] at htd
      exact absurd htd (by simp)
  have st7 : ∀ w, RTInv f w →
      ∃ w', tableStep (fromFileTS f).iatAddenda applyIATAddendaModifications w = .ok w' ∧ RTInv f w' := by
    intro w hw
    refine tableStep_ok (RTInv f) _ _ ?_ w hw
    intro td htd w' hw'
    simp only [fromFileTS] at htd
    by_cases hc : 0 < f.iatBatches.length
    · rw [if_pos hc] at htd
      obtain rfl := Option.some.inj htd
      exact applyIATAddendaMods_conv_ok f w' hw'
    · rw [if_neg hc] at htd
      exact absurd htd (by simp)
  have h0 : RTInv f f := ⟨rfl, rfl, rfl⟩
  obtain ⟨w1, hr1, hP1⟩ := runStep_ok (fileHeaderStep (fromFileTS f)) f f
    (fileHeaderStep_conv_ok f f h0)
  obtain ⟨w2, hr2, hP2⟩ := runStep_ok
    (tableStep (fromFileTS f).batches applyBatchModifications) f w1 (st2 w1 hP1)
  obtain ⟨w3, hr3, hP3⟩ := runStep_ok
    (tableStep (fromFileTS f).entries applyEntryModifications) f w2 (st3 w2 hP2)
  obtain ⟨w4, hr4, hP4⟩ := runStep_ok
    (tableStep (fromFileTS f).addenda applyAddendaModifications) f w3 (st4 w3 hP3)
  obtain ⟨w5, hr5, hP5⟩ := runStep_ok
    (tableStep (fromFileTS f).iatBatches applyIATBatchModifications) f w4 (st5 w4 hP4)
  obtain ⟨w6, hr6, hP6⟩ := runStep_ok
    (tableStep (fromFileTS f).iatEntries applyIATEntryModifications) f w5 (st6 w5 hP5)
  obtain ⟨w7, hr7, hP7⟩ := runStep_ok
    (tableStep (fromFileTS f).iatAddenda applyIATAddendaModifications) f w6 (st7 w6 hP6)
  obtain ⟨w8, hr8, hP8⟩ := runStep_ok fileCreate f w7
    (fileCreate_ok f w7 hP7 hdest horig)
  have hmem : toFileMem (fromFileTS f) f = ((⟨f, w8⟩ : MemState), none) := by
    simp only [toFileMem, deepCopyFile]
    rw [hr1, hr2, hr3, hr4, hr5, hr6, hr7, hr8]
  refine ⟨w8, ?_, hP8.2.2, hP8.1, hP8.2.1⟩
  show ToFile (some (fromFileTS f)) = .ok w8
  simp only [ToFile]
  rw [show (fromFileTS f).originalFile = some f from rfl]
  simp only [hmem]

theorem round_trip_preserves_structure_witness :
    (c7File.header.immediateDestination ≠ "" ∧
     c7File.header.immediateOrigin ≠ "") ∧
    ∃ g, ToFile (FromFile (some c7File)) = .ok g ∧ g.header = c7File.header ∧
      stdShape g = stdShape c7File ∧ iatShape g = iatShape c7File :=
  ⟨⟨by decide, by decide⟩,
    round_trip_preserves_structure c7File (by decide) (by decide)⟩

end AchConv